import Mathlib

/-!
# CasADi function abstraction (`casadi/fx/fx_internal.cpp`)

A shallow embedding of `FXInternal`: the per-slot `FunctionIO` buffers, the
index-checked accessors, `init`, the Jacobian-sparsity cache and the symbolic
Jacobian construction.  C++ exceptions are values of `Exception`; member
functions that mutate `*this` return the new object explicitly.
-/

namespace CasADi

/-- The abnormal outcomes of the embedded code: `CasadiException` with its
message, the two standard-library exceptions of `std::vector`, and the
undefined behaviour of an unchecked `operator[]` outside the vector. -/
inductive Exception where
  | CasadiException (msg : String)
  | out_of_range
  | length_error
  | undefined_behaviour
  deriving DecidableEq, Repr

/-- Modelled from the spec: the node behind a `CRSSparsity` handle (class
`CRSSparsity` is declared outside the two source files): a compressed-row
pattern, `col` listing the column of every structural nonzero row by row and
`rowind` the offset at which each row starts. -/
structure CRSSparsityNode where
  nrow : Nat
  ncol : Nat
  col : List Nat
  rowind : List Nat
  deriving DecidableEq, Repr

/-- A `CRSSparsity` is a shared handle: `none` is the null handle
(`isNull()` true), `some node` points at a pattern. -/
abbrev CRSSparsity := Option CRSSparsityNode

/-- The test `CRSSparsity::isNull()`. -/
def CRSSparsity.isNull (sp : CRSSparsity) : Bool := sp.isNone

/-- Modelled from the spec: the constructor `CRSSparsity(nrow, ncol, dense)`
(`dense` defaults to `false`): the dense pattern has every position
structurally nonzero, the other one has no structural nonzero. -/
def CRSSparsity.create (nrow ncol : Nat) (dense : Bool) : CRSSparsity :=
  if dense then
    some
      { nrow := nrow, ncol := ncol,
        col := (List.range nrow).flatMap (fun _ => List.range ncol),
        rowind := (List.range (nrow + 1)).map (fun r => r * ncol) }
  else
    some { nrow := nrow, ncol := ncol, col := [], rowind := List.replicate (nrow + 1) 0 }

/-- The number of structural nonzeros of a pattern (zero for a null handle). -/
def CRSSparsity.size (sp : CRSSparsity) : Nat :=
  match sp with
  | none => 0
  | some node => node.col.length

/-- Modelled from the spec: `Matrix<T>` for the primal values and the
sensitivity directions (the class template is declared outside the two source
files): a sparsity pattern and one entry per structural nonzero. -/
structure Matrix (T : Type) where
  sparsity : CRSSparsityNode
  data : List T
  deriving DecidableEq, Repr

/-- The default-constructed `Matrix<T>()`: the empty 0-by-0 matrix. -/
def Matrix.empty {T : Type} : Matrix T :=
  { sparsity := { nrow := 0, ncol := 0, col := [], rowind := [0] }, data := [] }

/-- The total number of entries, `Matrix<T>::numel()`: rows times columns
(as a natural number; the `int` product is not reduced modulo `2^32`). -/
def Matrix.numel {T : Type} (m : Matrix T) : Nat := m.sparsity.nrow * m.sparsity.ncol

/-- One input or output slot: the primal value, the forward-sensitivity
directions and the adjoint-sensitivity directions. -/
structure FunctionIO (T : Type) where
  data : Matrix T
  dataF : List (Matrix T)
  dataA : List (Matrix T)
  deriving DecidableEq, Repr

/-- The default-constructed slot that `std::vector::resize` appends. -/
def FunctionIO.default {T : Type} : FunctionIO T :=
  { data := Matrix.empty, dataF := [], dataA := [] }

/-- Modelled from the spec: `FunctionIO::init()` (defined outside the two
source files): the slot is validated; the direction sequences keep the lengths
they were resized to. -/
def FunctionIO.init {T : Type} (io : FunctionIO T) : FunctionIO T := io

/-- The call `v.resize(n)` of `std::vector` with an `int` argument: a negative
`n` converts to a `size_t` beyond `max_size()` and throws `length_error`;
otherwise the vector is truncated or padded with default-constructed elements. -/
def vectorResize {A : Type} (dflt : A) (v : List A) (n : Int) : Except Exception (List A) :=
  if n < 0 then .error .length_error
  else .ok (v.take n.toNat ++ List.replicate (n.toNat - v.length) dflt)

/-- The call `v.resize(n)` with a size `n` that is itself a container size
(never negative). -/
def vectorResizeNat {A : Type} (dflt : A) (v : List A) (n : Nat) : List A :=
  v.take n ++ List.replicate (n - v.length) dflt

/-- The call `v.at(k)` of `std::vector` with an `int` argument: a negative `k`
converts to a huge `size_t`, so every `k` outside `[0, size)` throws
`out_of_range`. -/
def vectorAt {A : Type} (v : List A) (k : Int) : Except Exception A :=
  if k < 0 then .error .out_of_range
  else
    match v.get? k.toNat with
    | some a => .ok a
    | none => .error .out_of_range

/-- The unchecked `v[k]` of `std::vector` with an `int` index. -/
def vectorIndex {A : Type} (v : List A) (k : Int) : Except Exception A :=
  if k < 0 then .error .undefined_behaviour
  else
    match v.get? k.toNat with
    | some a => .ok a
    | none => .error .undefined_behaviour

mutual
/-- Function handles (`FX` and its subclasses `Jacobian`, `MXFunction`):
`null` is the empty handle, `node` the handle that `assignNode(this)` points
at the function object itself, `JacobianNode fcn iind oind` a Jacobian object
of `fcn` for input `iind` and output `oind`, `MXFunction inputv outputv` a
function built from symbolic inputs and outputs. -/
inductive FX where
  | null
  | node
  | JacobianNode (fcn : FX) (iind oind : Int)
  | MXFunction (inputv outputv : List MX)
/-- Symbolic matrix expressions (`MX`): a named symbolic placeholder with its
sparsity, output `oind` of the evaluation of a function on arguments, and the
zero matrix of a given shape. -/
inductive MX where
  | null
  | symbolic (name : String) (sp : CRSSparsity)
  | evaluation (fcn : FX) (arg : List MX) (oind : Nat)
  | zeros (nrow ncol : Nat)
end

/-- The test `FX::isNull()`. -/
def FX.isNull : FX → Bool
  | .null => true
  | _ => false

/-- Modelled from the spec: `FX::call(const vector<MX>&)` (defined outside the
two source files) for a function with `nout` outputs: one evaluation node per
output, over the given symbolic arguments. -/
def FX.call (fcn : FX) (nout : Nat) (arg : List MX) : List MX :=
  (List.range nout).map (fun o => MX.evaluation fcn arg o)

/-- Values of the option and statistics dictionaries (`GenericType`). -/
inductive GenericType where
  | OT_BOOLEAN (b : Bool)
  | OT_INTEGER (i : Int)
  | OT_STRING (s : String)
  deriving DecidableEq, Repr

/-- The options read by `FXInternal`, with the defaults its constructor
registers. -/
structure Options where
  name : String := "unnamed_function"
  sparse : Bool := true
  number_of_fwd_dir : Int := 1
  number_of_adj_dir : Int := 1
  verbose : Bool := false
  store_jacobians : Bool := false
  deriving DecidableEq, Repr

/-- Modelled from the spec: the member `jac_sparsity_`, a
`Matrix<CRSSparsity>` keyed by (output index, input index); a position without
an entry holds the null handle. -/
structure JacSparsityTable where
  size1 : Nat := 0
  size2 : Nat := 0
  entries : List ((Nat × Nat) × CRSSparsity) := []
  deriving DecidableEq, Repr

/-- Modelled from the spec: `Matrix<CRSSparsity>::resize(n, m)`: the table gets
`n` rows and `m` columns and keeps the entries that still lie inside. -/
def JacSparsityTable.resize (t : JacSparsityTable) (n m : Nat) : JacSparsityTable :=
  { size1 := n, size2 := m,
    entries := t.entries.filter (fun e => decide (e.1.1 < n) && decide (e.1.2 < m)) }

/-- The handle stored at position `(o, i)`, null when there is no entry. -/
def JacSparsityTable.lookup (t : JacSparsityTable) (o i : Nat) : CRSSparsity :=
  match t.entries.find? (fun e => e.1 == (o, i)) with
  | some e => e.2
  | none => none

/-- Modelled from the spec: reading through the reference
`jac_sparsity_.elem(oind, iind)`: a position outside the table is an error. -/
def JacSparsityTable.elem (t : JacSparsityTable) (oind iind : Int) : Except Exception CRSSparsity :=
  if oind < 0 ∨ oind ≥ t.size1 ∨ iind < 0 ∨ iind ≥ t.size2 then
    .error (.CasadiException "out of bounds")
  else .ok (t.lookup oind.toNat iind.toNat)

/-- Assignment through the reference `jac_sparsity_.elem(oind, iind)`. -/
def JacSparsityTable.assign (t : JacSparsityTable) (oind iind : Int) (sp : CRSSparsity) :
    JacSparsityTable :=
  { t with
    entries :=
      ((oind.toNat, iind.toNat), sp) ::
        t.entries.filter (fun e => !(e.1 == (oind.toNat, iind.toNat))) }

/-- The data members of `FXInternal`, together with its options and the name
`typeid(*this).name()` of its dynamic class.  `R` stands for `double`. -/
structure FXInternal (R : Type) where
  typeid_name : String
  options : Options := {}
  input_ : List ( FunctionIO R) := []
  output_ : List ( FunctionIO R) := []
  nfdir_ : Int := 0
  nadir_ : Int := 0
  verbose_ : Bool := false
  store_jacobians_ : Bool := false
  is_init_ : Bool := false
  jacs_ : List (List FX) := []
  jac_sparsity_ : JacSparsityTable := {}
  stats_ : List (String × GenericType) := []
  monitors_ : List String := []

variable {R : Type}

/-- The constructor `FXInternal::FXInternal()`: default options, `is_init_`
and `verbose_` false, empty containers. -/
def FXInternal.create (R : Type) (typeid_name : String) : FXInternal R :=
  { typeid_name := typeid_name, is_init_ := false, verbose_ := false }

/-- `FXInternal::getNumInputs`: the size of `input_`. -/
def getNumInputs (self : FXInternal R) : Nat := self.input_.length

/-- `FXInternal::getNumOutputs`: the size of `output_`. -/
def getNumOutputs (self : FXInternal R) : Nat := self.output_.length

/-- `FXInternal::isInit`. -/
def isInit (self : FXInternal R) : Bool := self.is_init_

/-- `FXInternal::setNumInputs`. -/
def setNumInputs (self : FXInternal R) (num_in : Int) : Except Exception (FXInternal R) :=
  match vectorResize FunctionIO.default self.input_ num_in with
  | .error e => .error e
  | .ok v => .ok { self with input_ := v }

/-- `FXInternal::setNumOutputs`. -/
def setNumOutputs (self : FXInternal R) (num_out : Int) : Except Exception (FXInternal R) :=
  match vectorResize FunctionIO.default self.output_ num_out with
  | .error e => .error e
  | .ok v => .ok { self with output_ := v }

/-- `FXInternal::inputStruct`. -/
def inputStruct (self : FXInternal R) (i : Int) : Except Exception ( FunctionIO R) :=
  if i < 0 ∨ i ≥ self.input_.length then
    .error (.CasadiException
      ("In function " ++ self.options.name ++ ": input " ++ toString i ++
        " not in interval [0," ++ toString self.input_.length ++ "]"))
  else vectorAt self.input_ i

/-- `FXInternal::outputStruct`. -/
def outputStruct (self : FXInternal R) (i : Int) : Except Exception ( FunctionIO R) :=
  if i < 0 ∨ i ≥ self.output_.length then
    .error (.CasadiException
      ("In function " ++ self.options.name ++ ": output " ++ toString i ++
        " not in interval [0," ++ toString self.output_.length ++ "]"))
  else vectorAt self.output_ i

/-- `FXInternal::input`. -/
def input (self : FXInternal R) (iind : Int) : Except Exception (Matrix R) :=
  (inputStruct self iind).map (fun io => io.data)

/-- `FXInternal::output`. -/
def output (self : FXInternal R) (oind : Int) : Except Exception (Matrix R) :=
  (outputStruct self oind).map (fun io => io.data)

/-- `FXInternal::fwdSeed`. -/
def fwdSeed (self : FXInternal R) (iind dir : Int) : Except Exception (Matrix R) :=
  (inputStruct self iind).bind (fun io => vectorAt io.dataF dir)

/-- `FXInternal::fwdSens`. -/
def fwdSens (self : FXInternal R) (oind dir : Int) : Except Exception (Matrix R) :=
  (outputStruct self oind).bind (fun io => vectorAt io.dataF dir)

/-- `FXInternal::adjSeed`. -/
def adjSeed (self : FXInternal R) (oind dir : Int) : Except Exception (Matrix R) :=
  (outputStruct self oind).bind (fun io => vectorAt io.dataA dir)

/-- `FXInternal::adjSens`. -/
def adjSens (self : FXInternal R) (iind dir : Int) : Except Exception (Matrix R) :=
  (inputStruct self iind).bind (fun io => vectorAt io.dataA dir)

/-- The two loops of `FXInternal::init` over `input_` and `output_`: every
slot has `dataF` resized to `nfdir_`, `dataA` resized to `nadir_`, and is then
initialised. -/
def initSlots (nfdir nadir : Int) : List ( FunctionIO R) → Except Exception (List ( FunctionIO R))
  | [] => .ok []
  | io :: rest =>
    match vectorResize Matrix.empty io.dataF nfdir with
    | .error e => .error e
    | .ok dF =>
      match vectorResize Matrix.empty io.dataA nadir with
      | .error e => .error e
      | .ok dA =>
        match initSlots nfdir nadir rest with
        | .error e => .error e
        | .ok rest1 => .ok ( FunctionIO.init { io with dataF := dF, dataA := dA } :: rest1)

/-- `FXInternal::init`.  The member `store_jacobians_` is read from the option
`"verbose"`, as in the source. -/
def init (self : FXInternal R) : Except Exception (FXInternal R) :=
  let nfdir := self.options.number_of_fwd_dir
  let nadir := self.options.number_of_adj_dir
  let verbose := self.options.verbose
  let store_jacobians := self.options.verbose
  match initSlots nfdir nadir self.input_ with
  | .error e => .error e
  | .ok inp =>
    match initSlots nfdir nadir self.output_ with
    | .error e => .error e
    | .ok out =>
      .ok
        { self with
          nfdir_ := nfdir
          nadir_ := nadir
          verbose_ := verbose
          store_jacobians_ := store_jacobians
          input_ := inp
          output_ := out
          jacs_ :=
            if store_jacobians then
              (vectorResizeNat [] self.jacs_ inp.length).map
                (fun row => vectorResizeNat FX.null row out.length)
            else self.jacs_
          jac_sparsity_ := self.jac_sparsity_.resize out.length inp.length
          is_init_ := true }

/-- `FXInternal::hessian`. -/
def hessian (self : FXInternal R) (_iind _oind : Int) : Except Exception FX :=
  .error (.CasadiException
    ("FXInternal::hessian: hessian not defined for class " ++ self.typeid_name))

/-- `FXInternal::getJacSparsity`, the base implementation of the virtual
member: the dense pattern with `output(oind).numel()` rows and
`input(iind).numel()` columns.  The two constructor arguments are evaluated
from left to right. -/
def getJacSparsity (self : FXInternal R) (iind oind : Int) : Except Exception CRSSparsity :=
  match output self oind with
  | .error e => .error e
  | .ok o =>
    match input self iind with
    | .error e => .error e
    | .ok i => .ok (CRSSparsity.create o.numel i.numel true)

/-- The outcome of a call of `jacSparsity`: what it returns or throws, the
object afterwards, and the arguments of every call of the virtual
`getJacSparsity` it made. -/
structure JacSparsityCall (R : Type) where
  ret : Except Exception CRSSparsity
  self : FXInternal R
  getJacSparsityCalls : List (Int × Int)

/-- `FXInternal::jacSparsity`.  The virtual member `getJacSparsity` is the
parameter `getJS`; `jsp` is the table position `(oind, iind)`, read through
`elem` and written through `assign`.  A failed `casadi_assert_message` throws
a `CasadiException` carrying its message; constructor arguments are evaluated
from left to right. -/
def jacSparsity (getJS : FXInternal R → Int → Int → Except Exception CRSSparsity)
    (self : FXInternal R) (iind oind : Int) : JacSparsityCall R :=
  if !isInit self then
    { ret := .error (.CasadiException "Function not initialized."), self := self,
      getJacSparsityCalls := [] }
  else
    match self.jac_sparsity_.elem oind iind with
    | .error e => { ret := .error e, self := self, getJacSparsityCalls := [] }
    | .ok jsp =>
      if jsp.isNull then
        match getJS self iind oind with
        | .error e => { ret := .error e, self := self, getJacSparsityCalls := [(iind, oind)] }
        | .ok jsp1 =>
          let self1 := { self with jac_sparsity_ := self.jac_sparsity_.assign oind iind jsp1 }
          if jsp1.isNull then
            match output self1 oind with
            | .error e =>
              { ret := .error e, self := self1, getJacSparsityCalls := [(iind, oind)] }
            | .ok o =>
              match input self1 iind with
              | .error e =>
                { ret := .error e, self := self1, getJacSparsityCalls := [(iind, oind)] }
              | .ok i =>
                let jsp2 := CRSSparsity.create o.numel i.numel false
                { ret := .ok jsp2,
                  self :=
                    { self1 with jac_sparsity_ := self1.jac_sparsity_.assign oind iind jsp2 },
                  getJacSparsityCalls := [(iind, oind)] }
          else { ret := .ok jsp1, self := self1, getJacSparsityCalls := [(iind, oind)] }
      else { ret := .ok jsp, self := self, getJacSparsityCalls := [] }

/-- The placeholder that `symbolicInput` creates for input `i`: the symbol
named `x_i` with the sparsity of the primal value of slot `i`. -/
def symbolicInputAt (self : FXInternal R) (i : Nat) : MX :=
  MX.symbolic ("x_" ++ toString i) ((self.input_.get? i).map (fun io => io.data.sparsity))

/-- The loop of `FXInternal::symbolicInput` over the indices `i`. -/
def symbolicInputLoop (self : FXInternal R) : List Nat → Except Exception (List MX)
  | [] => .ok []
  | i :: rest =>
    match input self (i : Int) with
    | .error e => .error e
    | .ok m =>
      match symbolicInputLoop self rest with
      | .error e => .error e
      | .ok ret => .ok (MX.symbolic ("x_" ++ toString i) (some m.sparsity) :: ret)

/-- `FXInternal::symbolicInput`.  A failed `casadi_assert` throws a
`CasadiException`. -/
def symbolicInput (self : FXInternal R) : Except Exception (List MX) :=
  if !isInit self then .error (.CasadiException "Assertion isInit() failed")
  else symbolicInputLoop self (List.range (getNumInputs self))

/-- The outcome of a call of `jacobian`: the function it returns or the
exception it throws, and the `(iind, oind)` arguments of every `Jacobian`
object it constructed. -/
structure JacobianCall where
  ret : Except Exception FX
  constructed : List (Int × Int)

/-- The loop of `FXInternal::jacobian` over the requested blocks
`(first, second)` = (output index, input index); `j_out` accumulates the
outputs and `log` the constructed `Jacobian` objects.  The constructor of
class `Jacobian` (declared in `jacobian.hpp`) is the parameter `Jacobian`. -/
def jacobianLoop (Jacobian : FX → Int → Int → FX) (self : FXInternal R) (fcn : FX)
    (j_in fcn_eval : List MX) :
    List (Int × Int) → List MX → List (Int × Int) → Except Exception (List MX) × List (Int × Int)
  | [], j_out, log => (.ok j_out, log)
  | it :: rest, j_out, log =>
    if it.2 = -1 then
      match vectorIndex fcn_eval it.1 with
      | .error e => (.error e, log)
      | .ok v => jacobianLoop Jacobian self fcn j_in fcn_eval rest (j_out ++ [v]) log
    else
      let J := Jacobian fcn it.2 it.1
      let log1 := log ++ [(it.2, it.1)]
      if !J.isNull then
        jacobianLoop Jacobian self fcn j_in fcn_eval rest
          (j_out ++ [MX.evaluation J j_in 0]) log1
      else
        match output self it.1 with
        | .error e => (.error e, log1)
        | .ok o =>
          match input self it.2 with
          | .error e => (.error e, log1)
          | .ok i =>
            jacobianLoop Jacobian self fcn j_in fcn_eval rest
              (j_out ++ [MX.zeros o.numel i.numel]) log1

/-- The general path of `FXInternal::jacobian`: the loop, then
`MXFunction(j_in, j_out)`. -/
def jacobianGeneral (Jacobian : FX → Int → Int → FX) (self : FXInternal R) (fcn : FX)
    (j_in fcn_eval : List MX) (jblocks : List (Int × Int)) : JacobianCall :=
  match jacobianLoop Jacobian self fcn j_in fcn_eval jblocks [] [] with
  | (.error e, log) => { ret := .error e, constructed := log }
  | (.ok j_out, log) => { ret := .ok (FX.MXFunction j_in j_out), constructed := log }

/-- `FXInternal::jacobian`. -/
def jacobian (Jacobian : FX → Int → Int → FX) (self : FXInternal R)
    (jblocks : List (Int × Int)) : JacobianCall :=
  match symbolicInput self with
  | .error e => { ret := .error e, constructed := [] }
  | .ok j_in =>
    let fcn := FX.node
    let fcn_eval := fcn.call (getNumOutputs self) j_in
    match jblocks with
    | [front] =>
      if front.2 ≥ 0 then
        { ret := .ok (Jacobian fcn front.2 front.1), constructed := [(front.2, front.1)] }
      else jacobianGeneral Jacobian self fcn j_in fcn_eval jblocks
    | _ => jacobianGeneral Jacobian self fcn j_in fcn_eval jblocks

/-- An initialized function object, as `init` leaves it: `is_init_` is set,
every slot has `nfdir_` forward and `nadir_` adjoint directions, and the
sparsity table has one row per output and one column per input. -/
structure Initialized (fx : FXInternal R) : Prop where
  is_init : fx.is_init_ = true
  fwd_in : ∀ io ∈ fx.input_, (io.dataF.length : Int) = fx.nfdir_
  adj_in : ∀ io ∈ fx.input_, (io.dataA.length : Int) = fx.nadir_
  fwd_out : ∀ io ∈ fx.output_, (io.dataF.length : Int) = fx.nfdir_
  adj_out : ∀ io ∈ fx.output_, (io.dataA.length : Int) = fx.nadir_
  shape : fx.jac_sparsity_.size1 = fx.output_.length ∧
    fx.jac_sparsity_.size2 = fx.input_.length

/-! ## Example objects -/

/-- A dense `nrow`-by-`ncol` matrix of zeros. -/
def exampleMatrix (nrow ncol : Nat) : Matrix Int :=
  { sparsity :=
      { nrow := nrow, ncol := ncol,
        col := (List.range nrow).flatMap (fun _ => List.range ncol),
        rowind := (List.range (nrow + 1)).map (fun r => r * ncol) },
    data := List.replicate (nrow * ncol) 0 }

/-- A slot holding a dense `nrow`-by-`ncol` primal value and no directions. -/
def exampleSlot (nrow ncol : Nat) : FunctionIO Int :=
  { data := exampleMatrix nrow ncol, dataF := [], dataA := [] }

/-- A function object before `init`: two inputs (2-by-1 and 3-by-1), one
output (2-by-1), two forward directions and one adjoint direction. -/
def exampleFX : FXInternal Int :=
  { typeid_name := "N6CasADi10SXFunctionE",
    options := { name := "f", number_of_fwd_dir := 2, number_of_adj_dir := 1 },
    input_ := [exampleSlot 2 1, exampleSlot 3 1],
    output_ := [exampleSlot 2 1] }

/-- The object `exampleFX` after `init`. -/
def exampleInitFX : FXInternal Int :=
  { exampleFX with
    nfdir_ := 2
    nadir_ := 1
    input_ :=
      [{ exampleSlot 2 1 with dataF := [Matrix.empty, Matrix.empty], dataA := [Matrix.empty] },
       { exampleSlot 3 1 with dataF := [Matrix.empty, Matrix.empty], dataA := [Matrix.empty] }]
    output_ :=
      [{ exampleSlot 2 1 with dataF := [Matrix.empty, Matrix.empty], dataA := [Matrix.empty] }]
    jac_sparsity_ := { size1 := 1, size2 := 2, entries := [] }
    is_init_ := true }

/-- A `Jacobian` constructor for a function none of whose outputs depends on
any input: every block is structurally null, so every constructed handle is
null. -/
def exampleNullJacobian : FX → Int → Int → FX := fun _ _ _ => FX.null

/-- A `Jacobian` constructor that always yields a Jacobian object. -/
def exampleJacobian : FX → Int → Int → FX := fun fcn iind oind => FX.JacobianNode fcn iind oind

/-- The outcome of a call of the `const` member `getStat`: what it returns or
throws, and the object afterwards. -/
structure GetStatCall (R : Type) where
  ret : Except Exception GenericType
  self : FXInternal R

/-- `FXInternal::getStat`: `stats_.find(name)` locates the entry whose key is
`name`; `it == stats_.end()` when there is none. -/
def getStat (self : FXInternal R) (name : String) : GetStatCall R :=
  match self.stats_.find? (fun e => e.1 == name) with
  | none =>
    { ret := .error (.CasadiException
        ("Statistic: " ++ name ++ " has not been set.\n" ++
          "Note: statistcs are only set after an evaluate call\n")),
      self := self }
  | some it => { ret := .ok it.2, self := self }

/-- The object `exampleFX` with the option `store_jacobians` set and `verbose`
left at its default `false`. -/
def exampleStoreFX : FXInternal Int :=
  { exampleFX with options := { exampleFX.options with store_jacobians := true } }

/-- The object `exampleFX` with the option `verbose` set and `store_jacobians`
left at its default `false`. -/
def exampleVerboseFX : FXInternal Int :=
  { exampleFX with options := { exampleFX.options with verbose := true } }

/-! ## The IDAS integrator interface (`casadi/interfaces/sundials/idas_interface.cpp`)

Values of type `double` are elements of a linearly ordered field `D` (no NaN,
no rounding).  The IDAS library is an external collaborator: its functions are
the field `native` of an `IdasLibrary`, and every call is appended to the log
`calls` of the integrator memory. -/

/-- The functions of the IDAS library called by the interface, with the
`double` arguments they receive by value.  `userDefinedLinsol` and
`userDefinedLinsolB` stand for the assignment of the `lsetup`/`lsolve` hooks
into the native block; `IDAQuadReInitAdj` and `IDAGetIntegratorStatsAdj` are
`IDAQuadReInit` and `IDAGetIntegratorStats` applied to the native block of the
backward problem. -/
inductive IdaFn (D : Type) where
  | IDACreate
  | IDAInit (t0 : D)
  | IDASetErrHandlerFn
  | IDASetSuppressAlg
  | IDASetMaxOrd
  | IDASetUserData
  | IDASetMaxStep
  | IDASVtolerances
  | IDASStolerances
  | IDASetMaxNumSteps
  | IDASetId
  | IDADense
  | IDADlsSetDenseJacFn
  | IDABand
  | IDADlsSetBandJacFn
  | IDASpgmr
  | IDASpbcg
  | IDASptfqmr
  | IDASpilsSetJacTimesVecFn
  | IDASpilsSetPreconditioner
  | userDefinedLinsol
  | IDAQuadInit
  | IDASetQuadErrCon
  | IDAQuadSStolerances
  | IDAAdjInit (steps : Int) (interpType : Int)
  | IDAReInit (t0 : D)
  | IDAQuadReInit
  | IDASensToggleOff
  | IDACalcIC (tout1 : D)
  | IDAGetConsistentIC
  | IDAAdjReInit
  | IDASetStopTime (tf : D)
  | IDASolveF (tout : D)
  | IDASolve (tout : D)
  | IDAGetQuad
  | IDAGetIntegratorStats
  | IDADlsGetNumResEvals
  | IDASpilsGetNumResEvals
  | IDACreateB
  | IDAInitB (tB0 : D)
  | IDASStolerancesB
  | IDASetUserDataB
  | IDASetMaxNumStepsB
  | IDASetIdB
  | IDADenseB
  | IDADlsSetDenseJacFnB
  | IDABandB
  | IDADlsSetBandJacFnB
  | IDASpgmrB
  | IDASpbcgB
  | IDASptfqmrB
  | IDASpilsSetJacTimesVecFnB
  | IDASpilsSetPreconditionerB
  | userDefinedLinsolB
  | IDAQuadInitB
  | IDASetQuadErrConB
  | IDAQuadSStolerancesB
  | IDAReInitB (tB0 : D)
  | IDAQuadReInitAdj
  | IDACalcICB (tout1 : D)
  | IDAGetConsistentICB
  | IDASolveB (tout : D)
  | IDAGetB
  | IDAGetQuadB
  | IDAGetIntegratorStatsAdj

/-- The ten values that `IDAGetIntegratorStats` writes. -/
structure IntegratorStats (D : Type) where
  nsteps : Int
  nfevals : Int
  nlinsetups : Int
  netfails : Int
  qlast : Int
  qcur : Int
  hinused : D
  hlast : D
  hcur : D
  tcur : D

/-- The integrator memory `IdasMemory` (with the members of its base classes
that the interface uses): the native block `mem`, the internal time `t`, the
parameters, the state vectors of the forward and of the backward problem, the
buffers `jac` and `jacB` of the Jacobian functions, the counters, the two
flags, and the log of the calls made to the library. -/
structure IdasMemory (D S : Type) where
  mem : S
  t : D
  p : List D
  rp : List D
  xz : List D
  xzdot : List D
  q : List D
  rxz : List D
  rxzdot : List D
  rq : List D
  jac : List D
  jacB : List D
  ncheck : Int
  whichB : Int
  stats : IntegratorStats D
  statsB : IntegratorStats D
  isInitTaping : Bool
  isInitAdj : Bool
  calls : List (IdaFn D)

/-- The IDAS library as seen by the interface: the return codes of `idas.h`,
the flag names, the library functions (each returns its flag and the memory as
the library leaves it), and the text that `operator<<` prints for a `double`. -/
structure IdasLibrary (D S : Type) where
  IDA_SUCCESS : Int
  IDA_TSTOP_RETURN : Int
  IDA_ERR_FAIL : Int
  IDA_CONV_FAIL : Int
  IDA_NO_RECOVERY : Int
  IDA_LINESEARCH_FAIL : Int
  IDA_HERMITE : Int
  IDA_POLYNOMIAL : Int
  IDAGetReturnFlagName : Int → String
  native : IdaFn D → IdasMemory D S → Int × IdasMemory D S
  fmt : D → String

/-- The members of the memory that a library call receives as output
pointers, and so may overwrite (besides the native block itself). -/
structure Writes where
  t : Bool := false
  xz : Bool := false
  xzdot : Bool := false
  q : Bool := false
  rxz : Bool := false
  rxzdot : Bool := false
  rq : Bool := false
  ncheck : Bool := false
  whichB : Bool := false
  stats : Bool := false
  statsB : Bool := false

/-- The memory after a library call: of what the library produced (`n`), only
the native block and the members passed as output pointers reach `m`. -/
def applyWrites {D S : Type} (w : Writes) (m n : IdasMemory D S) : IdasMemory D S :=
  { m with
    mem := n.mem
    t := if w.t then n.t else m.t
    xz := if w.xz then n.xz else m.xz
    xzdot := if w.xzdot then n.xzdot else m.xzdot
    q := if w.q then n.q else m.q
    rxz := if w.rxz then n.rxz else m.rxz
    rxzdot := if w.rxzdot then n.rxzdot else m.rxzdot
    rq := if w.rq then n.rq else m.rq
    ncheck := if w.ncheck then n.ncheck else m.ncheck
    whichB := if w.whichB then n.whichB else m.whichB
    stats := if w.stats then n.stats else m.stats
    statsB := if w.statsB then n.statsB else m.statsB }

/-- One call of a library function: the flag it returns and the memory
afterwards, with the call appended to the log. -/
def nativeCall {D S : Type} (lib : IdasLibrary D S) (fn : IdaFn D) (w : Writes)
    (m : IdasMemory D S) : Int × IdasMemory D S :=
  ((lib.native fn m).1, { applyWrites w m (lib.native fn m).2 with calls := m.calls ++ [fn] })

/-- The outcome of a member function that works on an integrator memory:
normal return or the exception thrown, and the memory afterwards. -/
structure Run (D S : Type) where
  ret : Except Exception Unit
  m : IdasMemory D S

/-- Sequencing of two statements: the second runs only when the first did not
throw. -/
def Run.andThen {D S : Type} (r : Run D S) (k : IdasMemory D S → Run D S) : Run D S :=
  match r.ret with
  | .error _ => r
  | .ok _ => k r.m

/-- `IdasInterface::idas_error`: the exception it throws.  The macro
`casadi_error` throws a `CasadiException` with the message. -/
def idas_error {D S : Type} (lib : IdasLibrary D S) (module : String) (flag : Int) : Exception :=
  let ss := "Module \"" ++ module ++ "\" returned flag " ++ toString flag ++ " (\"" ++
    lib.IDAGetReturnFlagName flag ++ "\")." ++ " Consult Idas documentation.\n"
  if (module = "IDACalcIC" ∧ (flag = lib.IDA_CONV_FAIL ∨ flag = lib.IDA_NO_RECOVERY ∨
        flag = lib.IDA_LINESEARCH_FAIL)) ∨
      (module = "IDASolve" ∧ flag = lib.IDA_ERR_FAIL) then
    .CasadiException (ss ++ "Some common causes for this error: \n" ++
      "  - providing an initial guess for which 0=g(y, z, t) is not invertible wrt y. \n" ++
      "  - having a DAE-index higher than 1 such that 0=g(y, z, t) is not invertible wrt y " ++
      "over the whole domain.\n" ++
      "  - having set abstol or reltol too small.\n" ++
      "  - using 'calcic'=True for systems that are not semi-explicit index-one. " ++
      "You must provide consistent initial conditions yourself in this case. \n" ++
      "  - your problem is too hard for IDAcalcIC to solve. Provide consistent " ++
      "initial conditions yourself.\n")
  else .CasadiException ss

/-- The pattern `flag = F(...); if (flag != IDA_SUCCESS) idas_error(module, flag);`. -/
def check {D S : Type} (lib : IdasLibrary D S) (fn : IdaFn D) (w : Writes) (module : String)
    (m : IdasMemory D S) : Run D S :=
  if (nativeCall lib fn w m).1 ≠ lib.IDA_SUCCESS then
    { ret := .error (idas_error lib module (nativeCall lib fn w m).1),
      m := (nativeCall lib fn w m).2 }
  else { ret := .ok (), m := (nativeCall lib fn w m).2 }

/-- The pattern `flag = F(...); casadi_assert_message(flag == IDA_SUCCESS, msg);`. -/
def checkAssert {D S : Type} (lib : IdasLibrary D S) (fn : IdaFn D) (w : Writes) (msg : String)
    (m : IdasMemory D S) : Run D S :=
  if (nativeCall lib fn w m).1 ≠ lib.IDA_SUCCESS then
    { ret := .error (.CasadiException msg), m := (nativeCall lib fn w m).2 }
  else { ret := .ok (), m := (nativeCall lib fn w m).2 }

/-- A library call whose flag is not stored: `F(...);`.  Where the source goes
on with `if (flag != IDA_SUCCESS) ...`, that test reads the flag of the
previous call, which was `IDA_SUCCESS`, and never fires. -/
def unchecked {D S : Type} (lib : IdasLibrary D S) (fn : IdaFn D) (w : Writes)
    (m : IdasMemory D S) : Run D S :=
  { ret := .ok (), m := (nativeCall lib fn w m).2 }

/-- The stepping pattern of `advance`:
`if (flag != IDA_SUCCESS && flag != IDA_TSTOP_RETURN) idas_error(module, flag);`. -/
def checkStep {D S : Type} (lib : IdasLibrary D S) (fn : IdaFn D) (w : Writes)
    (module : String) (m : IdasMemory D S) : Run D S :=
  if (nativeCall lib fn w m).1 ≠ lib.IDA_SUCCESS ∧
      (nativeCall lib fn w m).1 ≠ lib.IDA_TSTOP_RETURN then
    { ret := .error (idas_error lib module (nativeCall lib fn w m).1),
      m := (nativeCall lib fn w m).2 }
  else { ret := .ok (), m := (nativeCall lib fn w m).2 }

/-- The linear solver selected by `linsol_f_` / `linsol_g_`; `invalid` is any
value outside the enumeration. -/
inductive LinsolType where
  | SD_USER_DEFINED
  | SD_DENSE
  | SD_BANDED
  | SD_ITERATIVE
  | invalid
  deriving DecidableEq, Repr

/-- The iterative solver selected by `itsol_f_` / `itsol_g_`. -/
inductive IterativeSolverType where
  | SD_GMRES
  | SD_BCGSTAB
  | SD_TFQMR
  | invalid
  deriving DecidableEq, Repr

/-- The members of `IdasInterface` (with those of its base classes that the
interface reads); `functions` lists the names for which `has_function` holds. -/
structure IdasInterface (D : Type) where
  nx_ : Nat
  nz_ : Nat
  nq_ : Nat
  nrx_ : Nat
  nrz_ : Nat
  nrq_ : Nat
  np_ : Nat
  nrp_ : Nat
  grid_ : List D
  stop_at_end_ : Bool
  print_stats_ : Bool
  calc_ic_ : Bool
  calc_icB_ : Bool
  first_time_ : D
  init_xdot_ : List D
  interpolation_type_ : String
  steps_per_checkpoint_ : Int
  linsol_f_ : LinsolType
  linsol_g_ : LinsolType
  itsol_f_ : IterativeSolverType
  itsol_g_ : IterativeSolverType
  exact_jacobian_ : Bool
  exact_jacobianB_ : Bool
  use_preconditioner_ : Bool
  use_preconditionerB_ : Bool
  quad_err_con_ : Bool
  suppress_algebraic_ : Bool
  cj_scaling_ : Bool
  abstolv_ : List D
  functions : List String

/-- The tolerance `ttol = 1e-9` of `advance`. -/
def ttol {D : Type} [LinearOrderedField D] : D := 1 / 1000000000

/-- The writes `copy(src.begin(), src.end(), dst + off)`: the entries of `dst`
from offset `off` on are overwritten with `src`. -/
def writeAt {D : Type} (dst : List D) (off : Nat) (src : List D) : List D :=
  dst.take off ++ src ++ dst.drop (off + src.length)

/-- The first grid point `grid_.front()`, the initial time `t0`. -/
def IdasInterface.grid_front {D : Type} [LinearOrderedField D] (self : IdasInterface D) : D :=
  self.grid_.headD 0

/-- The last grid point `grid_.back()`, the final time `tf`. -/
def IdasInterface.grid_back {D : Type} [LinearOrderedField D] (self : IdasInterface D) : D :=
  self.grid_.getLastD 0

/-- Modelled from the spec: `SundialsInterface::reset` (base class, defined
outside the two source files): the forward state is re-initialised from the
supplied primal values at the initial time: the time, the parameters, the
state vector `xz = (x, z)`, and the quadrature state set to zero. -/
def SundialsInterface.reset {D S : Type} [LinearOrderedField D] (self : IdasInterface D)
    (m : IdasMemory D S) (t : D) (x z p : List D) : IdasMemory D S :=
  { m with
    t := t
    p := p.take self.np_
    xz := x.take self.nx_ ++ z.take self.nz_
    q := List.replicate self.nq_ 0 }

/-- Modelled from the spec: `SundialsInterface::resetB` (base class, defined
outside the two source files): the backward state is re-initialised from the
supplied values: the time, the backward parameters, the state vector
`rxz = (rx, rz)`, and the backward quadrature state set to zero. -/
def SundialsInterface.resetB {D S : Type} [LinearOrderedField D] (self : IdasInterface D)
    (m : IdasMemory D S) (t : D) (rx rz rp : List D) : IdasMemory D S :=
  { m with
    t := t
    rp := rp.take self.nrp_
    rxz := rx.take self.nrx_ ++ rz.take self.nrz_
    rq := List.replicate self.nrq_ 0 }

/-- The exception of the failed `casadi_assert(!m->isInitTaping)`. -/
def initTapingAssertion : Exception :=
  .CasadiException "Assertion \"!m->isInitTaping\" failed"

/-- `IdasInterface::initTaping`. -/
def IdasInterface.initTaping {D S : Type} (lib : IdasLibrary D S) (self : IdasInterface D)
    (m : IdasMemory D S) : Run D S :=
  if m.isInitTaping then { ret := .error initTapingAssertion, m := m }
  else if self.interpolation_type_ = "hermite" then
    (check lib (.IDAAdjInit self.steps_per_checkpoint_ lib.IDA_HERMITE) {} "IDAAdjInit"
      m).andThen fun m1 => { ret := .ok (), m := { m1 with isInitTaping := true } }
  else if self.interpolation_type_ = "polynomial" then
    (check lib (.IDAAdjInit self.steps_per_checkpoint_ lib.IDA_POLYNOMIAL) {} "IDAAdjInit"
      m).andThen fun m1 => { ret := .ok (), m := { m1 with isInitTaping := true } }
  else
    { ret := .error
        (.CasadiException "\"interpolation_type\" must be \"hermite\" or \"polynomial\""),
      m := m }

/-- `IdasInterface::correctInitialConditions`. -/
def IdasInterface.correctInitialConditions {D S : Type} (lib : IdasLibrary D S)
    (self : IdasInterface D) (m : IdasMemory D S) : Run D S :=
  (check lib (.IDACalcIC self.first_time_) {} "IDACalcIC" m).andThen fun m1 =>
    check lib .IDAGetConsistentIC { xz := true, xzdot := true } "IDAGetConsistentIC" m1

/-- `IdasInterface::setStopTime`. -/
def IdasInterface.setStopTime {D S : Type} (lib : IdasLibrary D S) (_self : IdasInterface D)
    (m : IdasMemory D S) (tf : D) : Run D S :=
  check lib (.IDASetStopTime tf) {} "IDASetStopTime" m

/-- `IdasInterface::reset`. -/
def IdasInterface.reset {D S : Type} [LinearOrderedField D] (lib : IdasLibrary D S)
    (self : IdasInterface D) (m : IdasMemory D S) (t : D) (x z p : List D) : Run D S :=
  (if 0 < self.nrx_ ∧ (SundialsInterface.reset self m t x z p).isInitTaping = false then
      self.initTaping lib (SundialsInterface.reset self m t x z p)
    else { ret := .ok (), m := SundialsInterface.reset self m t x z p }).andThen fun m1 =>
  (check lib (.IDAReInit self.grid_front) { xz := true, xzdot := true } "IDAReInit"
      { m1 with xzdot := writeAt m1.xzdot 0 self.init_xdot_ }).andThen fun m2 =>
  (if 0 < self.nq_ then check lib .IDAQuadReInit { q := true } "IDAQuadReInit" m2
    else { ret := .ok (), m := m2 }).andThen fun m3 =>
  (check lib .IDASensToggleOff {} "IDASensToggleOff" m3).andThen fun m4 =>
  (if self.calc_ic_ then self.correctInitialConditions lib m4
    else { ret := .ok (), m := m4 }).andThen fun m5 =>
  (if 0 < self.nrx_ then check lib .IDAAdjReInit {} "IDAAdjReInit" m5
    else { ret := .ok (), m := m5 }).andThen fun m6 =>
  if self.stop_at_end_ then self.setStopTime lib m6 self.grid_back
  else { ret := .ok (), m := m6 }

/-- `IdasInterface::printStats`: the library calls it makes (the text it
prints is not modelled; the statistics go to local variables). -/
def IdasInterface.printStats {D S : Type} (lib : IdasLibrary D S) (self : IdasInterface D)
    (m : IdasMemory D S) : Run D S :=
  (check lib .IDAGetIntegratorStats {} "IDAGetIntegratorStats" m).andThen fun m1 =>
    match self.linsol_f_ with
    | .SD_DENSE => check lib .IDADlsGetNumResEvals {} "IDADlsGetNumResEvals" m1
    | .SD_BANDED => check lib .IDADlsGetNumResEvals {} "IDADlsGetNumResEvals" m1
    | .SD_ITERATIVE => check lib .IDASpilsGetNumResEvals {} "IDASpilsGetNumResEvals" m1
    | _ => { ret := .ok (), m := m1 }

/-- The outcome of `advance` or `retreat`: normal return or the exception
thrown, the memory afterwards, and the three output buffers when they were
written. -/
structure AdvanceCall (D S : Type) where
  ret : Except Exception Unit
  m : IdasMemory D S
  out : Option (List D × List D × List D)

/-- The stepping part of `IdasInterface::advance`: integrate unless already at
the desired time, then fetch the quadratures. -/
def IdasInterface.advanceStep {D S : Type} [LinearOrderedField D] (lib : IdasLibrary D S)
    (self : IdasInterface D) (m : IdasMemory D S) (t : D) : Run D S :=
  if |m.t - t| ≥ ttol then
    (if 0 < self.nrx_ then
        checkStep lib (.IDASolveF t)
          { t := true, xz := true, xzdot := true, ncheck := true } "IDASolveF" m
      else
        checkStep lib (.IDASolve t) { t := true, xz := true, xzdot := true } "IDASolve"
          m).andThen fun m1 =>
      if 0 < self.nq_ then check lib .IDAGetQuad { q := true } "IDAGetQuad" m1
      else { ret := .ok (), m := m1 }
  else { ret := .ok (), m := m }

/-- `IdasInterface::advance`.  A failed `casadi_assert_message` throws a
`CasadiException` with the message. -/
def IdasInterface.advance {D S : Type} [LinearOrderedField D] (lib : IdasLibrary D S)
    (self : IdasInterface D) (m : IdasMemory D S) (t : D) : AdvanceCall D S :=
  if ¬ (t ≥ self.grid_front) then
    { ret := .error (.CasadiException
        ("IdasInterface::integrate(" ++ lib.fmt t ++ "): " ++
          "Cannot integrate to a time earlier than t0 (" ++ lib.fmt self.grid_front ++ ")")),
      m := m, out := none }
  else if ¬ (t ≤ self.grid_back ∨ self.stop_at_end_ = false) then
    { ret := .error (.CasadiException
        ("IdasInterface::integrate(" ++ lib.fmt t ++ "): " ++
          "Cannot integrate past a time later than tf (" ++ lib.fmt self.grid_back ++ ") " ++
          "unless stop_at_end is set to False.")),
      m := m, out := none }
  else
    match (self.advanceStep lib m t).ret with
    | .error e => { ret := .error e, m := (self.advanceStep lib m t).m, out := none }
    | .ok _ =>
      let m1 := (self.advanceStep lib m t).m
      let r := (if self.print_stats_ then self.printStats lib m1
        else { ret := .ok (), m := m1 }).andThen fun m2 =>
          check lib .IDAGetIntegratorStats { stats := true } "IDAGetIntegratorStats" m2
      { ret := r.ret, m := r.m,
        out := some (m1.xz.take self.nx_, (m1.xz.drop self.nx_).take self.nz_,
          m1.q.take self.nq_) }

/-- The pattern of `retreat`: `if (flag < IDA_SUCCESS) idas_error(module, flag);`. -/
def checkNegative {D S : Type} (lib : IdasLibrary D S) (fn : IdaFn D) (w : Writes)
    (module : String) (m : IdasMemory D S) : Run D S :=
  if (nativeCall lib fn w m).1 < lib.IDA_SUCCESS then
    { ret := .error (idas_error lib module (nativeCall lib fn w m).1),
      m := (nativeCall lib fn w m).2 }
  else { ret := .ok (), m := (nativeCall lib fn w m).2 }

/-- The pattern `casadi_assert_message(has_function(name), msg);`. -/
def assertFunction {D S : Type} (self : IdasInterface D) (name msg : String)
    (m : IdasMemory D S) : Run D S :=
  if name ∈ self.functions then { ret := .ok (), m := m }
  else { ret := .error (.CasadiException msg), m := m }

/-- `IdasInterface::initDenseLinsolB`. -/
def IdasInterface.initDenseLinsolB {D S : Type} (lib : IdasLibrary D S)
    (self : IdasInterface D) (m : IdasMemory D S) : Run D S :=
  (check lib .IDADenseB {} "IDADenseB" m).andThen fun m1 =>
    if self.exact_jacobianB_ then
      check lib .IDADlsSetDenseJacFnB {} "IDADlsSetDenseJacFnB" m1
    else { ret := .ok (), m := m1 }

/-- `IdasInterface::initBandedLinsolB` (the bandwidths come from the base
class and do not influence the control flow). -/
def IdasInterface.initBandedLinsolB {D S : Type} (lib : IdasLibrary D S)
    (self : IdasInterface D) (m : IdasMemory D S) : Run D S :=
  (check lib .IDABandB {} "IDABand" m).andThen fun m1 =>
    if self.exact_jacobianB_ then
      check lib .IDADlsSetBandJacFnB {} "IDADlsSetBandJacFnB" m1
    else { ret := .ok (), m := m1 }

/-- `IdasInterface::initIterativeLinsolB`. -/
def IdasInterface.initIterativeLinsolB {D S : Type} (lib : IdasLibrary D S)
    (self : IdasInterface D) (m : IdasMemory D S) : Run D S :=
  (match self.itsol_g_ with
    | .SD_GMRES => check lib .IDASpgmrB {} "IDASpgmrB" m
    | .SD_BCGSTAB => check lib .IDASpbcgB {} "IDASpbcgB" m
    | .SD_TFQMR => check lib .IDASptfqmrB {} "IDASptfqmrB" m
    | .invalid => { ret := .error (.CasadiException "Uncaught switch"), m := m }).andThen
  fun m1 =>
  (if self.exact_jacobianB_ then
      check lib .IDASpilsSetJacTimesVecFnB {} "IDASpilsSetJacTimesVecFnB" m1
    else { ret := .ok (), m := m1 }).andThen fun m2 =>
  if self.use_preconditionerB_ then
    (assertFunction self "jacB" "No Jacobian function" m2).andThen fun m3 =>
    (assertFunction self "linsolB" "No linear solver" m3).andThen fun m4 =>
      check lib .IDASpilsSetPreconditionerB {} "IDASpilsSetPreconditionerB" m4
  else { ret := .ok (), m := m2 }

/-- `IdasInterface::initUserDefinedLinsolB`. -/
def IdasInterface.initUserDefinedLinsolB {D S : Type} (lib : IdasLibrary D S)
    (self : IdasInterface D) (m : IdasMemory D S) : Run D S :=
  (assertFunction self "jacB" "No Jacobian function" m).andThen fun m1 =>
  (assertFunction self "linsolB" "No linear solver" m1).andThen fun m2 =>
    unchecked lib .userDefinedLinsolB {} m2

/-- The first-call branch of `IdasInterface::resetB`: the backward problem is
created. -/
def IdasInterface.createB {D S : Type} [LinearOrderedField D] (lib : IdasLibrary D S)
    (self : IdasInterface D) (m : IdasMemory D S) : Run D S :=
  (check lib .IDACreateB { whichB := true } "IDACreateB" m).andThen fun m1 =>
  (check lib (.IDAInitB self.grid_back) { rxz := true, rxzdot := true } "IDAInitB"
      m1).andThen fun m2 =>
  (check lib .IDASStolerancesB {} "IDASStolerancesB" m2).andThen fun m3 =>
  (check lib .IDASetUserDataB {} "IDASetUserDataB" m3).andThen fun m4 =>
  (unchecked lib .IDASetMaxNumStepsB {} m4).andThen fun m5 =>
  (check lib .IDASetIdB {} "IDASetIdB" m5).andThen fun m6 =>
  (match self.linsol_g_ with
    | .SD_DENSE => self.initDenseLinsolB lib m6
    | .SD_BANDED => self.initBandedLinsolB lib m6
    | .SD_ITERATIVE => self.initIterativeLinsolB lib m6
    | .SD_USER_DEFINED => self.initUserDefinedLinsolB lib m6
    | .invalid => { ret := .error (.CasadiException "Uncaught switch"), m := m6 }).andThen
  fun m7 =>
  (check lib .IDAQuadInitB { rq := true } "IDAQuadInitB" m7).andThen fun m8 =>
  (if self.quad_err_con_ then
      (check lib .IDASetQuadErrConB {} "IDASetQuadErrConB" m8).andThen fun m9 =>
        check lib .IDAQuadSStolerancesB {} "IDAQuadSStolerancesB" m9
    else { ret := .ok (), m := m8 }).andThen fun m10 =>
  { ret := .ok (), m := { m10 with isInitAdj := true } }

/-- The other branch of `IdasInterface::resetB`: the backward problem is
re-initialised in place. -/
def IdasInterface.reInitB {D S : Type} [LinearOrderedField D] (lib : IdasLibrary D S)
    (self : IdasInterface D) (m : IdasMemory D S) : Run D S :=
  (check lib (.IDAReInitB self.grid_back) { rxz := true, rxzdot := true } "IDAReInitB"
      m).andThen fun m1 =>
  if 0 < self.nrq_ then check lib .IDAQuadReInitAdj { rq := true } "IDAQuadReInitB" m1
  else { ret := .ok (), m := m1 }

/-- `IdasInterface::resetB`. -/
def IdasInterface.resetB {D S : Type} [LinearOrderedField D] (lib : IdasLibrary D S)
    (self : IdasInterface D) (m : IdasMemory D S) (t : D) (rx rz rp : List D) : Run D S :=
  (if (SundialsInterface.resetB self m t rx rz rp).isInitAdj = false then
      self.createB lib (SundialsInterface.resetB self m t rx rz rp)
    else self.reInitB lib (SundialsInterface.resetB self m t rx rz rp)).andThen fun m1 =>
  if self.calc_icB_ then
    (check lib (.IDACalcICB self.grid_front) { xz := true, xzdot := true } "IDACalcICB"
        m1).andThen fun m2 =>
      check lib .IDAGetConsistentICB { rxz := true, rxzdot := true } "IDAGetConsistentICB" m2
  else { ret := .ok (), m := m1 }

/-- The stepping part of `IdasInterface::retreat`: integrate backward unless
`t` is not earlier than the current time. -/
def IdasInterface.retreatStep {D S : Type} [LinearOrderedField D] (lib : IdasLibrary D S)
    (self : IdasInterface D) (m : IdasMemory D S) (t : D) : Run D S :=
  if t < m.t then
    (checkNegative lib (.IDASolveB t) {} "IDASolveB" m).andThen fun m1 =>
    (check lib .IDAGetB { t := true, rxz := true, rxzdot := true } "IDAGetB" m1).andThen
    fun m2 =>
      if 0 < self.nrq_ then check lib .IDAGetQuadB { t := true, rq := true } "IDAGetQuadB" m2
      else { ret := .ok (), m := m2 }
  else { ret := .ok (), m := m }

/-- `IdasInterface::retreat`. -/
def IdasInterface.retreat {D S : Type} [LinearOrderedField D] (lib : IdasLibrary D S)
    (self : IdasInterface D) (m : IdasMemory D S) (t : D) : AdvanceCall D S :=
  match (self.retreatStep lib m t).ret with
  | .error e => { ret := .error e, m := (self.retreatStep lib m t).m, out := none }
  | .ok _ =>
    let m1 := (self.retreatStep lib m t).m
    let r := check lib .IDAGetIntegratorStatsAdj { statsB := true } "IDAGetIntegratorStatsB" m1
    { ret := r.ret, m := r.m,
      out := some (m1.rxz.take self.nrx_, (m1.rxz.drop self.nrx_).take self.nrz_,
        m1.rq.take self.nrq_) }

/-- `IdasInterface::initDenseLinsol`. -/
def IdasInterface.initDenseLinsol {D S : Type} (lib : IdasLibrary D S)
    (self : IdasInterface D) (m : IdasMemory D S) : Run D S :=
  (check lib .IDADense {} "IDADense" m).andThen fun m1 =>
    if self.exact_jacobian_ then check lib .IDADlsSetDenseJacFn {} "IDADlsSetDenseJacFn" m1
    else { ret := .ok (), m := m1 }

/-- `IdasInterface::initBandedLinsol`. -/
def IdasInterface.initBandedLinsol {D S : Type} (lib : IdasLibrary D S)
    (self : IdasInterface D) (m : IdasMemory D S) : Run D S :=
  (check lib .IDABand {} "IDABand" m).andThen fun m1 =>
    if self.exact_jacobian_ then check lib .IDADlsSetBandJacFn {} "IDADlsSetBandJacFn" m1
    else { ret := .ok (), m := m1 }

/-- `IdasInterface::initIterativeLinsol`. -/
def IdasInterface.initIterativeLinsol {D S : Type} (lib : IdasLibrary D S)
    (self : IdasInterface D) (m : IdasMemory D S) : Run D S :=
  (match self.itsol_f_ with
    | .SD_GMRES => check lib .IDASpgmr {} "IDASpgmr" m
    | .SD_BCGSTAB => check lib .IDASpbcg {} "IDASpbcg" m
    | .SD_TFQMR => check lib .IDASptfqmr {} "IDASptfqmr" m
    | .invalid => { ret := .error (.CasadiException "Uncaught switch"), m := m }).andThen
  fun m1 =>
  (if self.exact_jacobian_ then
      check lib .IDASpilsSetJacTimesVecFn {} "IDASpilsSetJacTimesVecFn" m1
    else { ret := .ok (), m := m1 }).andThen fun m2 =>
  if self.use_preconditioner_ then
    (assertFunction self "jacF" "No Jacobian function" m2).andThen fun m3 =>
    (assertFunction self "linsolF" "No linear solver" m3).andThen fun m4 =>
      check lib .IDASpilsSetPreconditioner {} "IDASpilsSetPreconditioner" m4
  else { ret := .ok (), m := m2 }

/-- `IdasInterface::initUserDefinedLinsol`. -/
def IdasInterface.initUserDefinedLinsol {D S : Type} (lib : IdasLibrary D S)
    (self : IdasInterface D) (m : IdasMemory D S) : Run D S :=
  (assertFunction self "jacF" "No Jacobian function" m).andThen fun m1 =>
  (assertFunction self "linsolF" "No linear solver" m1).andThen fun m2 =>
    unchecked lib .userDefinedLinsol {} m2

/-- Modelled from the spec: `SundialsInterface::init_memory` (base class,
defined outside the two source files): the native state buffers are allocated
with the sizes of the problem. -/
def SundialsInterface.init_memory {D S : Type} [LinearOrderedField D] (self : IdasInterface D)
    (m : IdasMemory D S) : IdasMemory D S :=
  { m with
    xz := List.replicate (self.nx_ + self.nz_) 0
    q := List.replicate self.nq_ 0
    rxz := List.replicate (self.nrx_ + self.nrz_) 0
    rq := List.replicate self.nrq_ 0 }

/-- `IdasInterface::init_memory`.  For `IDACreate` the integer returned by the
library is the address of the new block, `0` for the null pointer. -/
def IdasInterface.init_memory {D S : Type} [LinearOrderedField D] (lib : IdasLibrary D S)
    (self : IdasInterface D) (m : IdasMemory D S) : Run D S :=
  (if (nativeCall lib .IDACreate {} (SundialsInterface.init_memory self m)).1 = 0 then
      { ret := .error (.CasadiException "IDACreate(): Creation failed"),
        m := (nativeCall lib .IDACreate {} (SundialsInterface.init_memory self m)).2 }
    else
      { ret := .ok (),
        m := (nativeCall lib .IDACreate {} (SundialsInterface.init_memory self m)).2 :
        Run D S }).andThen
  fun m1 =>
  (unchecked lib (.IDAInit 0) { xz := true, xzdot := true }
      { m1 with
        xz := List.replicate m1.xz.length 0
        xzdot := List.replicate (self.nx_ + self.nz_) 0 }).andThen fun m2 =>
  (checkAssert lib .IDASetErrHandlerFn {} "IDASetErrHandlerFn" m2).andThen fun m3 =>
  (checkAssert lib .IDASetSuppressAlg {} "IDASetSuppressAlg" m3).andThen fun m4 =>
  (checkAssert lib .IDASetMaxOrd {} "IDASetMaxOrd" m4).andThen fun m5 =>
  (checkAssert lib .IDASetUserData {} "IDASetUserData" m5).andThen fun m6 =>
  (checkAssert lib .IDASetMaxStep {} "IDASetMaxStep" m6).andThen fun m7 =>
  (if self.abstolv_ ≠ [] then checkAssert lib .IDASVtolerances {} "IDASVtolerances" m7
    else checkAssert lib .IDASStolerances {} "IDASStolerances" m7).andThen fun m8 =>
  (unchecked lib .IDASetMaxNumSteps {} m8).andThen fun m9 =>
  (check lib .IDASetId {} "IDASetId" m9).andThen fun m10 =>
  (match self.linsol_f_ with
    | .SD_DENSE => self.initDenseLinsol lib m10
    | .SD_BANDED => self.initBandedLinsol lib m10
    | .SD_ITERATIVE => self.initIterativeLinsol lib m10
    | .SD_USER_DEFINED => self.initUserDefinedLinsol lib m10
    | .invalid => { ret := .error (.CasadiException "Uncaught switch"), m := m10 }).andThen
  fun m11 =>
  (if 0 < self.nq_ then
      (check lib .IDAQuadInit { q := true } "IDAQuadInit" m11).andThen fun m12 =>
        if self.quad_err_con_ then
          (checkAssert lib .IDASetQuadErrCon {} "IDASetQuadErrCon" m12).andThen fun m13 =>
            check lib .IDAQuadSStolerances {} "IDAQuadSStolerances" m13
        else { ret := .ok (), m := m12 }
    else { ret := .ok (), m := m11 }).andThen fun m14 =>
  { ret := .ok (),
    m :=
      { (if 0 < self.nrx_ then
          { m14 with
            rxzdot := List.replicate (self.nrx_ + self.nrz_) 0
            rxz := List.replicate m14.rxz.length 0 }
        else m14) with
        isInitTaping := false
        isInitAdj := false } }

/-- The arguments `(t, x, z, p)` of one `reset` call. -/
structure ResetArgs (D : Type) where
  t : D
  x : List D
  z : List D
  p : List D

/-- A sequence of `reset` calls on one memory, each made after the previous
one returned; the run stops at the first call that throws. -/
def resetSequence {D S : Type} [LinearOrderedField D] (lib : IdasLibrary D S)
    (self : IdasInterface D) : List (ResetArgs D) → IdasMemory D S → Run D S
  | [], m => { ret := .ok (), m := m }
  | a :: rest, m =>
    (self.reset lib m a.t a.x a.z a.p).andThen fun m1 => resetSequence lib self rest m1

/-- A sequence of `resetB` calls on one memory (the arguments are
`(t, rx, rz, rp)`), each made after the previous one returned. -/
def resetBSequence {D S : Type} [LinearOrderedField D] (lib : IdasLibrary D S)
    (self : IdasInterface D) : List (ResetArgs D) → IdasMemory D S → Run D S
  | [], m => { ret := .ok (), m := m }
  | a :: rest, m =>
    (self.resetB lib m a.t a.x a.z a.p).andThen fun m1 => resetBSequence lib self rest m1

/-- The calls of `IDAAdjInit` in a log. -/
def isAdjInit {D : Type} : IdaFn D → Bool
  | .IDAAdjInit _ _ => true
  | _ => false

/-- The library calls that create the backward problem: `IDACreateB`,
`IDAInitB`, the attachment of a backward linear solver, `IDAQuadInitB`. -/
def isCreationB {D : Type} : IdaFn D → Bool
  | .IDACreateB => true
  | .IDAInitB _ => true
  | .IDADenseB => true
  | .IDABandB => true
  | .IDASpgmrB => true
  | .IDASpbcgB => true
  | .IDASptfqmrB => true
  | .userDefinedLinsolB => true
  | .IDAQuadInitB => true
  | _ => false

/-- The calls of `IDACreateB` in a log. -/
def isCreateB {D : Type} : IdaFn D → Bool
  | .IDACreateB => true
  | _ => false

/-- The calls of `IDAReInitB` in a log. -/
def isReInitB {D : Type} : IdaFn D → Bool
  | .IDAReInitB _ => true
  | _ => false

/-- The solve and retrieval calls of the backward problem: `IDASolveB`,
`IDAGetB`, `IDAGetQuadB`. -/
def isBackwardStep {D : Type} : IdaFn D → Bool
  | .IDASolveB _ => true
  | .IDAGetB => true
  | .IDAGetQuadB => true
  | _ => false

/-- The relation between the memory before and after a piece of code that
leaves both flags alone and only makes library calls of the kind `Q`. -/
def Extends {D S : Type} (Q : IdaFn D → Bool) (m m1 : IdasMemory D S) : Prop :=
  m1.isInitTaping = m.isInitTaping ∧ m1.isInitAdj = m.isInitAdj ∧
    ∃ new, m1.calls = m.calls ++ new ∧ ∀ fn ∈ new, Q fn = true

/-- The outcome of a piece of code that leaves both flags alone, only makes
library calls of the kind `Q`, and does not throw the exception of the
assertion of `initTaping`. -/
def Run.Within {D S : Type} (Q : IdaFn D → Bool) (m : IdasMemory D S) (r : Run D S) : Prop :=
  Extends Q m r.m ∧ r.ret ≠ .error initTapingAssertion

/-- The outcome of a piece of code that, when it returns normally, has made
exactly `n` library calls of the kind `P`. -/
def Run.Counts {D S : Type} (P : IdaFn D → Bool) (n : Nat) (m : IdasMemory D S)
    (r : Run D S) : Prop :=
  r.ret = .ok () → r.m.calls.countP P = m.calls.countP P + n

/-- A library that accepts every call: `IDACreate` returns a non-null block,
every other function returns `IDA_SUCCESS`, and nothing is written. -/
def exampleLibrary : IdasLibrary ℚ Unit where
  IDA_SUCCESS := 0
  IDA_TSTOP_RETURN := 1
  IDA_ERR_FAIL := -3
  IDA_CONV_FAIL := -4
  IDA_NO_RECOVERY := -14
  IDA_LINESEARCH_FAIL := -13
  IDA_HERMITE := 1
  IDA_POLYNOMIAL := 2
  IDAGetReturnFlagName := fun _ => "IDA_FLAG"
  native := fun fn m =>
    match fn with
    | .IDACreate => (1, m)
    | _ => (0, m)
  fmt := fun _ => "t"

/-- An integrator with one differential state, one backward state, the time
grid `[0, 1]`, a dense linear solver in both directions and no consistent
initial-condition step. -/
def exampleIntegrator : IdasInterface ℚ where
  nx_ := 1
  nz_ := 0
  nq_ := 0
  nrx_ := 1
  nrz_ := 0
  nrq_ := 0
  np_ := 0
  nrp_ := 0
  grid_ := [0, 1]
  stop_at_end_ := true
  print_stats_ := false
  calc_ic_ := false
  calc_icB_ := false
  first_time_ := 1
  init_xdot_ := [0]
  interpolation_type_ := "hermite"
  steps_per_checkpoint_ := 20
  linsol_f_ := .SD_DENSE
  linsol_g_ := .SD_DENSE
  itsol_f_ := .SD_GMRES
  itsol_g_ := .SD_GMRES
  exact_jacobian_ := false
  exact_jacobianB_ := false
  use_preconditioner_ := false
  use_preconditionerB_ := false
  quad_err_con_ := false
  suppress_algebraic_ := false
  cj_scaling_ := false
  abstolv_ := []
  functions := []

/-- The statistics of a memory on which nothing has run. -/
def exampleStats : IntegratorStats ℚ where
  nsteps := 0
  nfevals := 0
  nlinsetups := 0
  netfails := 0
  qlast := 0
  qcur := 0
  hinused := 0
  hlast := 0
  hcur := 0
  tcur := 0

/-- A freshly constructed integrator memory (`IdasMemory::IdasMemory`). -/
def exampleMemory : IdasMemory ℚ Unit where
  mem := ()
  t := 0
  p := []
  rp := []
  xz := []
  xzdot := []
  q := []
  rxz := []
  rxzdot := []
  rq := []
  jac := [0]
  jacB := [0]
  ncheck := 0
  whichB := 0
  stats := exampleStats
  statsB := exampleStats
  isInitTaping := false
  isInitAdj := false
  calls := []

/-- The calls of `IDAInitB` in a log. -/
def isInitB {D : Type} : IdaFn D → Bool
  | .IDAInitB _ => true
  | _ => false

/-- The calls that attach a linear solver to the backward problem. -/
def isLinsolB {D : Type} : IdaFn D → Bool
  | .IDADenseB => true
  | .IDABandB => true
  | .IDASpgmrB => true
  | .IDASpbcgB => true
  | .IDASptfqmrB => true
  | .userDefinedLinsolB => true
  | _ => false

/-- The calls of `IDAQuadInitB` in a log. -/
def isQuadInitB {D : Type} : IdaFn D → Bool
  | .IDAQuadInitB => true
  | _ => false

/-- The relation between the memory before and after a piece of code that
leaves the internal time, the state vectors `xz` and `rxz` and the quadrature
states `q` and `rq` as they are. -/
def SameStates {D S : Type} (m m1 : IdasMemory D S) : Prop :=
  m1.t = m.t ∧ m1.xz = m.xz ∧ m1.q = m.q ∧ m1.rxz = m.rxz ∧ m1.rq = m.rq

/-! ## The callback bridge

A sub-function of the integrator either completes or throws; what it throws
is an `int` signal or an object derived from `std::exception` (objects of
other types are not modelled). -/

/-- What a sub-function throws: an integer signal `throw flag;` or an
exception derived from `std::exception`, with the text of `what()`. -/
inductive Thrown where
  | int (flag : Int)
  | exception (what : String)
  deriving DecidableEq, Repr

/-- How a callback ends: it returns a code to the solver, or an integer
signal that no handler of the callback catches leaves it. -/
inductive CallbackExit where
  | returned (code : Int)
  | propagated (flag : Int)
  deriving DecidableEq, Repr

/-- The outcome of a callback: how it ends, the contents of its output
argument afterwards, and the lines written to `userOut`. -/
structure Callback (O : Type) where
  exit : CallbackExit
  out : O
  userOut : List String

/-- The pattern `try { body } catch(exception& e) { userOut << name <<
" failed: " << e.what(); return code; }`: an integer signal is not caught.
The body yields the code it returns and the output argument. -/
def tryCatch {O : Type} (name : String) (code : Int) (out0 : O)
    (body : Except Thrown (Int × O)) : Callback O :=
  match body with
  | .ok r => { exit := .returned r.1, out := r.2, userOut := [] }
  | .error (.int flag) => { exit := .propagated flag, out := out0, userOut := [] }
  | .error (.exception what) =>
    { exit := .returned code, out := out0, userOut := [name ++ " failed: " ++ what] }

/-- The pattern `try { body } catch(int flag) { return flag; }
catch(exception& e) { userOut << name << " failed: " << e.what(); return code; }`. -/
def tryCatchInt {O : Type} (name : String) (code : Int) (out0 : O)
    (body : Except Thrown (Int × O)) : Callback O :=
  match body with
  | .ok r => { exit := .returned r.1, out := r.2, userOut := [] }
  | .error (.int flag) => { exit := .returned flag, out := out0, userOut := [] }
  | .error (.exception what) =>
    { exit := .returned code, out := out0, userOut := [name ++ " failed: " ++ what] }

/-- The compressed-column pattern `sparsity_out(0)` of a Jacobian function:
`colind`, `row` and the number of columns `size2()`. -/
structure Sparsity where
  colind : List Nat
  row : List Nat
  size2 : Nat
  deriving DecidableEq, Repr

/-- The sub-functions that the callbacks invoke: `calc_function(m, name)`
evaluates the named function on the argument slots and yields the values it
writes to the result slots; `linsol_factorize` stands for `linsol.setup`
followed by `linsol.linsol_factorize`; `linsol_solve` solves in place. -/
structure Functions (D : Type) where
  calc_function : String → List (List D) → Except Thrown (List (List D))
  sparsity_out : String → Sparsity
  linsol_nnz_out : String → Nat
  linsol_is_null : String → Bool
  linsol_factorize : String → List D → Except Thrown Unit
  linsol_solve : String → List D → Except Thrown (List D)

/-- `get_function(name)`: throws when no function of that name is registered. -/
def IdasInterface.get_function {D : Type} (self : IdasInterface D) (name : String) :
    Except Thrown Unit :=
  if name ∈ self.functions then .ok ()
  else .error (.exception ("No function \"" ++ name ++ "\""))

/-- The runtime routine `casadi_axpy(n, alpha, x, y)`: `y[i] += alpha*x[i]` for `i < n`. -/
def casadi_axpy {D : Type} [LinearOrderedField D] (n : Nat) (alpha : D) (x y : List D) : List D :=
  y.enum.map fun iy => if iy.1 < n then iy.2 + alpha * x.getD iy.1 0 else iy.2

/-- The runtime routine `casadi_scal(n, alpha, x)`: `x[i] *= alpha` for `i < n`. -/
def casadi_scal {D : Type} [LinearOrderedField D] (n : Nat) (alpha : D) (x : List D) : List D :=
  x.enum.map fun ix => if ix.1 < n then ix.2 * alpha else ix.2

/-- The Sundials routine `N_VScale(c, x, z)`: `z[i] = c*x[i]`. -/
def N_VScale {D : Type} [LinearOrderedField D] (c : D) (x : List D) : List D :=
  x.map fun xi => c * xi

/-- A dense or banded matrix `DlsMat` of the solver, as the map from (row,
column) to the element that `DENSE_ELEM` / `BAND_ELEM` designates. -/
abbrev DlsMat (D : Type) := Nat → Nat → D

/-- The assignment `DENSE_ELEM(A, i, j) = v` (or `BAND_ELEM`). -/
def DlsMat.set {D : Type} (A : DlsMat D) (i j : Nat) (v : D) : DlsMat D :=
  fun i1 j1 => if i1 = i ∧ j1 = j then v else A i1 j1

/-- The two nested loops of `djac` / `djacB`: for every column `cc` and every
`el` in `[colind[cc], colind[cc+1])`, `DENSE_ELEM(Jac, row[el], cc) = jac[el]`. -/
def denseLoop {D : Type} [LinearOrderedField D] (sp : Sparsity) (jac : List D)
    (Jac : DlsMat D) : DlsMat D :=
  (List.range sp.size2).foldl
    (fun J cc =>
      (List.range' (sp.colind.getD cc 0)
          (sp.colind.getD (cc + 1) 0 - sp.colind.getD cc 0)).foldl
        (fun J1 el => J1.set (sp.row.getD el 0) cc (jac.getD el 0)) J)
    Jac

/-- The two nested loops of `bjac` / `bjacB`: as in `djac`, restricted to the
entries with `cc - rr <= mupper && rr - cc <= mlower`. -/
def bandLoop {D : Type} [LinearOrderedField D] (sp : Sparsity) (mupper mlower : Int)
    (jac : List D) (Jac : DlsMat D) : DlsMat D :=
  (List.range sp.size2).foldl
    (fun J cc =>
      (List.range' (sp.colind.getD cc 0)
          (sp.colind.getD (cc + 1) 0 - sp.colind.getD cc 0)).foldl
        (fun J1 el =>
          if (cc : Int) - (sp.row.getD el 0 : Int) ≤ mupper ∧
              (sp.row.getD el 0 : Int) - (cc : Int) ≤ mlower then
            J1.set (sp.row.getD el 0) cc (jac.getD el 0)
          else J1) J)
    Jac

/-- The sub-function call of `res` and `rhsQ`: the slots are
`arg[0] = xz`, `arg[1] = xz + nx_`, `arg[2] = p`, `arg[3] = &t`. -/
def IdasInterface.argsF {D S : Type} (self : IdasInterface D) (m : IdasMemory D S) (t : D)
    (xz : List D) : List (List D) :=
  [xz, xz.drop self.nx_, m.p, [t]]

/-- The slots of `resB` and `rhsQB`: `rxz`, `rxz + nrx_`, `rp`, `xz`,
`xz + nx_`, `p`, `&t`. -/
def IdasInterface.argsB {D S : Type} (self : IdasInterface D) (m : IdasMemory D S) (t : D)
    (xz rxz : List D) : List (List D) :=
  [rxz, rxz.drop self.nrx_, m.rp, xz, xz.drop self.nx_, m.p, [t]]

/-- The slots of `jtimes`: `&t`, `xz`, `xz + nx_`, `p`, `v`, `v + nx_`. -/
def IdasInterface.argsJtimes {D S : Type} (self : IdasInterface D) (m : IdasMemory D S)
    (t : D) (xz v : List D) : List (List D) :=
  [[t], xz, xz.drop self.nx_, m.p, v, v.drop self.nx_]

/-- The slots of `jtimesB`: `&t`, `xz`, `xz + nx_`, `p`, `xzB`, `xzB + nrx_`,
`rp`, `vB`, `vB + nrx_`. -/
def IdasInterface.argsJtimesB {D S : Type} (self : IdasInterface D) (m : IdasMemory D S)
    (t : D) (xz xzB vB : List D) : List (List D) :=
  [[t], xz, xz.drop self.nx_, m.p, xzB, xzB.drop self.nrx_, m.rp, vB, vB.drop self.nrx_]

/-- The slots of `djac`, `bjac` and `psetup`: `&t`, `xz`, `xz + nx_`, `p`, `&cj`. -/
def IdasInterface.argsJacF {D S : Type} (self : IdasInterface D) (m : IdasMemory D S)
    (t cj : D) (xz : List D) : List (List D) :=
  [[t], xz, xz.drop self.nx_, m.p, [cj]]

/-- The slots of `djacB`, `bjacB` and `psetupB`: `&t`, `rxz`, `rxz + nrx_`,
`rp`, `xz`, `xz + nx_`, `p`, `&cj`. -/
def IdasInterface.argsJacB {D S : Type} (self : IdasInterface D) (m : IdasMemory D S)
    (t cj : D) (xz rxz : List D) : List (List D) :=
  [[t], rxz, rxz.drop self.nrx_, m.rp, xz, xz.drop self.nx_, m.p, [cj]]

/-- `IdasInterface::res`. -/
def IdasInterface.res {D S : Type} [LinearOrderedField D] (fns : Functions D)
    (self : IdasInterface D) (m : IdasMemory D S) (t : D) (xz xzdot rr : List D) :
    Callback (List D) :=
  tryCatchInt "res" (-1) rr
    (match fns.calc_function "daeF" (self.argsF m t xz) with
    | .error e => .error e
    | .ok outs =>
      .ok (0, casadi_axpy self.nx_ (-1) xzdot
        (writeAt (writeAt rr 0 (outs.getD 0 [])) self.nx_ (outs.getD 1 []))))

/-- `IdasInterface::jtimes`. -/
def IdasInterface.jtimes {D S : Type} [LinearOrderedField D] (fns : Functions D)
    (self : IdasInterface D) (m : IdasMemory D S) (t : D) (xz v Jv : List D) (cj : D) :
    Callback (List D) :=
  tryCatch "jtimes" 1 Jv
    (match fns.calc_function "jtimesF" (self.argsJtimes m t xz v) with
    | .error e => .error e
    | .ok outs =>
      .ok (0, casadi_axpy self.nx_ (-cj) v
        (writeAt (writeAt Jv 0 (outs.getD 0 [])) self.nx_ (outs.getD 1 []))))

/-- `IdasInterface::jtimesB`. -/
def IdasInterface.jtimesB {D S : Type} [LinearOrderedField D] (fns : Functions D)
    (self : IdasInterface D) (m : IdasMemory D S) (t : D) (xz xzB vB JvB : List D) (cjB : D) :
    Callback (List D) :=
  tryCatch "jtimesB" 1 JvB
    (match fns.calc_function "jtimesB" (self.argsJtimesB m t xz xzB vB) with
    | .error e => .error e
    | .ok outs =>
      .ok (0, casadi_axpy self.nrx_ cjB vB
        (writeAt (writeAt JvB 0 (outs.getD 0 [])) self.nrx_ (outs.getD 1 []))))

/-- `IdasInterface::rhsQ`. -/
def IdasInterface.rhsQ {D S : Type} [LinearOrderedField D] (fns : Functions D)
    (self : IdasInterface D) (m : IdasMemory D S) (t : D) (xz rhsQ : List D) :
    Callback (List D) :=
  tryCatch "rhsQ" 1 rhsQ
    (match fns.calc_function "quadF" (self.argsF m t xz) with
    | .error e => .error e
    | .ok outs => .ok (0, writeAt rhsQ 0 (outs.getD 0 [])))

/-- `IdasInterface::resB`. -/
def IdasInterface.resB {D S : Type} [LinearOrderedField D] (fns : Functions D)
    (self : IdasInterface D) (m : IdasMemory D S) (t : D) (xz rxz rxzdot rr : List D) :
    Callback (List D) :=
  tryCatch "resB" 1 rr
    (match fns.calc_function "daeB" (self.argsB m t xz rxz) with
    | .error e => .error e
    | .ok outs =>
      .ok (0, casadi_axpy self.nrx_ 1 rxzdot
        (writeAt (writeAt rr 0 (outs.getD 0 [])) self.nrx_ (outs.getD 1 []))))

/-- `IdasInterface::rhsQB`. -/
def IdasInterface.rhsQB {D S : Type} [LinearOrderedField D] (fns : Functions D)
    (self : IdasInterface D) (m : IdasMemory D S) (t : D) (xz rxz rqdot : List D) :
    Callback (List D) :=
  tryCatch "rhsQB" 1 rqdot
    (match fns.calc_function "quadB" (self.argsB m t xz rxz) with
    | .error e => .error e
    | .ok outs => .ok (0, casadi_scal self.nrq_ (-1) (writeAt rqdot 0 (outs.getD 0 []))))

/-- `IdasInterface::djac`; the output is the matrix `Jac` together with the
buffer `m->jac` that `jacF` fills. -/
def IdasInterface.djac {D S : Type} [LinearOrderedField D] (fns : Functions D)
    (self : IdasInterface D) (m : IdasMemory D S) (t cj : D) (xz : List D) (Jac : DlsMat D) :
    Callback (DlsMat D × List D) :=
  tryCatch "djac" 1 (Jac, m.jac)
    (match fns.calc_function "jacF" (self.argsJacF m t cj xz) with
    | .error e => .error e
    | .ok outs =>
      match self.get_function "jacF" with
      | .error e => .error e
      | .ok _ =>
        .ok (0, denseLoop (fns.sparsity_out "jacF") (writeAt m.jac 0 (outs.getD 0 [])) Jac,
          writeAt m.jac 0 (outs.getD 0 [])))

/-- `IdasInterface::djacB`. -/
def IdasInterface.djacB {D S : Type} [LinearOrderedField D] (fns : Functions D)
    (self : IdasInterface D) (m : IdasMemory D S) (t cj : D) (xz rxz : List D)
    (JacB : DlsMat D) : Callback (DlsMat D × List D) :=
  tryCatch "djacB" 1 (JacB, m.jacB)
    (match fns.calc_function "jacB" (self.argsJacB m t cj xz rxz) with
    | .error e => .error e
    | .ok outs =>
      match self.get_function "jacB" with
      | .error e => .error e
      | .ok _ =>
        .ok (0, denseLoop (fns.sparsity_out "jacB") (writeAt m.jacB 0 (outs.getD 0 [])) JacB,
          writeAt m.jacB 0 (outs.getD 0 [])))

/-- `IdasInterface::bjac`. -/
def IdasInterface.bjac {D S : Type} [LinearOrderedField D] (fns : Functions D)
    (self : IdasInterface D) (m : IdasMemory D S) (mupper mlower : Int) (t cj : D)
    (xz : List D) (Jac : DlsMat D) : Callback (DlsMat D × List D) :=
  tryCatch "bjac" 1 (Jac, m.jac)
    (match fns.calc_function "jacF" (self.argsJacF m t cj xz) with
    | .error e => .error e
    | .ok outs =>
      match self.get_function "jacF" with
      | .error e => .error e
      | .ok _ =>
        .ok (0, bandLoop (fns.sparsity_out "jacF") mupper mlower
            (writeAt m.jac 0 (outs.getD 0 [])) Jac,
          writeAt m.jac 0 (outs.getD 0 [])))

/-- `IdasInterface::bjacB`. -/
def IdasInterface.bjacB {D S : Type} [LinearOrderedField D] (fns : Functions D)
    (self : IdasInterface D) (m : IdasMemory D S) (mupperB mlowerB : Int) (t cj : D)
    (xz rxz : List D) (JacB : DlsMat D) : Callback (DlsMat D × List D) :=
  tryCatch "bjacB" 1 (JacB, m.jacB)
    (match fns.calc_function "jacB" (self.argsJacB m t cj xz rxz) with
    | .error e => .error e
    | .ok outs =>
      match self.get_function "jacB" with
      | .error e => .error e
      | .ok _ =>
        .ok (0, bandLoop (fns.sparsity_out "jacB") mupperB mlowerB
            (writeAt m.jacB 0 (outs.getD 0 [])) JacB,
          writeAt m.jacB 0 (outs.getD 0 [])))

/-- `IdasInterface::psolve`; `same` tells whether `rvec` and `zvec` are the
same vector object (`rvec == zvec`).  A failed `casadi_assert_message` throws
a `CasadiException`, which derives from `std::exception`. -/
def IdasInterface.psolve {D : Type} [LinearOrderedField D] (fns : Functions D)
    (self : IdasInterface D) (rvec zvec : List D) (same : Bool) : Callback (List D) :=
  tryCatch "psolve" 1 (if same then zvec else N_VScale 1 rvec)
    (match self.get_function "linsolF" with
    | .error e => .error e
    | .ok _ =>
      if fns.linsol_nnz_out "linsolF" =
          (if same then zvec else N_VScale 1 rvec).length then
        match fns.linsol_solve "linsolF" (if same then zvec else N_VScale 1 rvec) with
        | .error e => .error e
        | .ok z => .ok (0, z)
      else .error (.exception "Assertion error"))

/-- `IdasInterface::psolveB`. -/
def IdasInterface.psolveB {D : Type} [LinearOrderedField D] (fns : Functions D)
    (self : IdasInterface D) (rvecB zvecB : List D) (same : Bool) : Callback (List D) :=
  tryCatch "psolveB" 1 (if same then zvecB else N_VScale 1 rvecB)
    (match self.get_function "linsolB" with
    | .error e => .error e
    | .ok _ =>
      if fns.linsol_is_null "linsolB" then .error (.exception "Assertion failed")
      else if fns.linsol_nnz_out "linsolB" =
          (if same then zvecB else N_VScale 1 rvecB).length then
        match fns.linsol_solve "linsolB" (if same then zvecB else N_VScale 1 rvecB) with
        | .error e => .error e
        | .ok z => .ok (0, z)
      else .error (.exception "Assertion error"))

/-- `IdasInterface::psetup`; the output is the buffer `m->jac`. -/
def IdasInterface.psetup {D S : Type} [LinearOrderedField D] (fns : Functions D)
    (self : IdasInterface D) (m : IdasMemory D S) (t cj : D) (xz : List D) :
    Callback (List D) :=
  tryCatch "psetup" 1 m.jac
    (match fns.calc_function "jacF" (self.argsJacF m t cj xz) with
    | .error e => .error e
    | .ok outs =>
      match self.get_function "linsolF" with
      | .error e => .error e
      | .ok _ =>
        match fns.linsol_factorize "linsolF" (writeAt m.jac 0 (outs.getD 0 [])) with
        | .error e => .error e
        | .ok _ => .ok (0, writeAt m.jac 0 (outs.getD 0 [])))

/-- `IdasInterface::psetupB`; the output is the buffer `m->jacB`. -/
def IdasInterface.psetupB {D S : Type} [LinearOrderedField D] (fns : Functions D)
    (self : IdasInterface D) (m : IdasMemory D S) (t cj : D) (xz rxz : List D) :
    Callback (List D) :=
  tryCatch "psetupB" 1 m.jacB
    (match fns.calc_function "jacB" (self.argsJacB m t cj xz rxz) with
    | .error e => .error e
    | .ok outs =>
      match self.get_function "linsolB" with
      | .error e => .error e
      | .ok _ =>
        match fns.linsol_factorize "linsolB" (writeAt m.jacB 0 (outs.getD 0 [])) with
        | .error e => .error e
        | .ok _ => .ok (0, writeAt m.jacB 0 (outs.getD 0 [])))

/-- Sub-functions that all throw the integer signal `flag`. -/
def throwingFunctions (flag : Int) : Functions ℚ where
  calc_function := fun _ _ => .error (.int flag)
  sparsity_out := fun _ => { colind := [0], row := [], size2 := 0 }
  linsol_nnz_out := fun _ => 1
  linsol_is_null := fun _ => false
  linsol_factorize := fun _ _ => .error (.int flag)
  linsol_solve := fun _ _ => .error (.int flag)

/-- Sub-functions that complete and write zeros. -/
def exampleFunctions : Functions ℚ where
  calc_function := fun _ _ => .ok [[0], []]
  sparsity_out := fun _ => { colind := [0, 1], row := [0], size2 := 1 }
  linsol_nnz_out := fun _ => 1
  linsol_is_null := fun _ => false
  linsol_factorize := fun _ _ => .ok ()
  linsol_solve := fun _ z => .ok z

/-- The example integrator with the linear solver functions registered. -/
def exampleLinsolIntegrator : IdasInterface ℚ :=
  { exampleIntegrator with functions := ["jacF", "jacB", "linsolF", "linsolB"] }

/-- An integrator with one differential and one algebraic state in both
directions; otherwise the example integrator. -/
def exampleDae : IdasInterface ℚ :=
  { exampleIntegrator with nz_ := 1, nrz_ := 1 }

/-- Sub-functions that complete and write 5 to their first result and 7 to
their second. -/
def exampleDaeFunctions : Functions ℚ where
  calc_function := fun _ _ => .ok [[5], [7]]
  sparsity_out := fun _ => { colind := [0, 1], row := [0], size2 := 1 }
  linsol_nnz_out := fun _ => 1
  linsol_is_null := fun _ => false
  linsol_factorize := fun _ _ => .ok ()
  linsol_solve := fun _ z => .ok z

/-- A callback `cb`, as a function of the sub-functions it is run with,
evaluates the sub-function `name` on the argument slots `slots`: replacing
the sub-functions by others that do the same on these slots does not change
the outcome of the callback, and an exception that the sub-function throws on
these slots is reported under the name `cbname` of the callback. -/
def InvokesOn {D O : Type} (cb : Functions D → Callback O) (cbname name : String)
    (slots : List (List D)) : Prop :=
  (∀ (fns : Functions D) (g : String → List (List D) → Except Thrown (List (List D))),
    g name slots = fns.calc_function name slots →
    cb { fns with calc_function := g } = cb fns) ∧
  (∀ (fns : Functions D) (what : String),
    fns.calc_function name slots = .error (.exception what) →
    (cb fns).userOut = [cbname ++ " failed: " ++ what])

/-- Sub-functions that throw when their first argument slot holds the state
vector `[5, 7]` and complete otherwise. -/
def stateFirstFunctions : Functions ℚ where
  calc_function := fun _ args =>
    if args.head? = some [5, 7] then .error (.exception "state in slot 0") else .ok [[0], [0]]
  sparsity_out := fun _ => { colind := [0, 1], row := [0], size2 := 1 }
  linsol_nnz_out := fun _ => 1
  linsol_is_null := fun _ => false
  linsol_factorize := fun _ _ => .ok ()
  linsol_solve := fun _ z => .ok z

/-- The function `jacF` that `getJacF` builds: its name, its inputs
`a[DE_T], a[DE_X], a[DE_Z], a[DE_P], cj` (each input of the oracle under its
name) and its output. -/
def IdasInterface.getJacF : String × List String × List String :=
  ("jacF", ["t", "x", "z", "p", "cj"], ["jac"])

/-- The function `jacB` that `getJacB` builds, with the inputs
`a[DE_T], a[DE_RX], a[DE_RZ], a[DE_RP], a[DE_X], a[DE_Z], a[DE_P], cj`. -/
def IdasInterface.getJacB : String × List String × List String :=
  ("jacB", ["t", "rx", "rz", "rp", "x", "z", "p", "cj"], ["jac"])

/-- The sub-functions that `IdasInterface::init` registers, in the order of
the `create_function` and `set_function` calls: name, input names, output
names. -/
def IdasInterface.init_functions {D : Type} (self : IdasInterface D) :
    List (String × List String × List String) :=
  [("daeF", ["x", "z", "p", "t"], ["ode", "alg"]),
    ("quadF", ["x", "z", "p", "t"], ["quad"]),
    ("daeB", ["rx", "rz", "rp", "x", "z", "p", "t"], ["rode", "ralg"]),
    ("quadB", ["rx", "rz", "rp", "x", "z", "p", "t"], ["rquad"])] ++
  (if self.exact_jacobian_ then [IdasInterface.getJacF] else []) ++
  (if self.exact_jacobianB_ ∧ 0 < self.nrx_ then [IdasInterface.getJacB] else []) ++
  (if self.exact_jacobian_ then
    match self.linsol_f_ with
    | .SD_ITERATIVE =>
      [("jtimesF", ["t", "x", "z", "p", "fwd:x", "fwd:z"], ["fwd:ode", "fwd:alg"])]
    | _ => []
  else []) ++
  (if self.exact_jacobianB_ then
    match self.linsol_g_ with
    | .SD_ITERATIVE =>
      [("jtimesB", ["t", "x", "z", "p", "rx", "rz", "rp", "fwd:rx", "fwd:rz"],
        ["fwd:rode", "fwd:ralg"])]
    | _ => []
  else [])

/-- What each named input of a sub-function stands for inside a callback: the
differential part of a state vector is the vector itself, its algebraic part
the vector offset by the number of differential states; `v` is the seed of the
forward problem and `vB` that of the backward problem. -/
def IdasInterface.slotValue {D S : Type} (self : IdasInterface D) (m : IdasMemory D S)
    (t cj : D) (xz rxz v vB : List D) (name : String) : List D :=
  if name = "x" then xz
  else if name = "z" then xz.drop self.nx_
  else if name = "p" then m.p
  else if name = "t" then [t]
  else if name = "rx" then rxz
  else if name = "rz" then rxz.drop self.nrx_
  else if name = "rp" then m.rp
  else if name = "fwd:x" then v
  else if name = "fwd:z" then v.drop self.nx_
  else if name = "fwd:rx" then vB
  else if name = "fwd:rz" then vB.drop self.nrx_
  else if name = "cj" then [cj]
  else []

/-- An integrator with exact Jacobians and iterative linear solvers in both
directions, for which `init` registers every sub-function. -/
def exampleIterativeIntegrator : IdasInterface ℚ :=
  { exampleIntegrator with
    exact_jacobian_ := true
    exact_jacobianB_ := true
    linsol_f_ := .SD_ITERATIVE
    linsol_g_ := .SD_ITERATIVE }

/-- The first part of the message of `idas_error`: the module, the flag and
its name. -/
def idasErrorHeader {D S : Type} (lib : IdasLibrary D S) (module : String) (flag : Int) :
    String :=
  "Module \"" ++ module ++ "\" returned flag " ++ toString flag ++ " (\"" ++
    lib.IDAGetReturnFlagName flag ++ "\")." ++ " Consult Idas documentation.\n"

/-- The remediation hints that `idas_error` writes under its heuristics. -/
def idasErrorHints : String :=
  "Some common causes for this error: \n" ++
    "  - providing an initial guess for which 0=g(y, z, t) is not invertible wrt y. \n" ++
    "  - having a DAE-index higher than 1 such that 0=g(y, z, t) is not invertible wrt y " ++
    "over the whole domain.\n" ++
    "  - having set abstol or reltol too small.\n" ++
    "  - using 'calcic'=True for systems that are not semi-explicit index-one. " ++
    "You must provide consistent initial conditions yourself in this case. \n" ++
    "  - your problem is too hard for IDAcalcIC to solve. Provide consistent " ++
    "initial conditions yourself.\n"

/-- The calls of `IDAInit` in a log. -/
def isIdaInit {D : Type} : IdaFn D → Bool
  | .IDAInit _ => true
  | _ => false

/-- The calls of `IDASetMaxNumSteps` in a log. -/
def isSetMaxNumSteps {D : Type} : IdaFn D → Bool
  | .IDASetMaxNumSteps => true
  | _ => false

/-- A library in which the calls of the kind `bad` report the failure `flag`,
`IDACreate` returns a non-null block and every other call succeeds. -/
def failingLibrary (bad : IdaFn ℚ → Bool) (flag : Int) : IdasLibrary ℚ Unit :=
  { exampleLibrary with
    native := fun fn m =>
      match fn with
      | .IDACreate => (1, m)
      | _ => if bad fn then (flag, m) else (0, m) }

/-- The stepping calls of the forward problem: `IDASolve` and `IDASolveF`. -/
def isStepping {D : Type} : IdaFn D → Bool
  | .IDASolve _ => true
  | .IDASolveF _ => true
  | _ => false

/-- An integrator without backward states; otherwise the example
integrator. -/
def exampleForwardIntegrator : IdasInterface ℚ :=
  { exampleIntegrator with nrx_ := 0 }

/-- The queries that `advance` makes after the stepping call: the
quadratures and the statistics. -/
def isQuery {D : Type} : IdaFn D → Bool
  | .IDAGetQuad => true
  | .IDAGetIntegratorStats => true
  | .IDADlsGetNumResEvals => true
  | .IDASpilsGetNumResEvals => true
  | _ => false

/-- The module names under which a failed query is reported. -/
def queryModules : List String :=
  ["IDAGetQuad", "IDAGetIntegratorStats", "IDADlsGetNumResEvals", "IDASpilsGetNumResEvals"]

/-- The outcome of a piece of code that only makes queries: every new call is
a query; it throws only the error of a query that reported a failure; and it
returns normally when every query succeeds. -/
def Run.Queries {D S : Type} (lib : IdasLibrary D S) (m : IdasMemory D S) (r : Run D S) :
    Prop :=
  (∃ rest, r.m.calls = m.calls ++ rest ∧ ∀ fn ∈ rest, isQuery fn = true) ∧
  (r.ret = .ok () ∨ ∃ (fn : IdaFn D) (m1 : IdasMemory D S) (module : String),
    isQuery fn = true ∧ module ∈ queryModules ∧ (lib.native fn m1).1 ≠ lib.IDA_SUCCESS ∧
    r.ret = .error (idas_error lib module (lib.native fn m1).1)) ∧
  ((∀ (fn : IdaFn D) (m1 : IdasMemory D S), isQuery fn = true →
      (lib.native fn m1).1 = lib.IDA_SUCCESS) → r.ret = .ok ())

/-- One call on an integrator memory: `reset`, `advance`, `resetB` or
`retreat`, with its arguments. -/
inductive MemoryOp (D : Type) where
  | reset (t : D) (x z p : List D)
  | advance (t : D)
  | resetB (t : D) (rx rz rp : List D)
  | retreat (t : D)

/-- The `resetB` calls among the calls on a memory. -/
def MemoryOp.isResetB {D : Type} : MemoryOp D → Bool
  | .resetB _ _ _ _ => true
  | _ => false

/-- The memory that one call leaves behind, whether the call returned or
threw. -/
def IdasInterface.applyOp {D S : Type} [LinearOrderedField D] (lib : IdasLibrary D S)
    (self : IdasInterface D) (m : IdasMemory D S) : MemoryOp D → IdasMemory D S
  | .reset t x z p => (self.reset lib m t x z p).m
  | .advance t => (self.advance lib m t).m
  | .resetB t rx rz rp => (self.resetB lib m t rx rz rp).m
  | .retreat t => (self.retreat lib m t).m

/-- The memory after a sequence of calls, each made on the memory the
previous one left behind. -/
def IdasInterface.applyOps {D S : Type} [LinearOrderedField D] (lib : IdasLibrary D S)
    (self : IdasInterface D) (ops : List (MemoryOp D)) (m : IdasMemory D S) : IdasMemory D S :=
  ops.foldl (self.applyOp lib) m

/-- A property of the two flags `isInitTaping` and `isInitAdj` holds of a
memory. -/
@[reducible] def FlagsSatisfy {D S : Type} (P : Bool → Bool → Prop) (m : IdasMemory D S) :
    Prop :=
  P m.isInitTaping m.isInitAdj

/-- The loop nest that the four Jacobian callbacks share: for every column
`cc` and every `el` in `[colind[cc], colind[cc+1])` for which `keep cc el`
holds, the element `(row[el], cc)` of the matrix is set to `jac[el]`. -/
def patternLoop {D : Type} [LinearOrderedField D] (keep : Nat → Nat → Bool) (sp : Sparsity)
    (jac : List D) (Jac : DlsMat D) : DlsMat D :=
  (List.range sp.size2).foldl
    (fun J cc =>
      (List.range' (sp.colind.getD cc 0)
          (sp.colind.getD (cc + 1) 0 - sp.colind.getD cc 0)).foldl
        (fun J1 el => if keep cc el then J1.set (sp.row.getD el 0) cc (jac.getD el 0) else J1) J)
    Jac

/-- A valid compressed-column pattern: `colind` has one entry per column and
one more, starts at 0, does not decrease and ends at the number of nonzeros,
and the row indices of each column increase strictly. -/
def Sparsity.Valid (sp : Sparsity) : Prop :=
  sp.colind.length = sp.size2 + 1 ∧ sp.colind.getD 0 0 = 0 ∧
  sp.colind.getD sp.size2 0 = sp.row.length ∧
  (∀ cc, cc < sp.size2 → sp.colind.getD cc 0 ≤ sp.colind.getD (cc + 1) 0) ∧
  (∀ cc el el1, cc < sp.size2 → sp.colind.getD cc 0 ≤ el → el < el1 →
    el1 < sp.colind.getD (cc + 1) 0 → sp.row.getD el 0 < sp.row.getD el1 0)

/-- The nonzero `el` of the pattern lies in column `cc`. -/
def Sparsity.InColumn (sp : Sparsity) (cc el : Nat) : Prop :=
  cc < sp.size2 ∧ sp.colind.getD cc 0 ≤ el ∧ el < sp.colind.getD (cc + 1) 0

/-- The test `cc - rr <= mupper && rr - cc <= mlower` of `bjac` on the
nonzero `el` of column `cc`, with `rr = row[el]`. -/
def Sparsity.inBand (sp : Sparsity) (mupper mlower : Int) (cc el : Nat) : Bool :=
  decide ((cc : Int) - (sp.row.getD el 0 : Int) ≤ mupper ∧
    (sp.row.getD el 0 : Int) - (cc : Int) ≤ mlower)

/-- Sub-functions whose Jacobian has the pattern of a lower triangular 2-by-2
matrix and the values 5, 6, 7. -/
def triangularFunctions : Functions ℚ where
  calc_function := fun _ _ => .ok [[5, 6, 7]]
  sparsity_out := fun _ => { colind := [0, 2, 3], row := [0, 1, 1], size2 := 2 }
  linsol_nnz_out := fun _ => 3
  linsol_is_null := fun _ => false
  linsol_factorize := fun _ _ => .ok ()
  linsol_solve := fun _ z => .ok z

/-- The matrix `Jac1` is the matrix `Jac` with the kept nonzeros of the
pattern `sp` filled from the value array `jac`: `Jac1(row[el], cc) = jac[el]`
for every nonzero `el` of a column `cc` that is kept, and every element that
is not a kept nonzero of the pattern is as in `Jac`. -/
def FillsPattern {D : Type} [LinearOrderedField D] (keep : Nat → Nat → Bool) (sp : Sparsity) (jac : List D)
    (Jac Jac1 : DlsMat D) : Prop :=
  (∀ cc el, sp.InColumn cc el → keep cc el = true →
    Jac1 (sp.row.getD el 0) cc = jac.getD el 0) ∧
  (∀ i j, (¬ ∃ el, sp.InColumn j el ∧ keep j el = true ∧ sp.row.getD el 0 = i) →
    Jac1 i j = Jac i j)

/-- The relation between the memory before and after a piece of code that
only makes library calls of the kind `Q`, whatever it does to the flags. -/
@[reducible] def CallsOnly {D S : Type} (Q : IdaFn D → Bool) (m m1 : IdasMemory D S) : Prop :=
  ∃ new, m1.calls = m.calls ++ new ∧ ∀ fn ∈ new, Q fn = true

/-- The memory of the example integrator after `init_memory`, a `reset` and a
first `resetB`, all with the library that accepts every call. -/
def exampleBackwardMemory : IdasMemory ℚ Unit :=
  (exampleIntegrator.resetB exampleLibrary
    (exampleIntegrator.reset exampleLibrary
      (exampleIntegrator.init_memory exampleLibrary exampleMemory).m 0 [1] [] []).m
    1 [0] [] []).m

/-! ## Theorems -/

/-! ## Index-checked access -/

theorem vectorAt_error_iff {A : Type} (v : List A) (k : Int) :
    (∃ e, vectorAt v k = .error e) ↔ (k < 0 ∨ k ≥ v.length) := by
  unfold vectorAt
  by_cases hk : k < 0
  · simp [hk]
  · have h0 : 0 ≤ k := not_lt.mp hk
    simp only [hk, if_false, false_or]
    cases hg : v.get? k.toNat with
    | some a =>
      have hlt : k.toNat < v.length := (List.get?_eq_some.mp hg).1
      constructor
      · rintro ⟨e, he⟩
        cases he
      · intro hge
        omega
    | none =>
      have hle : v.length ≤ k.toNat := List.get?_eq_none.mp hg
      constructor
      · intro _
        omega
      · intro _
        exact ⟨_, rfl⟩

theorem vectorAt_ok_of_lt {A : Type} (v : List A) (k : Int) (h0 : 0 ≤ k) (hlt : k < v.length) :
    ∃ a, v.get? k.toNat = some a ∧ vectorAt v k = .ok a := by
  have hk : ¬ k < 0 := not_lt.mpr h0
  have hlt2 : k.toNat < v.length := by omega
  refine ⟨v.get ⟨k.toNat, hlt2⟩, List.get?_eq_get hlt2, ?_⟩
  unfold vectorAt
  rw [if_neg hk, List.get?_eq_get hlt2]

theorem inputStruct_error_iff (self : FXInternal R) (i : Int) :
    (∃ e, inputStruct self i = .error e) ↔ (i < 0 ∨ i ≥ getNumInputs self) := by
  unfold inputStruct getNumInputs
  by_cases h : i < 0 ∨ i ≥ (self.input_.length : Int)
  · simp [h]
  · rw [if_neg h]
    exact vectorAt_error_iff self.input_ i

theorem outputStruct_error_iff (self : FXInternal R) (i : Int) :
    (∃ e, outputStruct self i = .error e) ↔ (i < 0 ∨ i ≥ getNumOutputs self) := by
  unfold outputStruct getNumOutputs
  by_cases h : i < 0 ∨ i ≥ (self.output_.length : Int)
  · simp [h]
  · rw [if_neg h]
    exact vectorAt_error_iff self.output_ i

theorem inputStruct_ok_of_lt (self : FXInternal R) (i : Int) (h0 : 0 ≤ i)
    (hlt : i < getNumInputs self) :
    ∃ io, self.input_.get? i.toNat = some io ∧ inputStruct self i = .ok io := by
  unfold getNumInputs at hlt
  have h : ¬ (i < 0 ∨ i ≥ (self.input_.length : Int)) := by omega
  unfold inputStruct
  rw [if_neg h]
  exact vectorAt_ok_of_lt self.input_ i h0 hlt

theorem outputStruct_ok_of_lt (self : FXInternal R) (i : Int) (h0 : 0 ≤ i)
    (hlt : i < getNumOutputs self) :
    ∃ io, self.output_.get? i.toNat = some io ∧ outputStruct self i = .ok io := by
  unfold getNumOutputs at hlt
  have h : ¬ (i < 0 ∨ i ≥ (self.output_.length : Int)) := by omega
  unfold outputStruct
  rw [if_neg h]
  exact vectorAt_ok_of_lt self.output_ i h0 hlt

theorem except_map_error_iff {A B : Type} (x : Except Exception A) (g : A → B) :
    (∃ e, x.map g = .error e) ↔ ∃ e, x = .error e := by
  cases x with
  | error e => simp [Except.map]
  | ok a => simp [Except.map]

theorem input_ok_of_lt (self : FXInternal R) (i : Int) (h0 : 0 ≤ i)
    (hlt : i < getNumInputs self) :
    ∃ io, self.input_.get? i.toNat = some io ∧ input self i = .ok io.data := by
  obtain ⟨io, hio, hs⟩ := inputStruct_ok_of_lt self i h0 hlt
  exact ⟨io, hio, by simp [input, hs, Except.map]⟩

theorem output_ok_of_lt (self : FXInternal R) (i : Int) (h0 : 0 ≤ i)
    (hlt : i < getNumOutputs self) :
    ∃ io, self.output_.get? i.toNat = some io ∧ output self i = .ok io.data := by
  obtain ⟨io, hio, hs⟩ := outputStruct_ok_of_lt self i h0 hlt
  exact ⟨io, hio, by simp [output, hs, Except.map]⟩

theorem input_error_iff (self : FXInternal R) (i : Int) :
    (∃ e, input self i = .error e) ↔ (i < 0 ∨ i ≥ getNumInputs self) := by
  unfold input
  rw [except_map_error_iff]
  exact inputStruct_error_iff self i

theorem output_error_iff (self : FXInternal R) (i : Int) :
    (∃ e, output self i = .error e) ↔ (i < 0 ∨ i ≥ getNumOutputs self) := by
  unfold output
  rw [except_map_error_iff]
  exact outputStruct_error_iff self i

/-- C1: for every function object (whatever its options and direction counts)
and every integer `i`, `input(i)` throws exactly when `i < 0` or
`i >= getNumInputs()` and otherwise returns the primal value of input slot `i`;
`output(i)` throws exactly when `i < 0` or `i >= getNumOutputs()` and otherwise
returns the primal value of output slot `i`. -/
theorem input_output_index_contract (self : FXInternal R) (i : Int) :
    ((∃ e, input self i = .error e) ↔ (i < 0 ∨ i ≥ getNumInputs self)) ∧
    (¬ (i < 0 ∨ i ≥ getNumInputs self) →
      ∃ io, self.input_.get? i.toNat = some io ∧ input self i = .ok io.data) ∧
    ((∃ e, output self i = .error e) ↔ (i < 0 ∨ i ≥ getNumOutputs self)) ∧
    (¬ (i < 0 ∨ i ≥ getNumOutputs self) →
      ∃ io, self.output_.get? i.toNat = some io ∧ output self i = .ok io.data) := by
  refine ⟨input_error_iff self i, ?_, output_error_iff self i, ?_⟩
  · intro h
    exact input_ok_of_lt self i (by omega) (by omega)
  · intro h
    exact output_ok_of_lt self i (by omega) (by omega)

theorem input_output_index_contract_witness :
    ¬ ((1 : Int) < 0 ∨ (1 : Int) ≥ getNumInputs exampleFX) ∧
    ∃ io, exampleFX.input_.get? (1 : Int).toNat = some io ∧
      input exampleFX 1 = .ok io.data :=
  ⟨by decide, (input_output_index_contract exampleFX 1).2.1 (by decide)⟩

theorem vectorResize_ok {A : Type} (dflt : A) (v v1 : List A) (n : Int)
    (h : vectorResize dflt v n = .ok v1) :
    0 ≤ n ∧ v1 = v.take n.toNat ++ List.replicate (n.toNat - v.length) dflt := by
  unfold vectorResize at h
  by_cases hn : n < 0
  · simp [hn] at h
  · rw [if_neg hn] at h
    cases h
    exact ⟨not_lt.mp hn, rfl⟩

theorem vectorResize_length {A : Type} (dflt : A) (v v1 : List A) (n : Int)
    (h : vectorResize dflt v n = .ok v1) : (v1.length : Int) = n := by
  obtain ⟨h0, rfl⟩ := vectorResize_ok dflt v v1 n h
  simp only [List.length_append, List.length_take, List.length_replicate]
  omega

theorem vectorResize_get {A : Type} (dflt : A) (v v1 : List A) (n : Int)
    (h : vectorResize dflt v n = .ok v1) (k : Nat) (hk : (k : Int) < n) :
    v1.get? k = some ((v.get? k).getD dflt) := by
  obtain ⟨h0, rfl⟩ := vectorResize_ok dflt v v1 n h
  have hkn : k < n.toNat := by omega
  by_cases hkv : k < v.length
  · rw [List.get?_eq_getElem?, List.getElem?_append_left (by simp; omega)]
    simp [List.getElem?_take, hkn, List.getElem?_eq_getElem hkv]
  · have hle : v.length ≤ k := not_lt.mp hkv
    rw [List.get?_eq_getElem?, List.getElem?_append_right (by simp; omega)]
    simp only [List.length_take]
    rw [List.getElem?_replicate]
    have hmin : min n.toNat v.length = v.length := by omega
    simp [hmin, List.getElem?_eq_none hle]
    omega

/-- C2 (as stated) fails: after `setNumInputs(1)` on a freshly constructed
object, which is not initialized, `input(0)` returns the empty matrix of the
new slot instead of throwing. -/
theorem uninit_access_counterexample :
    ¬ (∀ (self : FXInternal Int) (i : Int), isInit self = false →
        (∃ e, input self i = .error e) ∧ (∃ e, output self i = .error e)) ∧
    (∀ self1, setNumInputs (FXInternal.create Int "N6CasADi10FXInternalE") 1 = .ok self1 →
      isInit self1 = false ∧ input self1 0 = .ok Matrix.empty) := by
  constructor
  · intro h
    obtain ⟨⟨e, he⟩, _⟩ := h exampleFX 0 rfl
    have hok : input exampleFX 0 = .ok (exampleMatrix 2 1) := rfl
    rw [hok] at he
    cases he
  · intro self1 h
    have h1 : setNumInputs (FXInternal.create Int "N6CasADi10FXInternalE") 1 =
        .ok { FXInternal.create Int "N6CasADi10FXInternalE" with
              input_ := [ FunctionIO.default] } := rfl
    rw [h1] at h
    cases h
    exact ⟨rfl, rfl⟩

/-- C2 (amended): on an object for which `init()` has not been called,
`input(i)` and `output(i)` throw exactly for the indices outside `[0, count)`;
after `setNumInputs(n)` (resp. `setNumOutputs(n)`) with `n >= 0` the object is
still uninitialized, has `n` slots, and `input(i)` (resp. `output(i)`) returns
the primal value of slot `i` for every `i` in `[0, n)`. -/
theorem uninit_access_by_range (self : FXInternal R) (hinit : isInit self = false) :
    (∀ i : Int, ((∃ e, input self i = .error e) ↔ (i < 0 ∨ i ≥ getNumInputs self)) ∧
      ((∃ e, output self i = .error e) ↔ (i < 0 ∨ i ≥ getNumOutputs self))) ∧
    (∀ n : Int, 0 ≤ n → ∃ self1, setNumInputs self n = .ok self1 ∧ isInit self1 = false ∧
      (getNumInputs self1 : Int) = n ∧
      ∀ i : Int, 0 ≤ i → i < n →
        ∃ io, self1.input_.get? i.toNat = some io ∧ input self1 i = .ok io.data) ∧
    (∀ n : Int, 0 ≤ n → ∃ self1, setNumOutputs self n = .ok self1 ∧ isInit self1 = false ∧
      (getNumOutputs self1 : Int) = n ∧
      ∀ i : Int, 0 ≤ i → i < n →
        ∃ io, self1.output_.get? i.toNat = some io ∧ output self1 i = .ok io.data) := by
  refine ⟨fun i => ⟨input_error_iff self i, output_error_iff self i⟩, ?_, ?_⟩
  · intro n hn
    have hr : vectorResize FunctionIO.default self.input_ n =
        .ok (self.input_.take n.toNat ++
          List.replicate (n.toNat - self.input_.length) FunctionIO.default) := by
      unfold vectorResize
      rw [if_neg (not_lt.mpr hn)]
    have hlen := vectorResize_length _ _ _ _ hr
    refine ⟨{ self with
              input_ := self.input_.take n.toNat ++
                List.replicate (n.toNat - self.input_.length) FunctionIO.default }, ?_, hinit,
      hlen, ?_⟩
    · unfold setNumInputs
      rw [hr]
    · intro i h0 hlt
      refine input_ok_of_lt _ i h0 ?_
      show i < ((self.input_.take n.toNat ++
        List.replicate (n.toNat - self.input_.length) FunctionIO.default).length : Int)
      omega
  · intro n hn
    have hr : vectorResize FunctionIO.default self.output_ n =
        .ok (self.output_.take n.toNat ++
          List.replicate (n.toNat - self.output_.length) FunctionIO.default) := by
      unfold vectorResize
      rw [if_neg (not_lt.mpr hn)]
    have hlen := vectorResize_length _ _ _ _ hr
    refine ⟨{ self with
              output_ := self.output_.take n.toNat ++
                List.replicate (n.toNat - self.output_.length) FunctionIO.default }, ?_, hinit,
      hlen, ?_⟩
    · unfold setNumOutputs
      rw [hr]
    · intro i h0 hlt
      refine output_ok_of_lt _ i h0 ?_
      show i < ((self.output_.take n.toNat ++
        List.replicate (n.toNat - self.output_.length) FunctionIO.default).length : Int)
      omega

theorem uninit_access_by_range_witness :
    isInit (FXInternal.create Int "N6CasADi10FXInternalE") = false ∧
    ∃ self1, setNumInputs (FXInternal.create Int "N6CasADi10FXInternalE") 2 = .ok self1 ∧
      isInit self1 = false ∧ (getNumInputs self1 : Int) = 2 ∧
      ∀ i : Int, 0 ≤ i → i < 2 →
        ∃ io, self1.input_.get? i.toNat = some io ∧ input self1 i = .ok io.data :=
  ⟨rfl, (uninit_access_by_range (FXInternal.create Int "N6CasADi10FXInternalE") rfl).2.1 2
    (by decide)⟩

/-! ## Initialisation -/

theorem initSlots_ok (nfdir nadir : Int) (l l1 : List ( FunctionIO R))
    (h : initSlots nfdir nadir l = .ok l1) :
    l1.length = l.length ∧
    ∀ io ∈ l1, (io.dataF.length : Int) = nfdir ∧ (io.dataA.length : Int) = nadir := by
  induction l generalizing l1 with
  | nil =>
    simp only [initSlots] at h
    cases h
    simp
  | cons io rest ih =>
    simp only [initSlots] at h
    cases hF : vectorResize Matrix.empty io.dataF nfdir with
    | error e => simp [hF] at h
    | ok dF =>
      cases hA : vectorResize Matrix.empty io.dataA nadir with
      | error e => simp [hF, hA] at h
      | ok dA =>
        cases hR : initSlots nfdir nadir rest with
        | error e => simp [hF, hA, hR] at h
        | ok rest1 =>
          simp only [hF, hA, hR] at h
          cases h
          obtain ⟨hlen, hall⟩ := ih rest1 hR
          refine ⟨by simp [hlen], ?_⟩
          intro io1 hio1
          rcases List.mem_cons.mp hio1 with rfl | hmem
          · exact ⟨vectorResize_length _ _ _ _ hF, vectorResize_length _ _ _ _ hA⟩
          · exact hall io1 hmem

theorem initSlots_total (nfdir nadir : Int) (hF : 0 ≤ nfdir) (hA : 0 ≤ nadir)
    (l : List ( FunctionIO R)) : ∃ l1, initSlots nfdir nadir l = .ok l1 := by
  induction l with
  | nil => exact ⟨[], rfl⟩
  | cons io rest ih =>
    obtain ⟨rest1, hR⟩ := ih
    simp only [initSlots, vectorResize, if_neg (not_lt.mpr hF), if_neg (not_lt.mpr hA), hR]
    exact ⟨_, rfl⟩

theorem init_ok (self self1 : FXInternal R) (h : init self = .ok self1) :
    ∃ inp out,
      initSlots self.options.number_of_fwd_dir self.options.number_of_adj_dir self.input_ =
        .ok inp ∧
      initSlots self.options.number_of_fwd_dir self.options.number_of_adj_dir self.output_ =
        .ok out ∧
      self1.input_ = inp ∧ self1.output_ = out ∧
      self1.nfdir_ = self.options.number_of_fwd_dir ∧
      self1.nadir_ = self.options.number_of_adj_dir ∧
      self1.jac_sparsity_ = self.jac_sparsity_.resize out.length inp.length ∧
      self1.is_init_ = true ∧ self1.options = self.options := by
  unfold init at h
  cases hI : initSlots self.options.number_of_fwd_dir self.options.number_of_adj_dir
      self.input_ with
  | error e => simp [hI] at h
  | ok inp =>
    cases hO : initSlots self.options.number_of_fwd_dir self.options.number_of_adj_dir
        self.output_ with
    | error e => simp [hI, hO] at h
    | ok out =>
      simp only [hI, hO] at h
      cases h
      exact ⟨inp, out, rfl, rfl, rfl, rfl, rfl, rfl, rfl, rfl, rfl⟩

theorem init_Initialized (self self1 : FXInternal R) (h : init self = .ok self1) :
    Initialized self1 := by
  obtain ⟨inp, out, hI, hO, hi, ho, hnf, hna, hjs, hinit, _⟩ := init_ok self self1 h
  obtain ⟨_, hallI⟩ := initSlots_ok _ _ _ _ hI
  obtain ⟨_, hallO⟩ := initSlots_ok _ _ _ _ hO
  refine ⟨hinit, ?_, ?_, ?_, ?_, ?_⟩
  · intro io hio
    rw [hi] at hio
    rw [hnf]
    exact (hallI io hio).1
  · intro io hio
    rw [hi] at hio
    rw [hna]
    exact (hallI io hio).2
  · intro io hio
    rw [ho] at hio
    rw [hnf]
    exact (hallO io hio).1
  · intro io hio
    rw [ho] at hio
    rw [hna]
    exact (hallO io hio).2
  · rw [hjs, hi, ho]
    exact ⟨rfl, rfl⟩

/-- C3: `init()` returns whenever both configured direction counts are
nonnegative, and whenever it returns, the object has the same number of input
and output slots as before, every input slot and every output slot has exactly
`number_of_fwd_dir` forward directions (`dataF`) and exactly
`number_of_adj_dir` adjoint directions (`dataA`), the sparsity table has
`getNumOutputs()` rows and `getNumInputs()` columns, and `isInit()` is true. -/
theorem init_sizes_storage (self : FXInternal R) :
    (0 ≤ self.options.number_of_fwd_dir → 0 ≤ self.options.number_of_adj_dir →
      ∃ self1, init self = .ok self1) ∧
    ∀ self1, init self = .ok self1 →
      getNumInputs self1 = getNumInputs self ∧ getNumOutputs self1 = getNumOutputs self ∧
      (∀ io ∈ self1.input_ ++ self1.output_,
        (io.dataF.length : Int) = self.options.number_of_fwd_dir ∧
        (io.dataA.length : Int) = self.options.number_of_adj_dir) ∧
      self1.jac_sparsity_.size1 = getNumOutputs self1 ∧
      self1.jac_sparsity_.size2 = getNumInputs self1 ∧
      isInit self1 = true := by
  constructor
  · intro hF hA
    obtain ⟨inp, hI⟩ := initSlots_total _ _ hF hA self.input_
    obtain ⟨out, hO⟩ := initSlots_total _ _ hF hA self.output_
    unfold init
    simp only [hI, hO]
    exact ⟨_, rfl⟩
  · intro self1 h
    obtain ⟨inp, out, hI, hO, hi, ho, hnf, hna, hjs, hinit, _⟩ := init_ok self self1 h
    obtain ⟨hlenI, hallI⟩ := initSlots_ok _ _ _ _ hI
    obtain ⟨hlenO, hallO⟩ := initSlots_ok _ _ _ _ hO
    refine ⟨?_, ?_, ?_, ?_, ?_, hinit⟩
    · unfold getNumInputs
      rw [hi, hlenI]
    · unfold getNumOutputs
      rw [ho, hlenO]
    · intro io hio
      rw [hi, ho] at hio
      rcases List.mem_append.mp hio with hm | hm
      · exact hallI io hm
      · exact hallO io hm
    · unfold getNumOutputs
      rw [hjs, ho]
      rfl
    · unfold getNumInputs
      rw [hjs, hi]
      rfl

theorem init_sizes_storage_witness :
    init exampleFX = .ok exampleInitFX ∧
    getNumInputs exampleInitFX = getNumInputs exampleFX ∧
    getNumOutputs exampleInitFX = getNumOutputs exampleFX ∧
    (∀ io ∈ exampleInitFX.input_ ++ exampleInitFX.output_,
      (io.dataF.length : Int) = exampleFX.options.number_of_fwd_dir ∧
      (io.dataA.length : Int) = exampleFX.options.number_of_adj_dir) ∧
    exampleInitFX.jac_sparsity_.size1 = getNumOutputs exampleInitFX ∧
    exampleInitFX.jac_sparsity_.size2 = getNumInputs exampleInitFX ∧
    isInit exampleInitFX = true :=
  ⟨rfl, (init_sizes_storage exampleFX).2 exampleInitFX rfl⟩

/-! ## Sensitivity directions -/

theorem inputStruct_ok_mem (self : FXInternal R) (i : Int) (io : FunctionIO R)
    (h : inputStruct self i = .ok io) :
    self.input_.get? i.toNat = some io ∧ io ∈ self.input_ := by
  by_cases hr : i < 0 ∨ i ≥ getNumInputs self
  · obtain ⟨e, he⟩ := (inputStruct_error_iff self i).mpr hr
    rw [he] at h
    cases h
  · obtain ⟨io1, hget, hok⟩ := inputStruct_ok_of_lt self i (by omega) (by omega)
    rw [hok] at h
    cases h
    exact ⟨hget, List.get?_mem hget⟩

theorem outputStruct_ok_mem (self : FXInternal R) (i : Int) (io : FunctionIO R)
    (h : outputStruct self i = .ok io) :
    self.output_.get? i.toNat = some io ∧ io ∈ self.output_ := by
  by_cases hr : i < 0 ∨ i ≥ getNumOutputs self
  · obtain ⟨e, he⟩ := (outputStruct_error_iff self i).mpr hr
    rw [he] at h
    cases h
  · obtain ⟨io1, hget, hok⟩ := outputStruct_ok_of_lt self i (by omega) (by omega)
    rw [hok] at h
    cases h
    exact ⟨hget, List.get?_mem hget⟩

theorem direction_error_iff (x : Except Exception ( FunctionIO R))
    (sel : FunctionIO R → List (Matrix R)) (d n : Int)
    (hx : ∀ io, x = .ok io → ((sel io).length : Int) = n) :
    (∃ e, x.bind (fun io => vectorAt (sel io) d) = .error e) ↔
      ((∃ e, x = .error e) ∨ d < 0 ∨ d ≥ n) := by
  cases x with
  | error e => simp [Except.bind]
  | ok io =>
    have hlen := hx io rfl
    simp only [Except.bind, vectorAt_error_iff, hlen]
    constructor
    · intro h
      exact Or.inr h
    · rintro (⟨e, he⟩ | h)
      · cases he
      · exact h

theorem direction_ok (x : Except Exception ( FunctionIO R))
    (sel : FunctionIO R → List (Matrix R)) (d : Int) (io : FunctionIO R) (hx : x = .ok io)
    (h0 : 0 ≤ d) (hlt : d < (sel io).length) :
    ∃ m, (sel io).get? d.toNat = some m ∧
      x.bind (fun io => vectorAt (sel io) d) = .ok m := by
  obtain ⟨m, hget, hok⟩ := vectorAt_ok_of_lt (sel io) d h0 hlt
  exact ⟨m, hget, by rw [hx]; exact hok⟩

/-- C4: on an initialized function object with `nfdir_` forward and `nadir_`
adjoint directions, `fwdSeed(i,d)` throws exactly when `i` is not a valid
input index or `d` is outside `[0, nfdir_)` and otherwise returns direction `d`
of `dataF` of input slot `i`; `fwdSens(o,d)` does the same on output slot `o`;
`adjSeed(o,d)` throws exactly when `o` is not a valid output index or `d` is
outside `[0, nadir_)` and otherwise returns direction `d` of `dataA` of output
slot `o`; `adjSens(i,d)` does the same on input slot `i`. -/
theorem sensitivity_access_contract (self : FXInternal R) (hinit : Initialized self)
    (k d : Int) :
    (((∃ e, fwdSeed self k d = .error e) ↔
        ((k < 0 ∨ k ≥ getNumInputs self) ∨ d < 0 ∨ d ≥ self.nfdir_)) ∧
      (¬ ((k < 0 ∨ k ≥ getNumInputs self) ∨ d < 0 ∨ d ≥ self.nfdir_) →
        ∃ io m, self.input_.get? k.toNat = some io ∧ io.dataF.get? d.toNat = some m ∧
          fwdSeed self k d = .ok m)) ∧
    (((∃ e, fwdSens self k d = .error e) ↔
        ((k < 0 ∨ k ≥ getNumOutputs self) ∨ d < 0 ∨ d ≥ self.nfdir_)) ∧
      (¬ ((k < 0 ∨ k ≥ getNumOutputs self) ∨ d < 0 ∨ d ≥ self.nfdir_) →
        ∃ io m, self.output_.get? k.toNat = some io ∧ io.dataF.get? d.toNat = some m ∧
          fwdSens self k d = .ok m)) ∧
    (((∃ e, adjSeed self k d = .error e) ↔
        ((k < 0 ∨ k ≥ getNumOutputs self) ∨ d < 0 ∨ d ≥ self.nadir_)) ∧
      (¬ ((k < 0 ∨ k ≥ getNumOutputs self) ∨ d < 0 ∨ d ≥ self.nadir_) →
        ∃ io m, self.output_.get? k.toNat = some io ∧ io.dataA.get? d.toNat = some m ∧
          adjSeed self k d = .ok m)) ∧
    (((∃ e, adjSens self k d = .error e) ↔
        ((k < 0 ∨ k ≥ getNumInputs self) ∨ d < 0 ∨ d ≥ self.nadir_)) ∧
      (¬ ((k < 0 ∨ k ≥ getNumInputs self) ∨ d < 0 ∨ d ≥ self.nadir_) →
        ∃ io m, self.input_.get? k.toNat = some io ∧ io.dataA.get? d.toNat = some m ∧
          adjSens self k d = .ok m)) := by
  have hFI : ∀ io, inputStruct self k = .ok io → ((io.dataF.length : Int) = self.nfdir_) :=
    fun io h => hinit.fwd_in io (inputStruct_ok_mem self k io h).2
  have hAI : ∀ io, inputStruct self k = .ok io → ((io.dataA.length : Int) = self.nadir_) :=
    fun io h => hinit.adj_in io (inputStruct_ok_mem self k io h).2
  have hFO : ∀ io, outputStruct self k = .ok io → ((io.dataF.length : Int) = self.nfdir_) :=
    fun io h => hinit.fwd_out io (outputStruct_ok_mem self k io h).2
  have hAO : ∀ io, outputStruct self k = .ok io → ((io.dataA.length : Int) = self.nadir_) :=
    fun io h => hinit.adj_out io (outputStruct_ok_mem self k io h).2
  refine ⟨⟨?_, ?_⟩, ⟨?_, ?_⟩, ⟨?_, ?_⟩, ⟨?_, ?_⟩⟩
  · unfold fwdSeed
    rw [direction_error_iff _ (fun io => io.dataF) d self.nfdir_ hFI, inputStruct_error_iff]
  · intro h
    obtain ⟨io, hget, hok⟩ := inputStruct_ok_of_lt self k (by omega) (by omega)
    have hl := hFI io hok
    obtain ⟨m, hm, hr⟩ :=
      direction_ok _ (fun io => io.dataF) d io hok (by omega) (by simp only; omega)
    exact ⟨io, m, hget, hm, hr⟩
  · unfold fwdSens
    rw [direction_error_iff _ (fun io => io.dataF) d self.nfdir_ hFO, outputStruct_error_iff]
  · intro h
    obtain ⟨io, hget, hok⟩ := outputStruct_ok_of_lt self k (by omega) (by omega)
    have hl := hFO io hok
    obtain ⟨m, hm, hr⟩ :=
      direction_ok _ (fun io => io.dataF) d io hok (by omega) (by simp only; omega)
    exact ⟨io, m, hget, hm, hr⟩
  · unfold adjSeed
    rw [direction_error_iff _ (fun io => io.dataA) d self.nadir_ hAO, outputStruct_error_iff]
  · intro h
    obtain ⟨io, hget, hok⟩ := outputStruct_ok_of_lt self k (by omega) (by omega)
    have hl := hAO io hok
    obtain ⟨m, hm, hr⟩ :=
      direction_ok _ (fun io => io.dataA) d io hok (by omega) (by simp only; omega)
    exact ⟨io, m, hget, hm, hr⟩
  · unfold adjSens
    rw [direction_error_iff _ (fun io => io.dataA) d self.nadir_ hAI, inputStruct_error_iff]
  · intro h
    obtain ⟨io, hget, hok⟩ := inputStruct_ok_of_lt self k (by omega) (by omega)
    have hl := hAI io hok
    obtain ⟨m, hm, hr⟩ :=
      direction_ok _ (fun io => io.dataA) d io hok (by omega) (by simp only; omega)
    exact ⟨io, m, hget, hm, hr⟩

theorem sensitivity_access_contract_witness :
    Initialized exampleInitFX ∧
    ((∃ e, fwdSeed exampleInitFX 1 2 = .error e) ↔
      (((1 : Int) < 0 ∨ (1 : Int) ≥ getNumInputs exampleInitFX) ∨ (2 : Int) < 0 ∨
        (2 : Int) ≥ exampleInitFX.nfdir_)) ∧
    (∃ io m, exampleInitFX.input_.get? (1 : Int).toNat = some io ∧
      io.dataF.get? (1 : Int).toNat = some m ∧ fwdSeed exampleInitFX 1 1 = .ok m) :=
  ⟨init_Initialized exampleFX exampleInitFX rfl,
    (sensitivity_access_contract exampleInitFX
      (init_Initialized exampleFX exampleInitFX rfl) 1 2).1.1,
    (sensitivity_access_contract exampleInitFX
      (init_Initialized exampleFX exampleInitFX rfl) 1 1).1.2 (by decide)⟩

/-! ## The Jacobian-sparsity cache -/

theorem lookup_assign_same (t : JacSparsityTable) (oind iind : Int) (sp : CRSSparsity) :
    (t.assign oind iind sp).lookup oind.toNat iind.toNat = sp := by
  simp [JacSparsityTable.lookup, JacSparsityTable.assign]

theorem find_filter_ne (l : List ((Nat × Nat) × CRSSparsity)) (p q : Nat × Nat) (hne : p ≠ q) :
    (l.filter (fun e => !(e.1 == q))).find? (fun e => e.1 == p) =
      l.find? (fun e => e.1 == p) := by
  induction l with
  | nil => rfl
  | cons e rest ih =>
    by_cases hq : e.1 = q
    · have hp : (e.1 == p) = false := by
        simpa using fun h => hne (h.symm.trans hq)
      have hq2 : (!(e.1 == q)) = false := by simp [hq]
      simp only [List.filter_cons, List.find?_cons, hq2, hp]
      exact ih
    · have hq2 : (!(e.1 == q)) = true := by simp [hq]
      simp only [List.filter_cons, hq2, if_true, List.find?_cons]
      rw [ih]

theorem lookup_assign_ne (t : JacSparsityTable) (oind iind : Int) (sp : CRSSparsity)
    (o i : Nat) (hne : (o, i) ≠ (oind.toNat, iind.toNat)) :
    (t.assign oind iind sp).lookup o i = t.lookup o i := by
  unfold JacSparsityTable.lookup JacSparsityTable.assign
  have hhead : ((oind.toNat, iind.toNat) == (o, i)) = false := by
    simpa using fun h1 h2 => hne (by rw [h1, h2])
  simp only [List.find?, hhead]
  rw [find_filter_ne _ _ _ hne]

theorem elem_in_range (t : JacSparsityTable) (oind iind : Int) (ho0 : 0 ≤ oind)
    (ho : oind < t.size1) (hi0 : 0 ≤ iind) (hi : iind < t.size2) :
    t.elem oind iind = .ok (t.lookup oind.toNat iind.toNat) := by
  unfold JacSparsityTable.elem
  rw [if_neg (by omega)]

theorem elem_ok (t : JacSparsityTable) (oind iind : Int) (sp : CRSSparsity)
    (h : t.elem oind iind = .ok sp) : sp = t.lookup oind.toNat iind.toNat := by
  unfold JacSparsityTable.elem at h
  split at h
  · cases h
  · cases h
    rfl

theorem elem_assign_same (t : JacSparsityTable) (oind iind : Int) (x sp : CRSSparsity)
    (h : t.elem oind iind = .ok x) : (t.assign oind iind sp).elem oind iind = .ok sp := by
  unfold JacSparsityTable.elem at h ⊢
  by_cases hr : oind < 0 ∨ oind ≥ t.size1 ∨ iind < 0 ∨ iind ≥ t.size2
  · rw [if_pos hr] at h
    cases h
  · have hr2 : ¬ (oind < 0 ∨ oind ≥ (t.assign oind iind sp).size1 ∨ iind < 0 ∨
        iind ≥ (t.assign oind iind sp).size2) := hr
    rw [if_neg hr2, lookup_assign_same]

theorem create_not_null (nrow ncol : Nat) (dense : Bool) :
    ∃ node, CRSSparsity.create nrow ncol dense = some node := by
  unfold CRSSparsity.create
  cases dense
  · exact ⟨_, rfl⟩
  · exact ⟨_, rfl⟩

theorem isNull_eq_false_iff (sp : CRSSparsity) :
    sp.isNull = false ↔ ∃ node, sp = some node := by
  cases sp with
  | none => simp [CRSSparsity.isNull]
  | some node => simp [CRSSparsity.isNull]

theorem jacSparsity_cached (getJS : FXInternal R → Int → Int → Except Exception CRSSparsity)
    (self : FXInternal R) (iind oind : Int) (node : CRSSparsityNode)
    (hinit : isInit self = true) (helem : self.jac_sparsity_.elem oind iind = .ok (some node)) :
    (jacSparsity getJS self iind oind).ret = .ok (some node) ∧
    (jacSparsity getJS self iind oind).self = self ∧
    (jacSparsity getJS self iind oind).getJacSparsityCalls = [] := by
  unfold jacSparsity
  simp [hinit, helem, CRSSparsity.isNull]

theorem jacSparsity_uninit (getJS : FXInternal R → Int → Int → Except Exception CRSSparsity)
    (self : FXInternal R) (iind oind : Int) (hinit : isInit self = false) :
    jacSparsity getJS self iind oind =
      { ret := .error (.CasadiException "Function not initialized."), self := self,
        getJacSparsityCalls := [] } := by
  unfold jacSparsity
  simp [hinit]

theorem jacSparsity_ret_ok (getJS : FXInternal R → Int → Int → Except Exception CRSSparsity)
    (self : FXInternal R) (iind oind : Int) (sp : CRSSparsity)
    (h : (jacSparsity getJS self iind oind).ret = .ok sp) :
    ∃ node, sp = some node ∧ isInit (jacSparsity getJS self iind oind).self = true ∧
      (jacSparsity getJS self iind oind).self.jac_sparsity_.elem oind iind =
        .ok (some node) := by
  cases hinit : isInit self with
  | false =>
    rw [jacSparsity_uninit getJS self iind oind hinit] at h
    cases h
  | true =>
    unfold jacSparsity at h ⊢
    simp only [hinit, Bool.not_true, Bool.false_eq_true, if_false] at h ⊢
    cases helem : self.jac_sparsity_.elem oind iind with
    | error e =>
      simp only [helem] at h
      cases h
    | ok jsp =>
      simp only [helem] at h ⊢
      cases jsp with
      | some node =>
        simp only [CRSSparsity.isNull, Option.isNone_some, Bool.false_eq_true, if_false] at h ⊢
        cases h
        exact ⟨node, rfl, hinit, helem⟩
      | none =>
        simp only [CRSSparsity.isNull, Option.isNone_none, if_true] at h ⊢
        cases hg : getJS self iind oind with
        | error e =>
          simp only [hg] at h
          cases h
        | ok jsp1 =>
          simp only [hg] at h ⊢
          cases jsp1 with
          | some node =>
            simp only [Option.isNone_some, Bool.false_eq_true, if_false] at h ⊢
            cases h
            exact ⟨node, rfl, hinit, elem_assign_same _ _ _ _ _ helem⟩
          | none =>
            simp only [Option.isNone_none, if_true] at h ⊢
            cases ho : output { self with
                jac_sparsity_ := self.jac_sparsity_.assign oind iind none } oind with
            | error e =>
              simp only [ho] at h
              cases h
            | ok o =>
              simp only [ho] at h ⊢
              cases hi : input { self with
                  jac_sparsity_ := self.jac_sparsity_.assign oind iind none } iind with
              | error e =>
                simp only [hi] at h
                cases h
              | ok i =>
                simp only [hi] at h ⊢
                cases h
                obtain ⟨node, hnode⟩ := create_not_null o.numel i.numel false
                refine ⟨node, hnode, hinit, ?_⟩
                rw [← hnode]
                exact elem_assign_same _ _ _ _ _ (elem_assign_same _ _ _ _ _ helem)

theorem jacSparsity_keeps_entry
    (getJS : FXInternal R → Int → Int → Except Exception CRSSparsity)
    (self : FXInternal R) (i2 o2 : Int) (o i : Nat) (node : CRSSparsityNode)
    (h : self.jac_sparsity_.lookup o i = some node) :
    (jacSparsity getJS self i2 o2).self.jac_sparsity_.lookup o i = some node := by
  cases hinit : isInit self with
  | false =>
    rw [jacSparsity_uninit getJS self i2 o2 hinit]
    exact h
  | true =>
    unfold jacSparsity
    simp only [hinit, Bool.not_true, Bool.false_eq_true, if_false]
    cases helem : self.jac_sparsity_.elem o2 i2 with
    | error e => exact h
    | ok jsp =>
      cases jsp with
      | some node2 =>
        simp only [CRSSparsity.isNull, Option.isNone_some, Bool.false_eq_true, if_false]
        exact h
      | none =>
        have hnone := elem_ok _ _ _ _ helem
        have hne : (o, i) ≠ (o2.toNat, i2.toNat) := by
          intro heq
          cases heq
          rw [h] at hnone
          cases hnone
        simp only [CRSSparsity.isNull, Option.isNone_none, if_true]
        cases hg : getJS self i2 o2 with
        | error e => exact h
        | ok jsp1 =>
          have h1 : (self.jac_sparsity_.assign o2 i2 jsp1).lookup o i = some node := by
            rw [lookup_assign_ne _ _ _ _ _ _ hne]
            exact h
          cases jsp1 with
          | some node1 =>
            simp only [Option.isNone_some, Bool.false_eq_true, if_false]
            exact h1
          | none =>
            simp only [Option.isNone_none, if_true]
            cases ho : output { self with
                jac_sparsity_ := self.jac_sparsity_.assign o2 i2 none } o2 with
            | error e => exact h1
            | ok om =>
              simp only []
              cases hi : input { self with
                  jac_sparsity_ := self.jac_sparsity_.assign o2 i2 none } i2 with
              | error e => exact h1
              | ok im =>
                simp only []
                rw [lookup_assign_ne _ _ _ _ _ _ hne]
                exact h1

theorem getJacSparsity_in_range (self : FXInternal R) (iind oind : Int)
    (hi : 0 ≤ iind ∧ iind < getNumInputs self) (ho : 0 ≤ oind ∧ oind < getNumOutputs self) :
    ∃ io ii, self.output_.get? oind.toNat = some io ∧ self.input_.get? iind.toNat = some ii ∧
      output self oind = .ok io.data ∧ input self iind = .ok ii.data ∧
      getJacSparsity self iind oind =
        .ok (CRSSparsity.create io.data.numel ii.data.numel true) := by
  obtain ⟨io, hio, hout⟩ := output_ok_of_lt self oind ho.1 ho.2
  obtain ⟨ii, hii, hin⟩ := input_ok_of_lt self iind hi.1 hi.2
  refine ⟨io, ii, hio, hii, hout, hin, ?_⟩
  unfold getJacSparsity
  simp only [hout, hin]

theorem jacSparsity_base_returns (self : FXInternal R) (hinit : Initialized self)
    (iind oind : Int) (hi : 0 ≤ iind ∧ iind < getNumInputs self)
    (ho : 0 ≤ oind ∧ oind < getNumOutputs self) :
    ∃ sp, (jacSparsity getJacSparsity self iind oind).ret = .ok sp := by
  have helem := elem_in_range self.jac_sparsity_ oind iind ho.1
    (by rw [hinit.shape.1]; exact ho.2) hi.1 (by rw [hinit.shape.2]; exact hi.2)
  cases hl : self.jac_sparsity_.lookup oind.toNat iind.toNat with
  | some node =>
    rw [hl] at helem
    exact ⟨_, (jacSparsity_cached getJacSparsity self iind oind node hinit.is_init helem).1⟩
  | none =>
    rw [hl] at helem
    obtain ⟨io, ii, _, _, _, _, hg⟩ := getJacSparsity_in_range self iind oind hi ho
    obtain ⟨node, hnode⟩ := create_not_null io.data.numel ii.data.numel true
    refine ⟨some node, ?_⟩
    unfold jacSparsity
    have hinit1 : isInit self = true := hinit.is_init
    simp [hinit1, helem, hg, hnode, CRSSparsity.isNull]

/-- C5: on an initialized function object and an in-range pair `(iind, oind)`,
`jacSparsity` with the base `getJacSparsity` returns a pattern; and whenever a
call of `jacSparsity(iind, oind)` returns a pattern `sp` (whatever the virtual
`getJacSparsity` is), a second call returns the same `sp`, makes no call of
`getJacSparsity`, and leaves the object (hence the whole sparsity table)
unchanged; moreover the entry at `(oind, iind)` still is `sp` after any further
call of `jacSparsity`, for any indices. -/
theorem jacSparsity_memoized
    (getJS getJS2 : FXInternal R → Int → Int → Except Exception CRSSparsity)
    (self : FXInternal R) (hinit : Initialized self) (iind oind : Int)
    (hi : 0 ≤ iind ∧ iind < getNumInputs self) (ho : 0 ≤ oind ∧ oind < getNumOutputs self) :
    (∃ sp, (jacSparsity getJacSparsity self iind oind).ret = .ok sp) ∧
    (∀ sp, (jacSparsity getJS self iind oind).ret = .ok sp →
      (jacSparsity getJS2 (jacSparsity getJS self iind oind).self iind oind).ret = .ok sp ∧
      (jacSparsity getJS2 (jacSparsity getJS self iind oind).self iind oind).getJacSparsityCalls
        = [] ∧
      (jacSparsity getJS2 (jacSparsity getJS self iind oind).self iind oind).self =
        (jacSparsity getJS self iind oind).self ∧
      ∀ i2 o2 : Int,
        (jacSparsity getJS2 (jacSparsity getJS self iind oind).self i2 o2).self.jac_sparsity_.lookup
          oind.toNat iind.toNat = sp) := by
  refine ⟨jacSparsity_base_returns self hinit iind oind hi ho, ?_⟩
  intro sp hret
  obtain ⟨node, hsp, hinit1, helem1⟩ := jacSparsity_ret_ok getJS self iind oind sp hret
  obtain ⟨h1, h2, h3⟩ :=
    jacSparsity_cached getJS2 (jacSparsity getJS self iind oind).self iind oind node hinit1 helem1
  refine ⟨by rw [h1, hsp], h3, h2, ?_⟩
  intro i2 o2
  rw [hsp]
  exact jacSparsity_keeps_entry getJS2 _ i2 o2 _ _ node (elem_ok _ _ _ _ helem1).symm

theorem jacSparsity_memoized_witness :
    Initialized exampleInitFX ∧
    (∃ sp, (jacSparsity getJacSparsity exampleInitFX 1 0).ret = .ok sp) ∧
    (jacSparsity getJacSparsity (jacSparsity getJacSparsity exampleInitFX 1 0).self 1 0).ret =
      .ok (CRSSparsity.create 2 3 true) :=
  ⟨init_Initialized exampleFX exampleInitFX rfl,
    (jacSparsity_memoized getJacSparsity getJacSparsity exampleInitFX
      (init_Initialized exampleFX exampleInitFX rfl) 1 0 (by decide) (by decide)).1,
    ((jacSparsity_memoized getJacSparsity getJacSparsity exampleInitFX
      (init_Initialized exampleFX exampleInitFX rfl) 1 0 (by decide) (by decide)).2
        (CRSSparsity.create 2 3 true) rfl).1⟩

theorem dense_col_length (nrow ncol : Nat) :
    ((List.range nrow).flatMap (fun _ => List.range ncol)).length = nrow * ncol := by
  induction nrow with
  | zero => simp
  | succ n ih =>
    rw [List.range_succ, List.flatMap_append, List.length_append, ih]
    simp [Nat.succ_mul]

theorem create_dense_size (nrow ncol : Nat) :
    (CRSSparsity.create nrow ncol true).size = nrow * ncol ∧
    ∃ node, CRSSparsity.create nrow ncol true = some node ∧ node.nrow = nrow ∧
      node.ncol = ncol := by
  unfold CRSSparsity.create CRSSparsity.size
  simp only [if_true]
  exact ⟨dense_col_length nrow ncol, _, rfl, rfl, rfl⟩

theorem create_empty_size (nrow ncol : Nat) :
    (CRSSparsity.create nrow ncol false).size = 0 ∧
    ∃ node, CRSSparsity.create nrow ncol false = some node ∧ node.nrow = nrow ∧
      node.ncol = ncol := by
  unfold CRSSparsity.create CRSSparsity.size
  simp only [Bool.false_eq_true, if_false]
  exact ⟨rfl, _, rfl, rfl, rfl⟩

/-- C6: on an initialized function object, for an in-range pair
`(iind, oind)` whose table entry is null, `jacSparsity(iind, oind)` calls the
virtual `getJacSparsity` once; when that returns a non-null pattern, this
pattern is stored at `(oind, iind)` and returned; when it returns the null
handle, the pattern with `output(oind).numel()` rows, `input(iind).numel()`
columns and no structural nonzero is stored and returned; the base
`getJacSparsity` returns the dense pattern of that shape (all
`numel * numel` positions structurally nonzero); every returned pattern is
non-null. -/
theorem jacSparsity_generates
    (getJS : FXInternal R → Int → Int → Except Exception CRSSparsity)
    (self : FXInternal R) (hinit : Initialized self) (iind oind : Int)
    (hi : 0 ≤ iind ∧ iind < getNumInputs self) (ho : 0 ≤ oind ∧ oind < getNumOutputs self)
    (hnull : self.jac_sparsity_.lookup oind.toNat iind.toNat = none) :
    ∃ io ii, self.output_.get? oind.toNat = some io ∧ self.input_.get? iind.toNat = some ii ∧
      (∀ node, getJS self iind oind = .ok (some node) →
        (jacSparsity getJS self iind oind).ret = .ok (some node) ∧
        (jacSparsity getJS self iind oind).self.jac_sparsity_.lookup oind.toNat iind.toNat =
          some node ∧
        (jacSparsity getJS self iind oind).getJacSparsityCalls = [(iind, oind)]) ∧
      (getJS self iind oind = .ok none →
        (jacSparsity getJS self iind oind).ret =
          .ok (CRSSparsity.create io.data.numel ii.data.numel false) ∧
        (jacSparsity getJS self iind oind).self.jac_sparsity_.lookup oind.toNat iind.toNat =
          CRSSparsity.create io.data.numel ii.data.numel false ∧
        (jacSparsity getJS self iind oind).getJacSparsityCalls = [(iind, oind)] ∧
        (CRSSparsity.create io.data.numel ii.data.numel false).size = 0) ∧
      (getJacSparsity self iind oind =
          .ok (CRSSparsity.create io.data.numel ii.data.numel true) ∧
        (CRSSparsity.create io.data.numel ii.data.numel true).size =
          io.data.numel * ii.data.numel) ∧
      (∀ sp, (jacSparsity getJS self iind oind).ret = .ok sp → sp.isNull = false) := by
  obtain ⟨io, ii, hio, hii, hout, hin, hbase⟩ := getJacSparsity_in_range self iind oind hi ho
  have helem : self.jac_sparsity_.elem oind iind = .ok none := by
    rw [← hnull]
    exact elem_in_range self.jac_sparsity_ oind iind ho.1
      (by rw [hinit.shape.1]; exact ho.2) hi.1 (by rw [hinit.shape.2]; exact hi.2)
  have hinit1 : isInit self = true := hinit.is_init
  have hout1 : ∀ t, output { self with jac_sparsity_ := t } oind = .ok io.data :=
    fun _ => hout
  have hin1 : ∀ t, input { self with jac_sparsity_ := t } iind = .ok ii.data :=
    fun _ => hin
  refine ⟨io, ii, hio, hii, ?_, ?_, ⟨hbase, (create_dense_size _ _).1⟩, ?_⟩
  · intro node hg
    unfold jacSparsity
    simp only [hinit1, helem, hg, CRSSparsity.isNull, Bool.not_true, Bool.false_eq_true,
      if_false, Option.isNone_none, Option.isNone_some, if_true]
    exact ⟨trivial, lookup_assign_same _ _ _ _, trivial⟩
  · intro hg
    unfold jacSparsity
    simp only [hinit1, helem, hg, hout1, hin1, CRSSparsity.isNull, Bool.not_true,
      Bool.false_eq_true, if_false, Option.isNone_none, if_true]
    exact ⟨trivial, lookup_assign_same _ _ _ _, trivial, (create_empty_size _ _).1⟩
  · intro sp hret
    obtain ⟨node, hsp, _, _⟩ := jacSparsity_ret_ok getJS self iind oind sp hret
    exact (isNull_eq_false_iff sp).mpr ⟨node, hsp⟩

theorem jacSparsity_generates_witness :
    Initialized exampleInitFX ∧
    exampleInitFX.jac_sparsity_.lookup (0 : Int).toNat (1 : Int).toNat = none ∧
    ∃ io ii, exampleInitFX.output_.get? (0 : Int).toNat = some io ∧
      exampleInitFX.input_.get? (1 : Int).toNat = some ii ∧
      (jacSparsity (fun _ _ _ => .ok none) exampleInitFX 1 0).ret =
        .ok (CRSSparsity.create io.data.numel ii.data.numel false) := by
  refine ⟨init_Initialized exampleFX exampleInitFX rfl, rfl, ?_⟩
  obtain ⟨io, ii, hio, hii, _, h2, _⟩ :=
    jacSparsity_generates (fun _ _ _ => .ok none) exampleInitFX
      (init_Initialized exampleFX exampleInitFX rfl) 1 0 (by decide) (by decide) rfl
  exact ⟨io, ii, hio, hii, (h2 rfl).1⟩

/-- C7: when `isInit()` is false, `jacSparsity(iind, oind)` throws
("Function not initialized.") for all `iind` and `oind`, makes no call of
`getJacSparsity`, and leaves the object, in particular the sparsity table,
unchanged. -/
theorem jacSparsity_requires_init
    (getJS : FXInternal R → Int → Int → Except Exception CRSSparsity)
    (self : FXInternal R) (iind oind : Int) (hinit : isInit self = false) :
    (jacSparsity getJS self iind oind).ret =
      .error (.CasadiException "Function not initialized.") ∧
    (jacSparsity getJS self iind oind).getJacSparsityCalls = [] ∧
    (jacSparsity getJS self iind oind).self = self ∧
    (jacSparsity getJS self iind oind).self.jac_sparsity_ = self.jac_sparsity_ := by
  rw [jacSparsity_uninit getJS self iind oind hinit]
  exact ⟨rfl, rfl, rfl, rfl⟩

theorem jacSparsity_requires_init_witness :
    isInit exampleFX = false ∧
    (jacSparsity getJacSparsity exampleFX 1 0).ret =
      .error (.CasadiException "Function not initialized.") :=
  ⟨rfl, (jacSparsity_requires_init getJacSparsity exampleFX 1 0 rfl).1⟩

/-- C8: `hessian(iind, oind)` of the base class throws for every object state
and every pair of indices, never returning a function; the message is
"FXInternal::hessian: hessian not defined for class " followed by the name of
the dynamic class of the object. -/
theorem hessian_unsupported (self : FXInternal R) (iind oind : Int) :
    hessian self iind oind =
      .error (.CasadiException
        ("FXInternal::hessian: hessian not defined for class " ++ self.typeid_name)) ∧
    (∀ fx, hessian self iind oind ≠ .ok fx) := by
  refine ⟨rfl, ?_⟩
  intro fx h
  cases h

/-! ## Symbolic Jacobian construction -/

theorem symbolicInputLoop_ok (self : FXInternal R) (idxs : List Nat)
    (h : ∀ i ∈ idxs, i < getNumInputs self) :
    symbolicInputLoop self idxs = .ok (idxs.map (symbolicInputAt self)) := by
  induction idxs with
  | nil => rfl
  | cons i rest ih =>
    have hi : i < getNumInputs self := h i (List.mem_cons_self i rest)
    obtain ⟨io, hget, hin⟩ := input_ok_of_lt self (i : Int) (by omega) (by omega)
    rw [Int.toNat_ofNat] at hget
    have hrest := ih (fun j hj => h j (List.mem_cons_of_mem i hj))
    simp only [symbolicInputLoop, hin, hrest, List.map_cons, symbolicInputAt, hget,
      Option.map_some']

theorem symbolicInput_ok (self : FXInternal R) (hinit : isInit self = true) :
    symbolicInput self = .ok ((List.range (getNumInputs self)).map (symbolicInputAt self)) := by
  unfold symbolicInput
  simp only [hinit, Bool.not_true, Bool.false_eq_true, if_false]
  exact symbolicInputLoop_ok self _ (fun i hi => List.mem_range.mp hi)

theorem call_index (fcn : FX) (nout : Nat) (arg : List MX) (o : Int) (h0 : 0 ≤ o)
    (hlt : o < nout) :
    vectorIndex (fcn.call nout arg) o = .ok (MX.evaluation fcn arg o.toNat) := by
  unfold vectorIndex FX.call
  have hlt2 : o.toNat < nout := by omega
  rw [if_neg (not_lt.mpr h0)]
  simp [List.getElem?_range hlt2, hlt2]

/-- C9: on an initialized function object and for a valid output index `o`,
`jacobian({(o,-1)})` returns `MXFunction(j_in, j_out)` where `j_in` are the
symbolic inputs `x_0 .. x_{n-1}` (each with the sparsity of the primal value of
its input slot) and `j_out` is the single expression "output `o` of the
evaluation of this function on `j_in`"; no `Jacobian` object is constructed. -/
theorem jacobian_passthrough (Jacobian : FX → Int → Int → FX) (self : FXInternal R)
    (hinit : isInit self = true) (o : Int) (ho : 0 ≤ o ∧ o < getNumOutputs self) :
    symbolicInput self = .ok ((List.range (getNumInputs self)).map (symbolicInputAt self)) ∧
    (jacobian Jacobian self [(o, -1)]).ret =
      .ok (FX.MXFunction ((List.range (getNumInputs self)).map (symbolicInputAt self))
        [MX.evaluation FX.node ((List.range (getNumInputs self)).map (symbolicInputAt self))
          o.toNat]) ∧
    (jacobian Jacobian self [(o, -1)]).constructed = [] := by
  have hsym := symbolicInput_ok self hinit
  have hidx := call_index FX.node (getNumOutputs self)
    ((List.range (getNumInputs self)).map (symbolicInputAt self)) o ho.1 ho.2
  refine ⟨hsym, ?_, ?_⟩
  · unfold jacobian
    simp only [hsym]
    rw [if_neg (by decide)]
    unfold jacobianGeneral
    simp only [jacobianLoop, if_true, hidx, List.nil_append]
  · unfold jacobian
    simp only [hsym]
    rw [if_neg (by decide)]
    unfold jacobianGeneral
    simp only [jacobianLoop, if_true, hidx, List.nil_append]

theorem jacobian_passthrough_witness :
    isInit exampleInitFX = true ∧
    (jacobian exampleJacobian exampleInitFX [(0, -1)]).ret =
      .ok (FX.MXFunction
        ((List.range (getNumInputs exampleInitFX)).map (symbolicInputAt exampleInitFX))
        [MX.evaluation FX.node
          ((List.range (getNumInputs exampleInitFX)).map (symbolicInputAt exampleInitFX))
          (0 : Int).toNat]) :=
  ⟨rfl, (jacobian_passthrough exampleJacobian exampleInitFX rfl 0 (by decide)).2.1⟩

/-- C10: the single-block shortcut of `jacobian` returns the constructed
`Jacobian` handle without testing `isNull()`: for the structurally null block
(output 0, input 1) of the example function, `jacobian({(0,1)})` returns the
null handle, while the general path, taken for the request list
`{(0,1),(0,-1)}`, yields for the same block the 2-by-3 zero matrix. -/
theorem jacobian_single_block_null :
    (jacobian exampleNullJacobian exampleInitFX [(0, 1)]).ret = .ok FX.null ∧
    (jacobian exampleNullJacobian exampleInitFX [(0, 1), (0, -1)]).ret =
      .ok (FX.MXFunction
        ((List.range (getNumInputs exampleInitFX)).map (symbolicInputAt exampleInitFX))
        [MX.zeros 2 3,
          MX.evaluation FX.node
            ((List.range (getNumInputs exampleInitFX)).map (symbolicInputAt exampleInitFX))
            0]) := by
  have hsym := symbolicInput_ok exampleInitFX rfl
  constructor
  · unfold jacobian
    simp only [hsym]
    rfl
  · unfold jacobian
    simp only [hsym]
    rfl

theorem jacobianLoop_general (Jacobian : FX → Int → Int → FX) (self : FXInternal R)
    (j_in : List MX) (jblocks : List (Int × Int))
    (hvalid : ∀ b ∈ jblocks, (0 ≤ b.1 ∧ b.1 < getNumOutputs self) ∧
      (b.2 ≠ -1 → (Jacobian FX.node b.2 b.1).isNull = true →
        0 ≤ b.2 ∧ b.2 < getNumInputs self))
    (j_out : List MX) (log : List (Int × Int)) :
    jacobianLoop Jacobian self FX.node j_in (FX.node.call (getNumOutputs self) j_in)
        jblocks j_out log =
      (.ok (j_out ++ jblocks.map (fun b =>
          if b.2 = -1 then MX.evaluation FX.node j_in b.1.toNat
          else if (Jacobian FX.node b.2 b.1).isNull then
            MX.zeros (((self.output_.get? b.1.toNat).map (fun io => io.data.numel)).getD 0)
              (((self.input_.get? b.2.toNat).map (fun io => io.data.numel)).getD 0)
          else MX.evaluation (Jacobian FX.node b.2 b.1) j_in 0)),
        log ++ (jblocks.filter (fun b => decide (b.2 ≠ -1))).map (fun b => (b.2, b.1))) := by
  induction jblocks generalizing j_out log with
  | nil => simp [jacobianLoop]
  | cons b rest ih =>
    have hb := hvalid b (List.mem_cons_self b rest)
    have hrest : ∀ c ∈ rest, (0 ≤ c.1 ∧ c.1 < getNumOutputs self) ∧
        (c.2 ≠ -1 → (Jacobian FX.node c.2 c.1).isNull = true →
          0 ≤ c.2 ∧ c.2 < getNumInputs self) :=
      fun c hc => hvalid c (List.mem_cons_of_mem b hc)
    by_cases h1 : b.2 = -1
    · have hidx := call_index FX.node (getNumOutputs self) j_in b.1 hb.1.1 hb.1.2
      simp only [jacobianLoop, h1, if_true, hidx]
      rw [ih hrest]
      simp [h1]
    · cases hnull : (Jacobian FX.node b.2 b.1).isNull with
      | false =>
        simp only [jacobianLoop, h1, if_false, hnull, Bool.not_false, if_true]
        rw [ih hrest]
        simp [h1, hnull]
      | true =>
        obtain ⟨hi0, hi1⟩ := hb.2 h1 hnull
        obtain ⟨io, hio, hout⟩ := output_ok_of_lt self b.1 hb.1.1 hb.1.2
        obtain ⟨ii, hii, hin⟩ := input_ok_of_lt self b.2 hi0 hi1
        simp only [jacobianLoop, h1, if_false, hnull, Bool.not_true, Bool.false_eq_true,
          hout, hin]
        rw [ih hrest]
        rw [List.get?_eq_getElem?] at hio hii
        simp [h1, hnull, hio, hii]

/-- C11: on an initialized function object, for a request list
`jblocks = [(o_1,i_1),...,(o_k,i_k)]` that takes the general path of `jacobian`
(not a single block with input index `>= 0`) and whose indices are valid, the
call returns `MXFunction(j_in, j_out)` where `j_out` has exactly `k` entries,
the `j`-th one built from the `j`-th request: output `o_j` of the evaluation
of this function on the symbolic inputs when `i_j = -1`; otherwise the first
output of the `Jacobian` object constructed with the arguments
`(fcn, i_j, o_j)`, evaluated on the symbolic inputs (and the zero matrix of
shape `output(o_j).numel()` by `input(i_j).numel()` when that object is
null).  The constructed `Jacobian` objects are those of the requests with
`i_j != -1`, in request order, with arguments (input index, output index). -/
theorem jacobian_general_outputs (Jacobian : FX → Int → Int → FX) (self : FXInternal R)
    (hinit : isInit self = true) (jblocks : List (Int × Int))
    (hgen : ∀ b, jblocks = [b] → b.2 < 0)
    (hvalid : ∀ b ∈ jblocks, (0 ≤ b.1 ∧ b.1 < getNumOutputs self) ∧
      (b.2 ≠ -1 → (Jacobian FX.node b.2 b.1).isNull = true →
        0 ≤ b.2 ∧ b.2 < getNumInputs self)) :
    (jacobian Jacobian self jblocks).ret =
      .ok (FX.MXFunction ((List.range (getNumInputs self)).map (symbolicInputAt self))
        (jblocks.map (fun b =>
          if b.2 = -1 then
            MX.evaluation FX.node ((List.range (getNumInputs self)).map (symbolicInputAt self))
              b.1.toNat
          else if (Jacobian FX.node b.2 b.1).isNull then
            MX.zeros (((self.output_.get? b.1.toNat).map (fun io => io.data.numel)).getD 0)
              (((self.input_.get? b.2.toNat).map (fun io => io.data.numel)).getD 0)
          else
            MX.evaluation (Jacobian FX.node b.2 b.1)
              ((List.range (getNumInputs self)).map (symbolicInputAt self)) 0))) ∧
    (jblocks.map (fun b =>
          if b.2 = -1 then
            MX.evaluation FX.node ((List.range (getNumInputs self)).map (symbolicInputAt self))
              b.1.toNat
          else if (Jacobian FX.node b.2 b.1).isNull then
            MX.zeros (((self.output_.get? b.1.toNat).map (fun io => io.data.numel)).getD 0)
              (((self.input_.get? b.2.toNat).map (fun io => io.data.numel)).getD 0)
          else
            MX.evaluation (Jacobian FX.node b.2 b.1)
              ((List.range (getNumInputs self)).map (symbolicInputAt self)) 0)).length =
      jblocks.length ∧
    (jacobian Jacobian self jblocks).constructed =
      (jblocks.filter (fun b => decide (b.2 ≠ -1))).map (fun b => (b.2, b.1)) := by
  have hsym := symbolicInput_ok self hinit
  have hloop := jacobianLoop_general Jacobian self
    ((List.range (getNumInputs self)).map (symbolicInputAt self)) jblocks hvalid [] []
  have hgeneral : jacobian Jacobian self jblocks =
      jacobianGeneral Jacobian self FX.node
        ((List.range (getNumInputs self)).map (symbolicInputAt self))
        (FX.node.call (getNumOutputs self)
          ((List.range (getNumInputs self)).map (symbolicInputAt self))) jblocks := by
    unfold jacobian
    simp only [hsym]
    match jblocks, hgen with
    | [], _ => rfl
    | [b], hg =>
      have hb : ¬ b.2 ≥ 0 := not_le.mpr (hg b rfl)
      simp only [hb, if_false]
    | _ :: _ :: _, _ => rfl
  rw [hgeneral]
  unfold jacobianGeneral
  rw [hloop]
  simp

theorem jacobian_general_outputs_witness :
    isInit exampleInitFX = true ∧
    (jacobian exampleJacobian exampleInitFX [(0, 1), (0, -1)]).constructed =
      ([((0 : Int), (1 : Int)), (0, -1)].filter (fun b => decide (b.2 ≠ -1))).map
        (fun b => (b.2, b.1)) :=
  ⟨rfl, (jacobian_general_outputs exampleJacobian exampleInitFX rfl [(0, 1), (0, -1)]
    (by intro b h; cases h) (by decide)).2.2⟩

/-! ## Statistics and the Jacobian-function cache -/

/-- C12: `getStat(name)` throws exactly when no entry of the statistics
dictionary has the key `name`; otherwise it returns the value of the entry
found under `name`; in both cases the object, hence the dictionary, is
unchanged; on a freshly constructed object, whose dictionary is empty, it
throws for every name. -/
theorem getStat_contract (self : FXInternal R) (name : String) :
    ((∃ e, (getStat self name).ret = .error e) ↔ ∀ entry ∈ self.stats_, entry.1 ≠ name) ∧
    (∀ entry, self.stats_.find? (fun e => e.1 == name) = some entry →
      entry.1 = name ∧ entry ∈ self.stats_ ∧ (getStat self name).ret = .ok entry.2) ∧
    (getStat self name).self = self ∧
    (getStat self name).self.stats_ = self.stats_ ∧
    (∀ typeid_name, ∃ e, (getStat (FXInternal.create R typeid_name) name).ret = .error e) := by
  refine ⟨?_, ?_, ?_, ?_, ?_⟩
  · unfold getStat
    cases hf : self.stats_.find? (fun e => e.1 == name) with
    | none =>
      simp only [exists_apply_eq_apply', true_iff]
      intro entry hmem heq
      have := List.find?_eq_none.mp hf entry hmem
      simp [heq] at this
    | some it =>
      have hkey := List.find?_some hf
      have hmem := List.mem_of_find?_eq_some hf
      simp only [beq_iff_eq] at hkey
      constructor
      · rintro ⟨e, he⟩
        cases he
      · intro h
        exact absurd hkey (h it hmem)
  · intro entry hf
    have hkey := List.find?_some hf
    simp only [beq_iff_eq] at hkey
    refine ⟨hkey, List.mem_of_find?_eq_some hf, ?_⟩
    unfold getStat
    rw [hf]
  · unfold getStat
    cases self.stats_.find? (fun e => e.1 == name) <;> rfl
  · unfold getStat
    cases self.stats_.find? (fun e => e.1 == name) <;> rfl
  · intro typeid_name
    exact ⟨_, rfl⟩

theorem getStat_contract_witness :
    ({ exampleFX with stats_ := [("nsteps", GenericType.OT_INTEGER 7)] } :
        FXInternal Int).stats_.find? (fun e => e.1 == "nsteps") =
      some ("nsteps", GenericType.OT_INTEGER 7) ∧
    (getStat ({ exampleFX with stats_ := [("nsteps", GenericType.OT_INTEGER 7)] } :
        FXInternal Int) "nsteps").ret = .ok (GenericType.OT_INTEGER 7) :=
  ⟨by decide,
    ((getStat_contract ({ exampleFX with stats_ := [("nsteps", GenericType.OT_INTEGER 7)] } :
      FXInternal Int) "nsteps").2.1 ("nsteps", GenericType.OT_INTEGER 7) (by decide)).2.2⟩

/-- C13: `init()` copies the option `verbose`, not the option
`store_jacobians`, into `store_jacobians_`: with `store_jacobians = true` and
`verbose = false` the cache is off after `init()` and `jacs_` is not
allocated; with `store_jacobians = false` and `verbose = true` the cache is on
and `jacs_` is allocated with one row per input and one entry per output. -/
theorem init_store_jacobians_reads_verbose :
    (exampleStoreFX.options.store_jacobians = true ∧
      exampleStoreFX.options.verbose = false ∧
      ∃ self1, init exampleStoreFX = .ok self1 ∧ self1.store_jacobians_ = false ∧
        self1.jacs_ = []) ∧
    (exampleVerboseFX.options.store_jacobians = false ∧
      exampleVerboseFX.options.verbose = true ∧
      ∃ self1, init exampleVerboseFX = .ok self1 ∧ self1.store_jacobians_ = true ∧
        self1.jacs_ = [[FX.null], [FX.null]]) :=
  ⟨⟨rfl, rfl, _, rfl, rfl, rfl⟩, ⟨rfl, rfl, _, rfl, rfl, rfl⟩⟩

/-! ## The integrator memory state machine -/

theorem extends_refl {D S : Type} (Q : IdaFn D → Bool) (m : IdasMemory D S) : Extends Q m m :=
  ⟨rfl, rfl, [], by simp, by simp⟩

theorem extends_trans {D S : Type} {Q : IdaFn D → Bool} {m m1 m2 : IdasMemory D S}
    (h1 : Extends Q m m1) (h2 : Extends Q m1 m2) : Extends Q m m2 := by
  obtain ⟨a1, b1, n1, c1, d1⟩ := h1
  obtain ⟨a2, b2, n2, c2, d2⟩ := h2
  refine ⟨a2.trans a1, b2.trans b1, n1 ++ n2, ?_, ?_⟩
  · rw [c2, c1, List.append_assoc]
  · intro fn hfn
    rcases List.mem_append.mp hfn with h | h
    · exact d1 fn h
    · exact d2 fn h

theorem extends_count {D S : Type} {Q : IdaFn D → Bool} {m m1 : IdasMemory D S}
    (P : IdaFn D → Bool) (h : Extends Q m m1) (hPQ : ∀ fn, Q fn = true → P fn = false) :
    m1.calls.countP P = m.calls.countP P := by
  obtain ⟨_, _, new, hc, hall⟩ := h
  rw [hc, List.countP_append]
  have : new.countP P = 0 := by
    rw [List.countP_eq_zero]
    intro fn hfn
    simp [hPQ fn (hall fn hfn)]
  omega

theorem startsWith_append (a b : String) (c : Char) (h : a.data.head? = some c) :
    (a ++ b).data.head? = some c := by
  rw [String.data_append]
  cases hd : a.data with
  | nil => rw [hd] at h; cases h
  | cons x xs => rw [hd] at h; simpa using h

theorem idas_error_ne_assertion {D S : Type} (lib : IdasLibrary D S) (module : String)
    (flag : Int) : idas_error lib module flag ≠ initTapingAssertion := by
  have hM : ∀ s : String, s.data.head? = some 'M' →
      Exception.CasadiException s ≠ initTapingAssertion := by
    intro s hs heq
    unfold initTapingAssertion at heq
    injection heq with heq
    rw [heq] at hs
    exact absurd hs (by decide)
  unfold idas_error
  simp only []
  split
  · apply hM
    repeat apply startsWith_append
    rfl
  · apply hM
    repeat apply startsWith_append
    rfl

theorem within_pure {D S : Type} (Q : IdaFn D → Bool) (m : IdasMemory D S) :
    Run.Within Q m { ret := .ok (), m := m } :=
  ⟨extends_refl Q m, by intro h; cases h⟩

theorem within_andThen {D S : Type} {Q : IdaFn D → Bool} {m : IdasMemory D S}
    {r : Run D S} {k : IdasMemory D S → Run D S} (h1 : Run.Within Q m r)
    (h2 : ∀ m1, Run.Within Q m1 (k m1)) : Run.Within Q m (r.andThen k) := by
  unfold Run.andThen
  cases hr : r.ret with
  | error e =>
    simp only []
    exact h1
  | ok u =>
    simp only []
    exact ⟨extends_trans h1.1 (h2 r.m).1, (h2 r.m).2⟩

theorem nativeCall_extends {D S : Type} (lib : IdasLibrary D S) (Q : IdaFn D → Bool)
    (fn : IdaFn D) (w : Writes) (m : IdasMemory D S) (hQ : Q fn = true) :
    Extends Q m (nativeCall lib fn w m).2 :=
  ⟨rfl, rfl, [fn], rfl, by simpa using hQ⟩

theorem within_check {D S : Type} (lib : IdasLibrary D S) (Q : IdaFn D → Bool)
    (fn : IdaFn D) (w : Writes) (module : String) (m : IdasMemory D S) (hQ : Q fn = true) :
    Run.Within Q m (check lib fn w module m) := by
  unfold CasADi.check
  split
  · exact ⟨nativeCall_extends lib Q fn w m hQ, by
      intro h
      injection h with h
      exact idas_error_ne_assertion lib module _ h⟩
  · exact ⟨nativeCall_extends lib Q fn w m hQ, by intro h; cases h⟩

theorem within_unchecked {D S : Type} (lib : IdasLibrary D S) (Q : IdaFn D → Bool)
    (fn : IdaFn D) (w : Writes) (m : IdasMemory D S) (hQ : Q fn = true) :
    Run.Within Q m (unchecked lib fn w m) :=
  ⟨nativeCall_extends lib Q fn w m hQ, by intro h; cases h⟩

theorem within_assertFunction {D S : Type} (Q : IdaFn D → Bool) (self : IdasInterface D)
    (name msg : String) (m : IdasMemory D S)
    (hmsg : Exception.CasadiException msg ≠ initTapingAssertion) :
    Run.Within Q m (assertFunction self name msg m) := by
  unfold CasADi.assertFunction
  split
  · exact within_pure Q m
  · exact ⟨extends_refl Q m, by
      intro h
      injection h with h
      exact hmsg h⟩

theorem Run.andThen_ok {D S : Type} (r : Run D S) (k : IdasMemory D S → Run D S)
    (h : r.ret = .ok ()) : r.andThen k = k r.m := by
  unfold Run.andThen
  rw [h]

theorem Run.andThen_error {D S : Type} (r : Run D S) (k : IdasMemory D S → Run D S)
    (e : Exception) (h : r.ret = .error e) : r.andThen k = r := by
  unfold Run.andThen
  rw [h]

theorem Run.andThen_ret_ok {D S : Type} (r : Run D S) (k : IdasMemory D S → Run D S)
    (h : (r.andThen k).ret = .ok ()) : r.ret = .ok () ∧ (k r.m).ret = .ok () := by
  cases hr : r.ret with
  | error e =>
    rw [Run.andThen_error r k e hr, hr] at h
    cases h
  | ok u =>
    rw [Run.andThen_ok r k hr] at h
    exact ⟨rfl, h⟩

theorem reset_decompose {D S : Type} [LinearOrderedField D] (lib : IdasLibrary D S)
    (self : IdasInterface D) (Q : IdaFn D → Bool)
    (hQ : ∀ fn, isAdjInit fn = false → Q fn = true)
    (m : IdasMemory D S) (t : D) (x z p : List D) :
    ∃ k : IdasMemory D S → Run D S,
      self.reset lib m t x z p =
        (if 0 < self.nrx_ ∧ (SundialsInterface.reset self m t x z p).isInitTaping = false then
          self.initTaping lib (SundialsInterface.reset self m t x z p)
        else { ret := .ok (), m := SundialsInterface.reset self m t x z p }).andThen k ∧
      ∀ m1, Run.Within Q m1 (k m1) := by
  refine ⟨_, rfl, ?_⟩
  intro m1
  unfold IdasInterface.correctInitialConditions IdasInterface.setStopTime
  repeat' first
    | exact within_pure _ _
    | exact within_check _ _ _ _ _ _ (hQ _ rfl)
    | exact within_unchecked _ _ _ _ _ (hQ _ rfl)
    | apply within_andThen
    | intro _
    | split

theorem check_ret_ok {D S : Type} (lib : IdasLibrary D S) (fn : IdaFn D) (w : Writes)
    (module : String) (m : IdasMemory D S) :
    (check lib fn w module m).m = (nativeCall lib fn w m).2 := by
  unfold CasADi.check
  split <;> rfl

theorem initTaping_spec {D S : Type} (lib : IdasLibrary D S) (self : IdasInterface D)
    (m : IdasMemory D S) (hm : m.isInitTaping = false) :
    (self.initTaping lib m).ret ≠ .error initTapingAssertion ∧
    (self.initTaping lib m).m.isInitAdj = m.isInitAdj ∧
    ((self.initTaping lib m).ret = .ok () →
      (self.initTaping lib m).m.isInitTaping = true ∧
      (self.initTaping lib m).m.calls.countP isAdjInit = m.calls.countP isAdjInit + 1) := by
  have hstep : ∀ interp : Int,
      let r := (check lib (.IDAAdjInit self.steps_per_checkpoint_ interp) {} "IDAAdjInit"
        m).andThen fun m1 => { ret := .ok (), m := { m1 with isInitTaping := true } }
      r.ret ≠ .error initTapingAssertion ∧ r.m.isInitAdj = m.isInitAdj ∧
      (r.ret = .ok () → r.m.isInitTaping = true ∧
        r.m.calls.countP isAdjInit = m.calls.countP isAdjInit + 1) := by
    intro interp
    simp only []
    cases hc : (check lib (.IDAAdjInit self.steps_per_checkpoint_ interp) {} "IDAAdjInit"
        m).ret with
    | error e =>
      rw [Run.andThen_error _ _ e hc]
      have hw := within_check lib (fun _ => true)
        (.IDAAdjInit self.steps_per_checkpoint_ interp) {} "IDAAdjInit" m rfl
      refine ⟨hw.2, hw.1.2.1, ?_⟩
      intro h
      rw [hc] at h
      cases h
    | ok u =>
      rw [Run.andThen_ok _ _ hc]
      refine ⟨(by intro h; cases h), ?_, ?_⟩
      · simp only [check_ret_ok]
        rfl
      · intro _
        refine ⟨rfl, ?_⟩
        simp only [check_ret_ok]
        show (m.calls ++ [IdaFn.IDAAdjInit self.steps_per_checkpoint_ interp]).countP isAdjInit =
          m.calls.countP isAdjInit + 1
        rw [List.countP_append]
        rfl
  unfold IdasInterface.initTaping
  rw [hm]
  simp only [Bool.false_eq_true, if_false]
  split
  · exact hstep lib.IDA_HERMITE
  · split
    · exact hstep lib.IDA_POLYNOMIAL
    · refine ⟨?_, rfl, ?_⟩
      · intro h
        unfold initTapingAssertion at h
        injection h with h
        injection h with h
        exact absurd h (by decide)
      · intro h
        cases h

theorem reset_spec {D S : Type} [LinearOrderedField D] (lib : IdasLibrary D S)
    (self : IdasInterface D) (m : IdasMemory D S) (t : D) (x z p : List D) :
    (self.reset lib m t x z p).ret ≠ .error initTapingAssertion ∧
    (self.reset lib m t x z p).m.isInitAdj = m.isInitAdj ∧
    (self.nrx_ = 0 →
      (self.reset lib m t x z p).m.isInitTaping = m.isInitTaping ∧
      (self.reset lib m t x z p).m.calls.countP isAdjInit = m.calls.countP isAdjInit) ∧
    (m.isInitTaping = true →
      (self.reset lib m t x z p).m.isInitTaping = true ∧
      (self.reset lib m t x z p).m.calls.countP isAdjInit = m.calls.countP isAdjInit) ∧
    (0 < self.nrx_ → m.isInitTaping = false → (self.reset lib m t x z p).ret = .ok () →
      (self.reset lib m t x z p).m.isInitTaping = true ∧
      (self.reset lib m t x z p).m.calls.countP isAdjInit =
        m.calls.countP isAdjInit + 1) := by
  obtain ⟨k, hk, hwithin⟩ := reset_decompose lib self (fun fn => !isAdjInit fn)
    (fun fn h => by simp [h]) m t x z p
  have hcount : ∀ m1 m2 : IdasMemory D S, Extends (fun fn => !isAdjInit fn) m1 m2 →
      m2.calls.countP isAdjInit = m1.calls.countP isAdjInit :=
    fun m1 m2 h => extends_count isAdjInit h (fun fn hfn => by simpa using hfn)
  rw [hk]
  by_cases hg : 0 < self.nrx_ ∧ (SundialsInterface.reset self m t x z p).isInitTaping = false
  · rw [if_pos hg]
    have hm0 : m.isInitTaping = false := hg.2
    obtain ⟨h1, h2, h3⟩ := initTaping_spec lib self (SundialsInterface.reset self m t x z p) hg.2
    cases hr : (self.initTaping lib (SundialsInterface.reset self m t x z p)).ret with
    | error e =>
      rw [Run.andThen_error _ _ e hr]
      refine ⟨h1, h2, ?_, ?_, ?_⟩
      · intro h0
        omega
      · intro ht
        rw [ht] at hm0
        cases hm0
      · intro _ _ hok
        rw [hr] at hok
        cases hok
    | ok u =>
      rw [Run.andThen_ok _ _ hr]
      obtain ⟨hinit, hcnt⟩ := h3 hr
      have hw := hwithin (self.initTaping lib (SundialsInterface.reset self m t x z p)).m
      refine ⟨hw.2, hw.1.2.1.trans h2, ?_, ?_, ?_⟩
      · intro h0
        omega
      · intro ht
        rw [ht] at hm0
        cases hm0
      · intro _ _ _
        exact ⟨hw.1.1.trans hinit, (hcount _ _ hw.1).trans hcnt⟩
  · rw [if_neg hg, Run.andThen_ok _ _ rfl]
    have hw := hwithin (SundialsInterface.reset self m t x z p)
    have hsame : (k (SundialsInterface.reset self m t x z p)).m.isInitTaping = m.isInitTaping :=
      hw.1.1
    have hc : (k (SundialsInterface.reset self m t x z p)).m.calls.countP isAdjInit =
        m.calls.countP isAdjInit := hcount _ _ hw.1
    refine ⟨hw.2, hw.1.2.1, fun _ => ⟨hsame, hc⟩, fun ht => ⟨hsame.trans ht, hc⟩, ?_⟩
    intro hnrx hf _
    exact absurd ⟨hnrx, hf⟩ hg

theorem resetSequence_spec {D S : Type} [LinearOrderedField D] (lib : IdasLibrary D S)
    (self : IdasInterface D) (args : List (ResetArgs D)) (m : IdasMemory D S) :
    (resetSequence lib self args m).ret ≠ .error initTapingAssertion ∧
    (resetSequence lib self args m).m.isInitAdj = m.isInitAdj ∧
    (self.nrx_ = 0 →
      (resetSequence lib self args m).m.isInitTaping = m.isInitTaping ∧
      (resetSequence lib self args m).m.calls.countP isAdjInit = m.calls.countP isAdjInit) ∧
    (m.isInitTaping = true →
      (resetSequence lib self args m).m.isInitTaping = true ∧
      (resetSequence lib self args m).m.calls.countP isAdjInit = m.calls.countP isAdjInit) ∧
    (0 < self.nrx_ → m.isInitTaping = false → args ≠ [] →
      (resetSequence lib self args m).ret = .ok () →
      (resetSequence lib self args m).m.isInitTaping = true ∧
      (resetSequence lib self args m).m.calls.countP isAdjInit =
        m.calls.countP isAdjInit + 1) := by
  induction args generalizing m with
  | nil =>
    refine ⟨(by intro h; cases h), rfl, fun _ => ⟨rfl, rfl⟩, fun h => ⟨h, rfl⟩, ?_⟩
    intro _ _ h
    exact absurd rfl h
  | cons a rest ih =>
    obtain ⟨r1, r2, r3, r4, r5⟩ := reset_spec lib self m a.t a.x a.z a.p
    simp only [resetSequence]
    cases hr : (self.reset lib m a.t a.x a.z a.p).ret with
    | error e =>
      rw [Run.andThen_error _ _ e hr]
      refine ⟨r1, r2, r3, r4, ?_⟩
      intro _ _ _ hok
      rw [hr] at hok
      cases hok
    | ok u =>
      rw [Run.andThen_ok _ _ hr]
      obtain ⟨i1, i2, i3, i4, _⟩ := ih (self.reset lib m a.t a.x a.z a.p).m
      refine ⟨i1, i2.trans r2, ?_, ?_, ?_⟩
      · intro h0
        exact ⟨(i3 h0).1.trans (r3 h0).1, (i3 h0).2.trans (r3 h0).2⟩
      · intro ht
        exact ⟨(i4 (r4 ht).1).1, (i4 (r4 ht).1).2.trans (r4 ht).2⟩
      · intro hnrx hf _ _
        obtain ⟨ht, hc⟩ := r5 hnrx hf hr
        exact ⟨(i4 ht).1, (i4 ht).2.trans hc⟩

theorem Run.post_andThen {D S : Type} (P : IdasMemory D S → Prop) (r : Run D S)
    (k : IdasMemory D S → Run D S) (h : ∀ m1, (k m1).ret = .ok () → P (k m1).m) :
    (r.andThen k).ret = .ok () → P (r.andThen k).m := by
  intro hok
  obtain ⟨h1, _⟩ := Run.andThen_ret_ok r k hok
  rw [Run.andThen_ok r k h1] at hok ⊢
  exact h r.m hok

theorem init_memory_flags {D S : Type} [LinearOrderedField D] (lib : IdasLibrary D S)
    (self : IdasInterface D) (m : IdasMemory D S)
    (h : (self.init_memory lib m).ret = .ok ()) :
    (self.init_memory lib m).m.isInitTaping = false ∧
    (self.init_memory lib m).m.isInitAdj = false := by
  revert h
  unfold IdasInterface.init_memory
  repeat' first
    | apply Run.post_andThen (fun m1 => m1.isInitTaping = false ∧ m1.isInitAdj = false)
    | intro _
  exact ⟨rfl, rfl⟩

/-- C14: on a memory that `init_memory` has set up, for any sequence of
`reset` calls: `isInitTaping` is false before the first call; the assertion
`!m->isInitTaping` of `initTaping` never fails; when `nrx_ = 0`,
`IDAAdjInit` is never called and `isInitTaping` stays false; when `nrx_ > 0`,
the first `reset` that returns has called `IDAAdjInit` exactly once and set
`isInitTaping`, and after the whole sequence has returned `isInitTaping` is
true and `IDAAdjInit` has still been called exactly once. -/
theorem reset_initializes_taping_once {D S : Type} [LinearOrderedField D]
    (lib : IdasLibrary D S) (self : IdasInterface D) (m0 : IdasMemory D S)
    (hinit : (self.init_memory lib m0).ret = .ok ()) (args : List (ResetArgs D)) :
    (self.init_memory lib m0).m.isInitTaping = false ∧
    (resetSequence lib self args (self.init_memory lib m0).m).ret ≠
      .error initTapingAssertion ∧
    (self.nrx_ = 0 →
      (resetSequence lib self args (self.init_memory lib m0).m).m.isInitTaping = false ∧
      (resetSequence lib self args (self.init_memory lib m0).m).m.calls.countP isAdjInit =
        (self.init_memory lib m0).m.calls.countP isAdjInit) ∧
    (0 < self.nrx_ → ∀ a rest, args = a :: rest →
      ((self.reset lib (self.init_memory lib m0).m a.t a.x a.z a.p).ret = .ok () →
        (self.reset lib (self.init_memory lib m0).m a.t a.x a.z a.p).m.isInitTaping = true ∧
        (self.reset lib (self.init_memory lib m0).m a.t a.x a.z a.p).m.calls.countP isAdjInit =
          (self.init_memory lib m0).m.calls.countP isAdjInit + 1) ∧
      ((resetSequence lib self args (self.init_memory lib m0).m).ret = .ok () →
        (resetSequence lib self args (self.init_memory lib m0).m).m.isInitTaping = true ∧
        (resetSequence lib self args (self.init_memory lib m0).m).m.calls.countP isAdjInit =
          (self.init_memory lib m0).m.calls.countP isAdjInit + 1)) := by
  have hflag := (init_memory_flags lib self m0 hinit).1
  obtain ⟨s1, _, s3, _, s5⟩ := resetSequence_spec lib self args (self.init_memory lib m0).m
  refine ⟨hflag, s1, ?_, ?_⟩
  · intro h0
    exact ⟨(s3 h0).1.trans hflag, (s3 h0).2⟩
  · intro hnrx a rest hargs
    constructor
    · intro hok
      exact (reset_spec lib self (self.init_memory lib m0).m a.t a.x a.z a.p).2.2.2.2
        hnrx hflag hok
    · intro hok
      exact s5 hnrx hflag (by rw [hargs]; exact List.cons_ne_nil a rest) hok

theorem reset_initializes_taping_once_witness :
    (exampleIntegrator.init_memory exampleLibrary exampleMemory).ret = .ok () ∧
    (resetSequence exampleLibrary exampleIntegrator
        [{ t := 0, x := [1], z := [], p := [] }, { t := 0, x := [2], z := [], p := [] }]
        (exampleIntegrator.init_memory exampleLibrary exampleMemory).m).ret ≠
      .error initTapingAssertion :=
  ⟨rfl, (reset_initializes_taping_once exampleLibrary exampleIntegrator exampleMemory rfl
    [{ t := 0, x := [1], z := [], p := [] }, { t := 0, x := [2], z := [], p := [] }]).2.1⟩

theorem counts_pure {D S : Type} (P : IdaFn D → Bool) (m : IdasMemory D S) :
    Run.Counts P 0 m { ret := .ok (), m := m } :=
  fun _ => rfl

theorem counts_throw {D S : Type} (P : IdaFn D → Bool) (n : Nat) (m m1 : IdasMemory D S)
    (e : Exception) : Run.Counts P n m { ret := .error e, m := m1 } := by
  intro h
  cases h

theorem counts_setAdj {D S : Type} (P : IdaFn D → Bool) (m : IdasMemory D S) :
    Run.Counts P 0 m { ret := .ok (), m := { m with isInitAdj := true } } :=
  fun _ => rfl

theorem nativeCall_count {D S : Type} (lib : IdasLibrary D S) (P : IdaFn D → Bool)
    (fn : IdaFn D) (w : Writes) (m : IdasMemory D S) :
    (nativeCall lib fn w m).2.calls.countP P =
      m.calls.countP P + (if P fn = true then 1 else 0) := by
  show (m.calls ++ [fn]).countP P = _
  rw [List.countP_append]
  cases h : P fn <;> simp [List.countP_cons, h]

theorem counts_hit {D S : Type} (lib : IdasLibrary D S) (P : IdaFn D → Bool)
    (fn : IdaFn D) (w : Writes) (module : String) (m : IdasMemory D S) (h : P fn = true) :
    Run.Counts P 1 m (check lib fn w module m) := by
  intro _
  rw [check_ret_ok, nativeCall_count, if_pos h]

theorem counts_miss {D S : Type} (lib : IdasLibrary D S) (P : IdaFn D → Bool)
    (fn : IdaFn D) (w : Writes) (module : String) (m : IdasMemory D S) (h : P fn = false) :
    Run.Counts P 0 m (check lib fn w module m) := by
  intro _
  rw [check_ret_ok, nativeCall_count, h]
  rfl

theorem counts_uncheckedHit {D S : Type} (lib : IdasLibrary D S) (P : IdaFn D → Bool)
    (fn : IdaFn D) (w : Writes) (m : IdasMemory D S) (h : P fn = true) :
    Run.Counts P 1 m (unchecked lib fn w m) := by
  intro _
  show (nativeCall lib fn w m).2.calls.countP P = _
  rw [nativeCall_count, if_pos h]

theorem counts_uncheckedMiss {D S : Type} (lib : IdasLibrary D S) (P : IdaFn D → Bool)
    (fn : IdaFn D) (w : Writes) (m : IdasMemory D S) (h : P fn = false) :
    Run.Counts P 0 m (unchecked lib fn w m) := by
  intro _
  show (nativeCall lib fn w m).2.calls.countP P = _
  rw [nativeCall_count, h]
  rfl

theorem counts_assertFunction {D S : Type} (P : IdaFn D → Bool) (self : IdasInterface D)
    (name msg : String) (m : IdasMemory D S) :
    Run.Counts P 0 m (assertFunction self name msg m) := by
  unfold CasADi.assertFunction
  split
  · exact counts_pure P m
  · exact counts_throw P 0 m m _

theorem counts_andThen {D S : Type} {P : IdaFn D → Bool} {a b n : Nat}
    {m : IdasMemory D S} {r : Run D S} {k : IdasMemory D S → Run D S}
    (h1 : Run.Counts P a m r) (h2 : ∀ m1, Run.Counts P b m1 (k m1)) (hn : n = a + b) :
    Run.Counts P n m (r.andThen k) := by
  intro hok
  obtain ⟨hr, hk⟩ := Run.andThen_ret_ok r k hok
  rw [Run.andThen_ok r k hr]
  rw [h2 r.m hk, h1 hr, hn, Nat.add_assoc]


theorem counts_ite {D S : Type} (P : IdaFn D → Bool) (n : Nat) (m : IdasMemory D S)
    (c : Prop) [Decidable c] (r1 r2 : Run D S)
    (h2 : Run.Counts P n m r2) (h1 : Run.Counts P n m r1) :
    Run.Counts P n m (if c then r1 else r2) := by
  split
  · exact h1
  · exact h2

theorem within_counts {D S : Type} {Q : IdaFn D → Bool} {m : IdasMemory D S}
    {r : Run D S} (P : IdaFn D → Bool) (h : Run.Within Q m r)
    (hPQ : ∀ fn, Q fn = true → P fn = false) : Run.Counts P 0 m r :=
  fun _ => extends_count P h.1 hPQ

theorem not_creation_cases {D : Type} (fn : IdaFn D) (h : (!isCreationB fn) = true) :
    isCreateB fn = false ∧ isInitB fn = false ∧ isLinsolB fn = false ∧
      isQuadInitB fn = false ∧ isCreationB fn = false := by
  cases fn <;> simp_all [isCreationB, isCreateB, isInitB, isLinsolB, isQuadInitB]

theorem createB_create {D S : Type} [LinearOrderedField D] (lib : IdasLibrary D S)
    (self : IdasInterface D) (m : IdasMemory D S) :
    Run.Counts isCreateB 1 m (self.createB lib m) := by
  unfold IdasInterface.createB IdasInterface.initDenseLinsolB
    IdasInterface.initBandedLinsolB IdasInterface.initIterativeLinsolB
    IdasInterface.initUserDefinedLinsolB
  cases self.linsol_g_ <;> cases self.itsol_g_ <;> simp only [] <;>
    repeat' first
      | with_reducible apply counts_andThen
      | with_reducible apply counts_ite
      | intro (_ : IdasMemory D S)
      | (with_reducible apply counts_hit) <;> rfl
      | (with_reducible apply counts_miss) <;> rfl
      | (with_reducible apply counts_uncheckedHit) <;> rfl
      | (with_reducible apply counts_uncheckedMiss) <;> rfl
      | with_reducible exact counts_assertFunction _ _ _ _ _
      | with_reducible exact counts_setAdj _ _
      | with_reducible exact counts_throw _ 0 _ _ _
      | with_reducible exact counts_pure _ _
      | rfl

theorem createB_initB {D S : Type} [LinearOrderedField D] (lib : IdasLibrary D S)
    (self : IdasInterface D) (m : IdasMemory D S) :
    Run.Counts isInitB 1 m (self.createB lib m) := by
  unfold IdasInterface.createB IdasInterface.initDenseLinsolB
    IdasInterface.initBandedLinsolB IdasInterface.initIterativeLinsolB
    IdasInterface.initUserDefinedLinsolB
  cases self.linsol_g_ <;> cases self.itsol_g_ <;> simp only [] <;>
    repeat' first
      | with_reducible apply counts_andThen
      | with_reducible apply counts_ite
      | intro (_ : IdasMemory D S)
      | (with_reducible apply counts_hit) <;> rfl
      | (with_reducible apply counts_miss) <;> rfl
      | (with_reducible apply counts_uncheckedHit) <;> rfl
      | (with_reducible apply counts_uncheckedMiss) <;> rfl
      | with_reducible exact counts_assertFunction _ _ _ _ _
      | with_reducible exact counts_setAdj _ _
      | with_reducible exact counts_throw _ 0 _ _ _
      | with_reducible exact counts_pure _ _
      | rfl

theorem createB_linsol {D S : Type} [LinearOrderedField D] (lib : IdasLibrary D S)
    (self : IdasInterface D) (m : IdasMemory D S) :
    Run.Counts isLinsolB 1 m (self.createB lib m) := by
  unfold IdasInterface.createB IdasInterface.initDenseLinsolB
    IdasInterface.initBandedLinsolB IdasInterface.initIterativeLinsolB
    IdasInterface.initUserDefinedLinsolB
  cases self.linsol_g_ <;> cases self.itsol_g_ <;> simp only [] <;>
    repeat' first
      | with_reducible apply counts_andThen
      | with_reducible apply counts_ite
      | intro (_ : IdasMemory D S)
      | (with_reducible apply counts_hit) <;> rfl
      | (with_reducible apply counts_miss) <;> rfl
      | (with_reducible apply counts_uncheckedHit) <;> rfl
      | (with_reducible apply counts_uncheckedMiss) <;> rfl
      | with_reducible exact counts_assertFunction _ _ _ _ _
      | with_reducible exact counts_setAdj _ _
      | with_reducible exact counts_throw _ 1 _ _ _
      | with_reducible exact counts_pure _ _
      | rfl

theorem createB_quadInit {D S : Type} [LinearOrderedField D] (lib : IdasLibrary D S)
    (self : IdasInterface D) (m : IdasMemory D S) :
    Run.Counts isQuadInitB 1 m (self.createB lib m) := by
  unfold IdasInterface.createB IdasInterface.initDenseLinsolB
    IdasInterface.initBandedLinsolB IdasInterface.initIterativeLinsolB
    IdasInterface.initUserDefinedLinsolB
  cases self.linsol_g_ <;> cases self.itsol_g_ <;> simp only [] <;>
    repeat' first
      | with_reducible apply counts_andThen
      | with_reducible apply counts_ite
      | intro (_ : IdasMemory D S)
      | (with_reducible apply counts_hit) <;> rfl
      | (with_reducible apply counts_miss) <;> rfl
      | (with_reducible apply counts_uncheckedHit) <;> rfl
      | (with_reducible apply counts_uncheckedMiss) <;> rfl
      | with_reducible exact counts_assertFunction _ _ _ _ _
      | with_reducible exact counts_setAdj _ _
      | with_reducible exact counts_throw _ 0 _ _ _
      | with_reducible exact counts_pure _ _
      | rfl

theorem createB_reinit {D S : Type} [LinearOrderedField D] (lib : IdasLibrary D S)
    (self : IdasInterface D) (m : IdasMemory D S) :
    Run.Counts isReInitB 0 m (self.createB lib m) := by
  unfold IdasInterface.createB IdasInterface.initDenseLinsolB
    IdasInterface.initBandedLinsolB IdasInterface.initIterativeLinsolB
    IdasInterface.initUserDefinedLinsolB
  cases self.linsol_g_ <;> cases self.itsol_g_ <;> simp only [] <;>
    repeat' first
      | with_reducible apply counts_andThen
      | with_reducible apply counts_ite
      | intro (_ : IdasMemory D S)
      | (with_reducible apply counts_hit) <;> rfl
      | (with_reducible apply counts_miss) <;> rfl
      | (with_reducible apply counts_uncheckedHit) <;> rfl
      | (with_reducible apply counts_uncheckedMiss) <;> rfl
      | with_reducible exact counts_assertFunction _ _ _ _ _
      | with_reducible exact counts_setAdj _ _
      | with_reducible exact counts_throw _ 0 _ _ _
      | with_reducible exact counts_pure _ _
      | rfl


theorem createB_sets_flag {D S : Type} [LinearOrderedField D] (lib : IdasLibrary D S)
    (self : IdasInterface D) (m : IdasMemory D S)
    (h : (self.createB lib m).ret = .ok ()) : (self.createB lib m).m.isInitAdj = true := by
  revert h
  unfold IdasInterface.createB
  repeat' first
    | apply Run.post_andThen (fun m1 => m1.isInitAdj = true)
    | intro _
  rfl

theorem reInitB_within {D S : Type} [LinearOrderedField D] (lib : IdasLibrary D S)
    (self : IdasInterface D) (m : IdasMemory D S) :
    Run.Within (fun fn => !isCreationB fn) m (self.reInitB lib m) ∧
    Run.Counts isReInitB 1 m (self.reInitB lib m) := by
  constructor
  · unfold IdasInterface.reInitB
    repeat' first
      | exact within_pure _ _
      | exact within_check _ _ _ _ _ _ rfl
      | apply within_andThen
      | intro _
      | split
  · unfold IdasInterface.reInitB
    repeat' first
      | with_reducible apply counts_andThen
      | with_reducible apply counts_ite
      | intro (_ : IdasMemory D S)
      | (with_reducible apply counts_hit) <;> rfl
      | (with_reducible apply counts_miss) <;> rfl
      | (with_reducible apply counts_uncheckedHit) <;> rfl
      | (with_reducible apply counts_uncheckedMiss) <;> rfl
      | with_reducible exact counts_assertFunction _ _ _ _ _
      | with_reducible exact counts_setAdj _ _
      | with_reducible exact counts_throw _ 0 _ _ _
      | with_reducible exact counts_pure _ _
      | rfl

theorem resetB_decompose {D S : Type} [LinearOrderedField D] (lib : IdasLibrary D S)
    (self : IdasInterface D) (m : IdasMemory D S) (t : D) (rx rz rp : List D) :
    ∃ k : IdasMemory D S → Run D S,
      self.resetB lib m t rx rz rp =
        (if (SundialsInterface.resetB self m t rx rz rp).isInitAdj = false then
          self.createB lib (SundialsInterface.resetB self m t rx rz rp)
        else self.reInitB lib (SundialsInterface.resetB self m t rx rz rp)).andThen k ∧
      (∀ m1, Run.Within (fun fn => !isCreationB fn) m1 (k m1)) ∧
      (∀ m1, Run.Counts isReInitB 0 m1 (k m1)) := by
  refine ⟨_, rfl, ?_, ?_⟩
  · intro m1
    repeat' first
      | exact within_pure _ _
      | exact within_check _ _ _ _ _ _ rfl
      | apply within_andThen
      | intro _
      | split
  · intro m1
    repeat' first
      | with_reducible apply counts_andThen
      | with_reducible apply counts_ite
      | intro (_ : IdasMemory D S)
      | (with_reducible apply counts_hit) <;> rfl
      | (with_reducible apply counts_miss) <;> rfl
      | (with_reducible apply counts_uncheckedHit) <;> rfl
      | (with_reducible apply counts_uncheckedMiss) <;> rfl
      | with_reducible exact counts_assertFunction _ _ _ _ _
      | with_reducible exact counts_setAdj _ _
      | with_reducible exact counts_throw _ 0 _ _ _
      | with_reducible exact counts_pure _ _
      | rfl

theorem resetB_spec {D S : Type} [LinearOrderedField D] (lib : IdasLibrary D S)
    (self : IdasInterface D) (m : IdasMemory D S) (t : D) (rx rz rp : List D) :
    (m.isInitAdj = true →
      Extends (fun fn => !isCreationB fn) m (self.resetB lib m t rx rz rp).m ∧
      Run.Counts isReInitB 1 m (self.resetB lib m t rx rz rp)) ∧
    (m.isInitAdj = false → (self.resetB lib m t rx rz rp).ret = .ok () →
      (self.resetB lib m t rx rz rp).m.isInitAdj = true ∧
      (self.resetB lib m t rx rz rp).m.calls.countP isCreateB = m.calls.countP isCreateB + 1 ∧
      (self.resetB lib m t rx rz rp).m.calls.countP isInitB = m.calls.countP isInitB + 1 ∧
      (self.resetB lib m t rx rz rp).m.calls.countP isLinsolB = m.calls.countP isLinsolB + 1 ∧
      (self.resetB lib m t rx rz rp).m.calls.countP isQuadInitB =
        m.calls.countP isQuadInitB + 1 ∧
      (self.resetB lib m t rx rz rp).m.calls.countP isReInitB = m.calls.countP isReInitB) := by
  obtain ⟨k, hk, hw, hc⟩ := resetB_decompose lib self m t rx rz rp
  rw [hk]
  constructor
  · intro hadj
    have hg : ¬ (SundialsInterface.resetB self m t rx rz rp).isInitAdj = false := by
      show ¬ m.isInitAdj = false
      rw [hadj]
      decide
    rw [if_neg hg]
    obtain ⟨h1, h2⟩ := reInitB_within lib self (SundialsInterface.resetB self m t rx rz rp)
    exact ⟨(within_andThen h1 hw).1, counts_andThen h2 hc rfl⟩
  · intro hadj
    have hg : (SundialsInterface.resetB self m t rx rz rp).isInitAdj = false := hadj
    rw [if_pos hg]
    intro hok
    have hcount : ∀ (P : IdaFn D → Bool),
        (∀ fn, (!isCreationB fn) = true → P fn = false) →
        ∀ n, Run.Counts P n (SundialsInterface.resetB self m t rx rz rp)
          (self.createB lib (SundialsInterface.resetB self m t rx rz rp)) →
        ((self.createB lib (SundialsInterface.resetB self m t rx rz rp)).andThen k).m.calls.countP
          P = m.calls.countP P + n := by
      intro P hP n h1
      exact counts_andThen h1 (fun m1 => within_counts P (hw m1) hP) rfl hok
    obtain ⟨hok1, _⟩ := Run.andThen_ret_ok _ _ hok
    refine ⟨?_, ?_, ?_, ?_, ?_, ?_⟩
    · rw [Run.andThen_ok _ _ hok1]
      exact (hw _).1.2.1.trans (createB_sets_flag lib self _ hok1)
    · exact hcount isCreateB (fun fn h => (not_creation_cases fn h).1) 1
        (createB_create lib self _)
    · exact hcount isInitB (fun fn h => (not_creation_cases fn h).2.1) 1
        (createB_initB lib self _)
    · exact hcount isLinsolB (fun fn h => (not_creation_cases fn h).2.2.1) 1
        (createB_linsol lib self _)
    · exact hcount isQuadInitB (fun fn h => (not_creation_cases fn h).2.2.2.1) 1
        (createB_quadInit lib self _)
    · exact counts_andThen (createB_reinit lib self _) hc rfl hok

theorem resetBSequence_spec {D S : Type} [LinearOrderedField D] (lib : IdasLibrary D S)
    (self : IdasInterface D) (args : List (ResetArgs D)) (m : IdasMemory D S) :
    (m.isInitAdj = true →
      (resetBSequence lib self args m).m.isInitAdj = true ∧
      (resetBSequence lib self args m).m.calls.countP isCreateB = m.calls.countP isCreateB) ∧
    (m.isInitAdj = false → args ≠ [] → (resetBSequence lib self args m).ret = .ok () →
      (resetBSequence lib self args m).m.isInitAdj = true ∧
      (resetBSequence lib self args m).m.calls.countP isCreateB =
        m.calls.countP isCreateB + 1) := by
  induction args generalizing m with
  | nil =>
    refine ⟨fun h => ⟨h, rfl⟩, ?_⟩
    intro _ h
    exact absurd rfl h
  | cons a rest ih =>
    obtain ⟨r1, r2⟩ := resetB_spec lib self m a.t a.x a.z a.p
    simp only [resetBSequence]
    have hkeep : m.isInitAdj = true →
        (self.resetB lib m a.t a.x a.z a.p).m.isInitAdj = true ∧
        (self.resetB lib m a.t a.x a.z a.p).m.calls.countP isCreateB =
          m.calls.countP isCreateB := by
      intro hadj
      obtain ⟨hext, _⟩ := r1 hadj
      exact ⟨hext.2.1.trans hadj,
        extends_count isCreateB hext (fun fn h => (not_creation_cases fn h).1)⟩
    cases hr : (self.resetB lib m a.t a.x a.z a.p).ret with
    | error e =>
      rw [Run.andThen_error _ _ e hr]
      refine ⟨hkeep, ?_⟩
      intro _ _ hok
      rw [hr] at hok
      cases hok
    | ok u =>
      rw [Run.andThen_ok _ _ hr]
      obtain ⟨i1, _⟩ := ih (self.resetB lib m a.t a.x a.z a.p).m
      constructor
      · intro hadj
        obtain ⟨k1, k2⟩ := hkeep hadj
        exact ⟨(i1 k1).1, (i1 k1).2.trans k2⟩
      · intro hadj _ _
        obtain ⟨k1, k2, _⟩ := r2 hadj hr
        exact ⟨(i1 k1).1, (i1 k1).2.trans k2⟩

theorem callsOnly_count {D S : Type} {Q : IdaFn D → Bool} {m m1 : IdasMemory D S}
    (P : IdaFn D → Bool) (h : CallsOnly Q m m1) (hPQ : ∀ fn, Q fn = true → P fn = false) :
    m1.calls.countP P = m.calls.countP P := by
  obtain ⟨new, hc, hall⟩ := h
  rw [hc, List.countP_append]
  have : new.countP P = 0 := by
    rw [List.countP_eq_zero]
    intro fn hfn
    simp [hPQ fn (hall fn hfn)]
  omega

theorem callsOnly_andThen {D S : Type} {Q : IdaFn D → Bool} {m : IdasMemory D S}
    {r : Run D S} {k : IdasMemory D S → Run D S} (h1 : CallsOnly Q m r.m)
    (h2 : ∀ m1, CallsOnly Q m m1 → CallsOnly Q m (k m1).m) :
    CallsOnly Q m (r.andThen k).m := by
  cases hr : r.ret with
  | error e =>
    rw [Run.andThen_error r k e hr]
    exact h1
  | ok u =>
    rw [Run.andThen_ok r k hr]
    exact h2 r.m h1

theorem callsOnly_native {D S : Type} (lib : IdasLibrary D S) (Q : IdaFn D → Bool)
    (fn : IdaFn D) (w : Writes) (m0 m : IdasMemory D S) (hQ : Q fn = true)
    (h : CallsOnly Q m0 m) : CallsOnly Q m0 (nativeCall lib fn w m).2 := by
  obtain ⟨new, hc, hall⟩ := h
  refine ⟨new ++ [fn], ?_, ?_⟩
  · show m.calls ++ [fn] = m0.calls ++ (new ++ [fn])
    rw [hc, List.append_assoc]
  · intro f hf
    rcases List.mem_append.mp hf with h1 | h1
    · exact hall f h1
    · rw [List.mem_singleton.mp h1]
      exact hQ

theorem callsOnly_check {D S : Type} (lib : IdasLibrary D S) (Q : IdaFn D → Bool)
    (fn : IdaFn D) (w : Writes) (module : String) (m0 m : IdasMemory D S) (hQ : Q fn = true)
    (h : CallsOnly Q m0 m) : CallsOnly Q m0 (check lib fn w module m).m := by
  unfold CasADi.check
  split <;> exact callsOnly_native lib Q fn w m0 m hQ h

theorem callsOnly_unchecked {D S : Type} (lib : IdasLibrary D S) (Q : IdaFn D → Bool)
    (fn : IdaFn D) (w : Writes) (m0 m : IdasMemory D S) (hQ : Q fn = true)
    (h : CallsOnly Q m0 m) : CallsOnly Q m0 (unchecked lib fn w m).m :=
  callsOnly_native lib Q fn w m0 m hQ h

theorem callsOnly_assertFunction {D S : Type} (Q : IdaFn D → Bool) (self : IdasInterface D)
    (name msg : String) (m0 m : IdasMemory D S) (h : CallsOnly Q m0 m) :
    CallsOnly Q m0 (assertFunction self name msg m).m := by
  unfold assertFunction
  split <;> exact h

theorem check_calls {D S : Type} (lib : IdasLibrary D S) (fn : IdaFn D) (w : Writes)
    (module : String) (m : IdasMemory D S) :
    (check lib fn w module m).m.calls = m.calls ++ [fn] := by
  unfold CasADi.check
  split <;> rfl

theorem count_andThen_same {D S : Type} (P : IdaFn D → Bool) (r : Run D S)
    (k : IdasMemory D S → Run D S)
    (hk : ∀ m0 m1, CallsOnly (fun f => !P f) m0 m1 → CallsOnly (fun f => !P f) m0 (k m1).m) :
    (r.andThen k).m.calls.countP P = r.m.calls.countP P := by
  have h0 : CallsOnly (fun f => !P f) r.m r.m := ⟨[], by simp, by simp⟩
  exact callsOnly_count P (callsOnly_andThen h0 (hk r.m)) (fun f hf => by simpa using hf)

theorem count_after_first {D S : Type} (lib : IdasLibrary D S) (P : IdaFn D → Bool)
    (fn : IdaFn D) (w : Writes) (module : String) (m : IdasMemory D S)
    (k : IdasMemory D S → Run D S) (hP : P fn = true)
    (hk : ∀ m0 m1, CallsOnly (fun f => !P f) m0 m1 → CallsOnly (fun f => !P f) m0 (k m1).m) :
    ((check lib fn w module m).andThen k).m.calls.countP P = m.calls.countP P + 1 := by
  rw [count_andThen_same P _ k hk, check_calls, List.countP_append, List.countP_singleton, hP]
  simp

theorem callsOnly_checked {D S : Type} (lib : IdasLibrary D S) (Q : IdaFn D → Bool)
    (hQ : ∀ fn, isCreateB fn = false → isReInitB fn = false → Q fn = true)
    (m0 : IdasMemory D S) :
    (∀ (fn : IdaFn D) (w : Writes) (module : String) (m : IdasMemory D S),
      isCreateB fn = false → isReInitB fn = false → CallsOnly Q m0 m →
      CallsOnly Q m0 (check lib fn w module m).m) ∧
    (∀ (fn : IdaFn D) (w : Writes) (m : IdasMemory D S),
      isCreateB fn = false → isReInitB fn = false → CallsOnly Q m0 m →
      CallsOnly Q m0 (unchecked lib fn w m).m) :=
  ⟨fun fn w module m hc hr h => callsOnly_check lib Q fn w module m0 m (hQ fn hc hr) h,
    fun fn w m hc hr h => callsOnly_unchecked lib Q fn w m0 m (hQ fn hc hr) h⟩

theorem linsolB_calls {D S : Type} [LinearOrderedField D] (lib : IdasLibrary D S)
    (Q : IdaFn D → Bool) (hQ : ∀ fn, isCreateB fn = false → isReInitB fn = false → Q fn = true)
    (self : IdasInterface D) (m0 m : IdasMemory D S) (h : CallsOnly Q m0 m) :
    CallsOnly Q m0 (self.initDenseLinsolB lib m).m ∧
    CallsOnly Q m0 (self.initBandedLinsolB lib m).m ∧
    CallsOnly Q m0 (self.initIterativeLinsolB lib m).m ∧
    CallsOnly Q m0 (self.initUserDefinedLinsolB lib m).m := by
  obtain ⟨hcheck, hunchecked⟩ := callsOnly_checked lib Q hQ m0
  unfold IdasInterface.initDenseLinsolB IdasInterface.initBandedLinsolB
    IdasInterface.initIterativeLinsolB IdasInterface.initUserDefinedLinsolB
  refine ⟨?_, ?_, ?_, ?_⟩ <;>
  repeat' first
    | with_reducible assumption
    | with_reducible apply callsOnly_andThen
    | intro (_ : IdasMemory D S) (_ : CallsOnly _ _ _)
    | (with_reducible apply hcheck) <;> first | with_reducible assumption | rfl
    | (with_reducible apply hunchecked) <;> first | with_reducible assumption | rfl
    | with_reducible apply callsOnly_assertFunction
    | split

theorem createB_decompose {D S : Type} [LinearOrderedField D] (lib : IdasLibrary D S)
    (Q : IdaFn D → Bool) (hQ : ∀ fn, isCreateB fn = false → isReInitB fn = false → Q fn = true)
    (self : IdasInterface D) (m : IdasMemory D S) :
    ∃ k : IdasMemory D S → Run D S,
      self.createB lib m =
        (check lib .IDACreateB { whichB := true } "IDACreateB" m).andThen k ∧
      ∀ m0 m1, CallsOnly Q m0 m1 → CallsOnly Q m0 (k m1).m := by
  refine ⟨_, rfl, ?_⟩
  intro m0 m1 h1
  obtain ⟨hcheck, hunchecked⟩ := callsOnly_checked lib Q hQ m0
  repeat' first
    | with_reducible assumption
    | with_reducible apply callsOnly_andThen
    | intro (_ : IdasMemory D S) (_ : CallsOnly _ _ _)
    | (with_reducible apply hcheck) <;> first | with_reducible assumption | rfl
    | (with_reducible apply hunchecked) <;> first | with_reducible assumption | rfl
    | with_reducible exact (linsolB_calls lib Q hQ self _ _ (by assumption)).1
    | with_reducible exact (linsolB_calls lib Q hQ self _ _ (by assumption)).2.1
    | with_reducible exact (linsolB_calls lib Q hQ self _ _ (by assumption)).2.2.1
    | with_reducible exact (linsolB_calls lib Q hQ self _ _ (by assumption)).2.2.2
    | split

theorem reInitB_decompose {D S : Type} [LinearOrderedField D] (lib : IdasLibrary D S)
    (self : IdasInterface D) (m : IdasMemory D S) :
    ∃ k : IdasMemory D S → Run D S,
      self.reInitB lib m =
        (check lib (.IDAReInitB self.grid_back) { rxz := true, rxzdot := true } "IDAReInitB"
          m).andThen k ∧
      ∀ m0 m1, CallsOnly (fun fn => !isReInitB fn) m0 m1 →
        CallsOnly (fun fn => !isReInitB fn) m0 (k m1).m := by
  refine ⟨_, rfl, ?_⟩
  intro m0 m1 h1
  obtain ⟨hcheck, _⟩ := callsOnly_checked lib (fun fn => !isReInitB fn)
    (fun fn _ h => by simp [h]) m0
  repeat' first
    | with_reducible assumption
    | (with_reducible apply hcheck) <;> first | with_reducible assumption | rfl
    | split

theorem resetB_tail {D S : Type} [LinearOrderedField D] (lib : IdasLibrary D S)
    (Q : IdaFn D → Bool) (hQ : ∀ fn, isCreateB fn = false → isReInitB fn = false → Q fn = true)
    (self : IdasInterface D) (m : IdasMemory D S) (t : D) (rx rz rp : List D) :
    ∃ k : IdasMemory D S → Run D S,
      self.resetB lib m t rx rz rp =
        (if (SundialsInterface.resetB self m t rx rz rp).isInitAdj = false then
          self.createB lib (SundialsInterface.resetB self m t rx rz rp)
        else self.reInitB lib (SundialsInterface.resetB self m t rx rz rp)).andThen k ∧
      ∀ m0 m1, CallsOnly Q m0 m1 → CallsOnly Q m0 (k m1).m := by
  refine ⟨_, rfl, ?_⟩
  intro m0 m1 h1
  obtain ⟨hcheck, _⟩ := callsOnly_checked lib Q hQ m0
  repeat' first
    | with_reducible assumption
    | with_reducible apply callsOnly_andThen
    | intro (_ : IdasMemory D S) (_ : CallsOnly _ _ _)
    | (with_reducible apply hcheck) <;> first | with_reducible assumption | rfl
    | split

theorem resetB_calls {D S : Type} [LinearOrderedField D] (lib : IdasLibrary D S)
    (self : IdasInterface D) (m : IdasMemory D S) (t : D) (rx rz rp : List D) :
    (m.isInitAdj = false →
      (self.resetB lib m t rx rz rp).m.calls.countP isCreateB = m.calls.countP isCreateB + 1 ∧
      (self.resetB lib m t rx rz rp).m.calls.countP isReInitB = m.calls.countP isReInitB) ∧
    (m.isInitAdj = true →
      (self.resetB lib m t rx rz rp).m.calls.countP isReInitB =
        m.calls.countP isReInitB + 1) := by
  constructor
  · intro hadj
    have hg : (SundialsInterface.resetB self m t rx rz rp).isInitAdj = false := hadj
    constructor
    · obtain ⟨k, hk, htail⟩ := resetB_tail lib (fun fn => !isCreateB fn)
        (fun fn h _ => by simp [h]) self m t rx rz rp
      obtain ⟨k1, hk1, hrest⟩ := createB_decompose lib (fun fn => !isCreateB fn)
        (fun fn h _ => by simp [h]) self (SundialsInterface.resetB self m t rx rz rp)
      rw [hk, if_pos hg, hk1, count_andThen_same isCreateB _ k htail,
        count_after_first lib isCreateB .IDACreateB { whichB := true } "IDACreateB"
          (SundialsInterface.resetB self m t rx rz rp) k1 rfl hrest]
      rfl
    · obtain ⟨k, hk, htail⟩ := resetB_tail lib (fun fn => !isReInitB fn)
        (fun fn _ h => by simp [h]) self m t rx rz rp
      obtain ⟨k1, hk1, hrest⟩ := createB_decompose lib (fun fn => !isReInitB fn)
        (fun fn _ h => by simp [h]) self (SundialsInterface.resetB self m t rx rz rp)
      rw [hk, if_pos hg, hk1, count_andThen_same isReInitB _ k htail,
        count_andThen_same isReInitB _ k1 hrest, check_calls, List.countP_append]
      simp [isReInitB, SundialsInterface.resetB]
  · intro hadj
    have hg : ¬ (SundialsInterface.resetB self m t rx rz rp).isInitAdj = false := by
      show ¬ m.isInitAdj = false
      rw [hadj]
      decide
    obtain ⟨k, hk, htail⟩ := resetB_tail lib (fun fn => !isReInitB fn)
      (fun fn _ h => by simp [h]) self m t rx rz rp
    obtain ⟨k1, hk1, hrest⟩ := reInitB_decompose lib self
      (SundialsInterface.resetB self m t rx rz rp)
    rw [hk, if_neg hg, hk1, count_andThen_same isReInitB _ k htail,
      count_after_first lib isReInitB (.IDAReInitB self.grid_back)
        { rxz := true, rxzdot := true } "IDAReInitB"
        (SundialsInterface.resetB self m t rx rz rp) k1 rfl hrest]
    rfl

/-- C15: `resetB` creates the backward problem exactly when `isInitAdj` is
false on entry.  With `isInitAdj` false, `resetB` calls `IDACreateB` exactly
once and never `IDAReInitB`, whether it returns or throws; when it returns
it has also called `IDAInitB`, one attachment of a backward linear solver and
`IDAQuadInitB` exactly once each and has set `isInitAdj`.  With `isInitAdj`
true, `resetB` calls `IDAReInitB` exactly once, makes none of the creating
calls and leaves `isInitAdj` true, whether it returns or throws.  Hence after
any non-empty sequence of `resetB` calls that all return, started with
`isInitAdj` false, `IDACreateB` has been called exactly once. -/
theorem resetB_creates_backward_problem_once {D S : Type} [LinearOrderedField D]
    (lib : IdasLibrary D S) (self : IdasInterface D) (m : IdasMemory D S) (t : D)
    (rx rz rp : List D) (args : List (ResetArgs D)) :
    (m.isInitAdj = false →
      (self.resetB lib m t rx rz rp).m.calls.countP isCreateB = m.calls.countP isCreateB + 1 ∧
      (self.resetB lib m t rx rz rp).m.calls.countP isReInitB = m.calls.countP isReInitB) ∧
    (m.isInitAdj = false → (self.resetB lib m t rx rz rp).ret = .ok () →
      (self.resetB lib m t rx rz rp).m.isInitAdj = true ∧
      (self.resetB lib m t rx rz rp).m.calls.countP isCreateB = m.calls.countP isCreateB + 1 ∧
      (self.resetB lib m t rx rz rp).m.calls.countP isInitB = m.calls.countP isInitB + 1 ∧
      (self.resetB lib m t rx rz rp).m.calls.countP isLinsolB = m.calls.countP isLinsolB + 1 ∧
      (self.resetB lib m t rx rz rp).m.calls.countP isQuadInitB =
        m.calls.countP isQuadInitB + 1 ∧
      (self.resetB lib m t rx rz rp).m.calls.countP isReInitB = m.calls.countP isReInitB) ∧
    (m.isInitAdj = true →
      (self.resetB lib m t rx rz rp).m.isInitAdj = true ∧
      (self.resetB lib m t rx rz rp).m.calls.countP isCreationB =
        m.calls.countP isCreationB ∧
      (self.resetB lib m t rx rz rp).m.calls.countP isReInitB =
        m.calls.countP isReInitB + 1) ∧
    (m.isInitAdj = false → args ≠ [] → (resetBSequence lib self args m).ret = .ok () →
      (resetBSequence lib self args m).m.isInitAdj = true ∧
      (resetBSequence lib self args m).m.calls.countP isCreateB =
        m.calls.countP isCreateB + 1) := by
  obtain ⟨r1, r2⟩ := resetB_spec lib self m t rx rz rp
  obtain ⟨c1, c2⟩ := resetB_calls lib self m t rx rz rp
  refine ⟨c1, r2, ?_, (resetBSequence_spec lib self args m).2⟩
  intro hadj
  obtain ⟨hext, _⟩ := r1 hadj
  exact ⟨hext.2.1.trans hadj,
    extends_count isCreationB hext (fun fn h => (not_creation_cases fn h).2.2.2.2), c2 hadj⟩

theorem resetB_creates_backward_problem_once_witness :
    (exampleMemory.isInitAdj = false ∧
      (exampleIntegrator.resetB exampleLibrary exampleMemory 1 [0] [] []).ret = .ok () ∧
      (exampleIntegrator.resetB exampleLibrary exampleMemory 1 [0] [] []).m.isInitAdj = true ∧
      (exampleIntegrator.resetB exampleLibrary exampleMemory 1 [0] [] []).m.calls.countP
        isCreateB = 1) ∧
    (exampleBackwardMemory.isInitAdj = true ∧
      (exampleIntegrator.resetB exampleLibrary exampleBackwardMemory 1 [0] [] []).ret =
        .ok () ∧
      (exampleIntegrator.resetB exampleLibrary exampleBackwardMemory 1 [0] [] []).m.calls.countP
        isReInitB = 1 ∧
      (exampleIntegrator.resetB exampleLibrary exampleBackwardMemory 1 [0] [] []).m.calls.countP
        isCreationB = exampleBackwardMemory.calls.countP isCreationB) :=
  ⟨⟨rfl, rfl,
    ((resetB_creates_backward_problem_once exampleLibrary exampleIntegrator exampleMemory 1
      [0] [] [] []).2.1 rfl rfl).1,
    ((resetB_creates_backward_problem_once exampleLibrary exampleIntegrator exampleMemory 1
      [0] [] [] []).1 rfl).1⟩,
    ⟨rfl, rfl,
    ((resetB_creates_backward_problem_once exampleLibrary exampleIntegrator
      exampleBackwardMemory 1 [0] [] [] []).2.2.1 rfl).2.2,
    ((resetB_creates_backward_problem_once exampleLibrary exampleIntegrator
      exampleBackwardMemory 1 [0] [] [] []).2.2.1 rfl).2.1⟩⟩

/-! ## Advancing and retreating -/

theorem sameStates_check {D S : Type} (lib : IdasLibrary D S) (fn : IdaFn D) (w : Writes)
    (module : String) (m : IdasMemory D S)
    (hw : w.t = false ∧ w.xz = false ∧ w.q = false ∧ w.rxz = false ∧ w.rq = false) :
    SameStates m (check lib fn w module m).m := by
  obtain ⟨h1, h2, h3, h4, h5⟩ := hw
  rw [check_ret_ok]
  simp [SameStates, nativeCall, applyWrites, h1, h2, h3, h4, h5]

/-- C17: `advance(t)` throws, with the memory unchanged (so before any call
to the library) and no output written, when `t < t0`, whatever
`stop_at_end_` is, and when `t > tf` and `stop_at_end_` is true; when
`stop_at_end_` is false and `t >= t0` both range checks pass: the stepping
part runs, its exception, if any, is the one `advance` throws, and otherwise
the outputs are written. -/
theorem advance_range_checks {D S : Type} [LinearOrderedField D] (lib : IdasLibrary D S)
    (self : IdasInterface D) (m : IdasMemory D S) (t : D) :
    (t < self.grid_front →
      (∃ msg, (self.advance lib m t).ret = .error (.CasadiException msg)) ∧
      (self.advance lib m t).m = m ∧ (self.advance lib m t).out = none) ∧
    (t > self.grid_back → self.stop_at_end_ = true →
      (∃ msg, (self.advance lib m t).ret = .error (.CasadiException msg)) ∧
      (self.advance lib m t).m = m ∧ (self.advance lib m t).out = none) ∧
    (self.stop_at_end_ = false → t ≥ self.grid_front →
      (∀ e, (self.advanceStep lib m t).ret = .error e →
        (self.advance lib m t).ret = .error e ∧
        (self.advance lib m t).m = (self.advanceStep lib m t).m) ∧
      ((self.advanceStep lib m t).ret = .ok () →
        (self.advance lib m t).out =
          some ((self.advanceStep lib m t).m.xz.take self.nx_,
            ((self.advanceStep lib m t).m.xz.drop self.nx_).take self.nz_,
            (self.advanceStep lib m t).m.q.take self.nq_))) := by
  refine ⟨?_, ?_, ?_⟩
  · intro hlt
    unfold IdasInterface.advance
    rw [if_pos (not_le.mpr hlt)]
    exact ⟨⟨_, rfl⟩, rfl, rfl⟩
  · intro hgt hstop
    unfold IdasInterface.advance
    by_cases h0 : t ≥ self.grid_front
    · have h2 : ¬ (t ≤ self.grid_back ∨ self.stop_at_end_ = false) := by
        rintro (h | h)
        · exact absurd h (not_le.mpr hgt)
        · rw [hstop] at h
          cases h
      rw [if_neg (not_not.mpr h0), if_pos h2]
      exact ⟨⟨_, rfl⟩, rfl, rfl⟩
    · rw [if_pos h0]
      exact ⟨⟨_, rfl⟩, rfl, rfl⟩
  · intro hstop h0
    unfold IdasInterface.advance
    rw [if_neg (not_not.mpr h0), if_neg (not_not.mpr (Or.inr hstop))]
    constructor
    · intro e he
      rw [he]
      exact ⟨rfl, rfl⟩
    · intro hok
      rw [hok]

theorem advance_range_checks_witness :
    (-1 : ℚ) < exampleIntegrator.grid_front ∧
    (∃ msg, (exampleIntegrator.advance exampleLibrary exampleMemory (-1)).ret =
      .error (.CasadiException msg)) ∧
    (exampleIntegrator.advance exampleLibrary exampleMemory (-1)).m = exampleMemory ∧
    (exampleIntegrator.advance exampleLibrary exampleMemory (-1)).out = none :=
  ⟨by simp [IdasInterface.grid_front, exampleIntegrator],
    (advance_range_checks exampleLibrary exampleIntegrator exampleMemory (-1)).1
      (by simp [IdasInterface.grid_front, exampleIntegrator])⟩

theorem retreatStep_not_earlier {D S : Type} [LinearOrderedField D] (lib : IdasLibrary D S)
    (self : IdasInterface D) (m : IdasMemory D S) (t : D) (h : t ≥ m.t) :
    self.retreatStep lib m t = { ret := .ok (), m := m } := by
  unfold IdasInterface.retreatStep
  rw [if_neg (not_lt.mpr h)]

/-- C18: when `t` is not earlier than the current internal time (`t >= m.t`),
`retreat` makes no call of `IDASolveB`, `IDAGetB` or `IDAGetQuadB`, leaves
`m.t`, `rxz` and `rq` unchanged, and writes to the outputs `rx`, `rz`, `rq`
the contents `rxz[0..nrx)`, `rxz[nrx..nrx+nrz)` and `rq[0..nrq)`. -/
theorem retreat_not_earlier {D S : Type} [LinearOrderedField D] (lib : IdasLibrary D S)
    (self : IdasInterface D) (m : IdasMemory D S) (t : D) (h : t ≥ m.t) :
    (self.retreat lib m t).out =
      some (m.rxz.take self.nrx_, (m.rxz.drop self.nrx_).take self.nrz_,
        m.rq.take self.nrq_) ∧
    (self.retreat lib m t).m.t = m.t ∧
    (self.retreat lib m t).m.rxz = m.rxz ∧
    (self.retreat lib m t).m.rq = m.rq ∧
    (∃ new, (self.retreat lib m t).m.calls = m.calls ++ new ∧
      ∀ fn ∈ new, isBackwardStep fn = false) := by
  have hstep := retreatStep_not_earlier lib self m t h
  have hs := sameStates_check lib .IDAGetIntegratorStatsAdj { statsB := true }
    "IDAGetIntegratorStatsB" m ⟨rfl, rfl, rfl, rfl, rfl⟩
  have hw := within_check lib (fun fn => !isBackwardStep fn) .IDAGetIntegratorStatsAdj
    { statsB := true } "IDAGetIntegratorStatsB" m rfl
  unfold IdasInterface.retreat
  rw [hstep]
  simp only []
  obtain ⟨_, _, new, hnew, hall⟩ := hw.1
  refine ⟨trivial, hs.1, hs.2.2.2.1, hs.2.2.2.2, new, hnew, ?_⟩
  intro fn hfn
  simpa using hall fn hfn

theorem retreat_not_earlier_witness :
    (1 : ℚ) ≥ exampleMemory.t ∧
    (exampleIntegrator.retreat exampleLibrary exampleMemory 1).m.rxz = exampleMemory.rxz :=
  ⟨by simp [exampleMemory],
    (retreat_not_earlier exampleLibrary exampleIntegrator exampleMemory 1
      (by simp [exampleMemory])).2.2.1⟩

/-! ## The callback bridge -/

/-- C19: only `res` has a `catch(int flag)` handler.  With sub-functions that
throw the integer signal 2, `res` returns 2 to the solver, while in each of
`resB`, `rhsQ`, `rhsQB`, `jtimes`, `jtimesB`, `djac`, `djacB`, `bjac`,
`bjacB`, `psetup`, `psetupB`, `psolve` and `psolveB` the signal is caught by
no handler and leaves the callback. -/
theorem integer_signal_caught_only_by_res :
    (exampleLinsolIntegrator.res (throwingFunctions 2) exampleMemory 0 [0] [0] [0]).exit =
      .returned 2 ∧
    (exampleLinsolIntegrator.resB (throwingFunctions 2) exampleMemory 0 [0] [0] [0] [0]).exit =
      .propagated 2 ∧
    (exampleLinsolIntegrator.rhsQ (throwingFunctions 2) exampleMemory 0 [0] [0]).exit =
      .propagated 2 ∧
    (exampleLinsolIntegrator.rhsQB (throwingFunctions 2) exampleMemory 0 [0] [0] [0]).exit =
      .propagated 2 ∧
    (exampleLinsolIntegrator.jtimes (throwingFunctions 2) exampleMemory 0 [0] [0] [0] 1).exit =
      .propagated 2 ∧
    (exampleLinsolIntegrator.jtimesB (throwingFunctions 2) exampleMemory 0 [0] [0] [0] [0]
      1).exit = .propagated 2 ∧
    (exampleLinsolIntegrator.djac (throwingFunctions 2) exampleMemory 0 1 [0]
      (fun _ _ => 0)).exit = .propagated 2 ∧
    (exampleLinsolIntegrator.djacB (throwingFunctions 2) exampleMemory 0 1 [0] [0]
      (fun _ _ => 0)).exit = .propagated 2 ∧
    (exampleLinsolIntegrator.bjac (throwingFunctions 2) exampleMemory 0 0 0 1 [0]
      (fun _ _ => 0)).exit = .propagated 2 ∧
    (exampleLinsolIntegrator.bjacB (throwingFunctions 2) exampleMemory 0 0 0 1 [0] [0]
      (fun _ _ => 0)).exit = .propagated 2 ∧
    (exampleLinsolIntegrator.psetup (throwingFunctions 2) exampleMemory 0 1 [0]).exit =
      .propagated 2 ∧
    (exampleLinsolIntegrator.psetupB (throwingFunctions 2) exampleMemory 0 1 [0] [0]).exit =
      .propagated 2 ∧
    (exampleLinsolIntegrator.psolve (throwingFunctions 2) [0] [0] false).exit =
      .propagated 2 ∧
    (exampleLinsolIntegrator.psolveB (throwingFunctions 2) [0] [0] false).exit =
      .propagated 2 :=
  ⟨rfl, rfl, rfl, rfl, rfl, rfl, rfl, rfl, rfl, rfl, rfl, rfl, rfl, rfl⟩

theorem writeAt_writeAt {D : Type} (y a b : List D) (hy : y.length = a.length + b.length) :
    writeAt (writeAt y 0 a) a.length b = a ++ b := by
  simp [writeAt, hy]

theorem casadi_axpy_getElem? {D : Type} [LinearOrderedField D] (n : Nat) (alpha : D)
    (x y : List D) (k : Nat) :
    (casadi_axpy n alpha x y)[k]? =
      y[k]?.map fun v => if k < n then v + alpha * x.getD k 0 else v := by
  simp only [casadi_axpy, List.getElem?_map, List.getElem?_enum]
  cases y[k]? <;> simp

theorem axpy_differential {D : Type} [LinearOrderedField D] (alpha : D) (x y a b : List D)
    (hy : y.length = a.length + b.length) (k : Nat) (hk : k < a.length) :
    (casadi_axpy a.length alpha x (writeAt (writeAt y 0 a) a.length b))[k]? =
      some (a.getD k 0 + alpha * x.getD k 0) := by
  rw [writeAt_writeAt y a b hy, casadi_axpy_getElem?, List.getElem?_append_left hk]
  simp [hk, List.getD_eq_getElem?_getD]

theorem axpy_algebraic {D : Type} [LinearOrderedField D] (alpha : D) (x y a b : List D)
    (hy : y.length = a.length + b.length) (j : Nat) (hj : j < b.length) :
    (casadi_axpy a.length alpha x (writeAt (writeAt y 0 a) a.length b))[a.length + j]? =
      some (b.getD j 0) := by
  rw [writeAt_writeAt y a b hy, casadi_axpy_getElem?,
    List.getElem?_append_right (Nat.le_add_right _ _)]
  simp [hj, List.getD_eq_getElem?_getD]


/-- C21: when `daeF` completes and writes `(ode, alg)`, `res` returns 0 and
leaves `rr[k] = ode[k] - xzdot[k]` for `k < nx` and `rr[nx+j] = alg[j]` for
`j < nz`; when `daeB` completes and writes `(rode, ralg)`, `resB` returns 0 and
leaves `rr[k] = rode[k] + rxzdot[k]` for `k < nrx` and `rr[nrx+j] = ralg[j]`
for `j < nrz`.  The algebraic components carry no state-derivative term. -/
theorem residual_callbacks_values {D S : Type} [LinearOrderedField D] (fns : Functions D)
    (self : IdasInterface D) (m : IdasMemory D S) (t : D) (xz : List D) :
    (∀ xzdot rr ode alg : List D,
      fns.calc_function "daeF" (self.argsF m t xz) = .ok [ode, alg] →
      ode.length = self.nx_ → alg.length = self.nz_ → rr.length = self.nx_ + self.nz_ →
      (self.res fns m t xz xzdot rr).exit = .returned 0 ∧
      (∀ k, k < self.nx_ →
        (self.res fns m t xz xzdot rr).out[k]? = some (ode.getD k 0 - xzdot.getD k 0)) ∧
      (∀ j, j < self.nz_ →
        (self.res fns m t xz xzdot rr).out[self.nx_ + j]? = some (alg.getD j 0))) ∧
    (∀ rxz rxzdot rr rode ralg : List D,
      fns.calc_function "daeB" (self.argsB m t xz rxz) = .ok [rode, ralg] →
      rode.length = self.nrx_ → ralg.length = self.nrz_ →
      rr.length = self.nrx_ + self.nrz_ →
      (self.resB fns m t xz rxz rxzdot rr).exit = .returned 0 ∧
      (∀ k, k < self.nrx_ →
        (self.resB fns m t xz rxz rxzdot rr).out[k]? =
          some (rode.getD k 0 + rxzdot.getD k 0)) ∧
      (∀ j, j < self.nrz_ →
        (self.resB fns m t xz rxz rxzdot rr).out[self.nrx_ + j]? = some (ralg.getD j 0))) := by
  constructor
  · intro xzdot rr ode alg hF hode halg hrr
    have hy : rr.length = ode.length + alg.length := by rw [hode, halg, hrr]
    simp only [IdasInterface.res, hF, tryCatchInt, List.getD_cons_zero, List.getD_cons_succ,
      ← hode, ← halg]
    refine ⟨trivial, fun k hk => ?_, fun j hj => ?_⟩
    · rw [axpy_differential (-1) xzdot rr ode alg hy k hk]
      simp [sub_eq_add_neg]
    · exact axpy_algebraic (-1) xzdot rr ode alg hy j hj
  · intro rxz rxzdot rr rode ralg hB hrode hralg hrr
    have hy : rr.length = rode.length + ralg.length := by rw [hrode, hralg, hrr]
    simp only [IdasInterface.resB, hB, tryCatch, List.getD_cons_zero, List.getD_cons_succ,
      ← hrode, ← hralg]
    refine ⟨trivial, fun k hk => ?_, fun j hj => ?_⟩
    · rw [axpy_differential 1 rxzdot rr rode ralg hy k hk]
      simp
    · exact axpy_algebraic 1 rxzdot rr rode ralg hy j hj

theorem residual_callbacks_values_witness :
    (exampleDae.res exampleDaeFunctions exampleMemory 0 [1, 2] [3, 4] [0, 0]).out[0]? =
      some ((5 : ℚ) - 3) ∧
    (exampleDae.res exampleDaeFunctions exampleMemory 0 [1, 2] [3, 4] [0, 0]).out[1]? =
      some (7 : ℚ) ∧
    (exampleDae.resB exampleDaeFunctions exampleMemory 0 [1, 2] [1, 1] [3, 4] [0, 0]).out[0]? =
      some ((5 : ℚ) + 3) :=
  ⟨((residual_callbacks_values exampleDaeFunctions exampleDae exampleMemory 0 [1, 2]).1
      [3, 4] [0, 0] [5] [7] rfl rfl rfl rfl).2.1 0 (by decide),
    ((residual_callbacks_values exampleDaeFunctions exampleDae exampleMemory 0 [1, 2]).1
      [3, 4] [0, 0] [5] [7] rfl rfl rfl rfl).2.2 0 (by decide),
    ((residual_callbacks_values exampleDaeFunctions exampleDae exampleMemory 0 [1, 2]).2
      [1, 1] [3, 4] [0, 0] [5] [7] rfl rfl rfl rfl).2.1 0 (by decide)⟩

/-- C26: when `jtimesF` completes and writes `(Jx, Jz)` for the seed `v`,
`jtimes` returns 0 and leaves `Jv[k] = Jx[k] - cj*v[k]` for `k < nx` and
`Jv[nx+j] = Jz[j]` for `j < nz`; when the sub-function `jtimesB` completes and
writes `(JBx, JBz)` for the seed `vB`, `jtimesB` returns 0 and leaves
`JvB[k] = JBx[k] + cjB*vB[k]` for `k < nrx` and `JvB[nrx+j] = JBz[j]` for
`j < nrz`. -/
theorem jtimes_callbacks_values {D S : Type} [LinearOrderedField D] (fns : Functions D)
    (self : IdasInterface D) (m : IdasMemory D S) (t : D) (xz : List D) :
    (∀ (v Jv Jx Jz : List D) (cj : D),
      fns.calc_function "jtimesF" (self.argsJtimes m t xz v) = .ok [Jx, Jz] →
      Jx.length = self.nx_ → Jz.length = self.nz_ → Jv.length = self.nx_ + self.nz_ →
      (self.jtimes fns m t xz v Jv cj).exit = .returned 0 ∧
      (∀ k, k < self.nx_ →
        (self.jtimes fns m t xz v Jv cj).out[k]? = some (Jx.getD k 0 - cj * v.getD k 0)) ∧
      (∀ j, j < self.nz_ →
        (self.jtimes fns m t xz v Jv cj).out[self.nx_ + j]? = some (Jz.getD j 0))) ∧
    (∀ (xzB vB JvB JBx JBz : List D) (cjB : D),
      fns.calc_function "jtimesB" (self.argsJtimesB m t xz xzB vB) = .ok [JBx, JBz] →
      JBx.length = self.nrx_ → JBz.length = self.nrz_ →
      JvB.length = self.nrx_ + self.nrz_ →
      (self.jtimesB fns m t xz xzB vB JvB cjB).exit = .returned 0 ∧
      (∀ k, k < self.nrx_ →
        (self.jtimesB fns m t xz xzB vB JvB cjB).out[k]? =
          some (JBx.getD k 0 + cjB * vB.getD k 0)) ∧
      (∀ j, j < self.nrz_ →
        (self.jtimesB fns m t xz xzB vB JvB cjB).out[self.nrx_ + j]? =
          some (JBz.getD j 0))) := by
  constructor
  · intro v Jv Jx Jz cj hF hx hz hJv
    have hy : Jv.length = Jx.length + Jz.length := by rw [hx, hz, hJv]
    simp only [IdasInterface.jtimes, hF, tryCatch, List.getD_cons_zero, List.getD_cons_succ,
      ← hx, ← hz]
    refine ⟨trivial, fun k hk => ?_, fun j hj => ?_⟩
    · rw [axpy_differential (-cj) v Jv Jx Jz hy k hk]
      simp [sub_eq_add_neg]
    · exact axpy_algebraic (-cj) v Jv Jx Jz hy j hj
  · intro xzB vB JvB JBx JBz cjB hB hx hz hJv
    have hy : JvB.length = JBx.length + JBz.length := by rw [hx, hz, hJv]
    simp only [IdasInterface.jtimesB, hB, tryCatch, List.getD_cons_zero, List.getD_cons_succ,
      ← hx, ← hz]
    refine ⟨trivial, fun k hk => ?_, fun j hj => ?_⟩
    · exact axpy_differential cjB vB JvB JBx JBz hy k hk
    · exact axpy_algebraic cjB vB JvB JBx JBz hy j hj

theorem jtimes_callbacks_values_witness :
    (exampleDae.jtimes exampleDaeFunctions exampleMemory 0 [1, 2] [3, 4] [0, 0] 2).out[0]? =
      some ((5 : ℚ) - 2 * 3) ∧
    (exampleDae.jtimes exampleDaeFunctions exampleMemory 0 [1, 2] [3, 4] [0, 0] 2).out[1]? =
      some (7 : ℚ) ∧
    (exampleDae.jtimesB exampleDaeFunctions exampleMemory 0 [1, 2] [1, 1] [3, 4] [0, 0]
        2).out[0]? = some ((5 : ℚ) + 2 * 3) :=
  ⟨((jtimes_callbacks_values exampleDaeFunctions exampleDae exampleMemory 0 [1, 2]).1
      [3, 4] [0, 0] [5] [7] 2 rfl rfl rfl rfl).2.1 0 (by decide),
    ((jtimes_callbacks_values exampleDaeFunctions exampleDae exampleMemory 0 [1, 2]).1
      [3, 4] [0, 0] [5] [7] 2 rfl rfl rfl rfl).2.2 0 (by decide),
    ((jtimes_callbacks_values exampleDaeFunctions exampleDae exampleMemory 0 [1, 2]).2
      [1, 1] [3, 4] [0, 0] [5] [7] 2 rfl rfl rfl rfl).2.1 0 (by decide)⟩

theorem res_invokesOn {D S : Type} [LinearOrderedField D] (self : IdasInterface D)
    (m : IdasMemory D S) (t : D) (xz xzdot rr : List D) :
    InvokesOn (fun fns => self.res fns m t xz xzdot rr) "res" "daeF"
      [xz, xz.drop self.nx_, m.p, [t]] := by
  constructor
  · intro fns g h
    simp only [IdasInterface.res, IdasInterface.argsF, h]
  · intro fns what h
    simp only [IdasInterface.res, IdasInterface.argsF, h, tryCatchInt]

theorem rhsQ_invokesOn {D S : Type} [LinearOrderedField D] (self : IdasInterface D)
    (m : IdasMemory D S) (t : D) (xz rhsQ : List D) :
    InvokesOn (fun fns => self.rhsQ fns m t xz rhsQ) "rhsQ" "quadF"
      [xz, xz.drop self.nx_, m.p, [t]] := by
  constructor
  · intro fns g h
    simp only [IdasInterface.rhsQ, IdasInterface.argsF, h]
  · intro fns what h
    simp only [IdasInterface.rhsQ, IdasInterface.argsF, h, tryCatch]

theorem resB_invokesOn {D S : Type} [LinearOrderedField D] (self : IdasInterface D)
    (m : IdasMemory D S) (t : D) (xz rxz rxzdot rr : List D) :
    InvokesOn (fun fns => self.resB fns m t xz rxz rxzdot rr) "resB" "daeB"
      [rxz, rxz.drop self.nrx_, m.rp, xz, xz.drop self.nx_, m.p, [t]] := by
  constructor
  · intro fns g h
    simp only [IdasInterface.resB, IdasInterface.argsB, h]
  · intro fns what h
    simp only [IdasInterface.resB, IdasInterface.argsB, h, tryCatch]

theorem rhsQB_invokesOn {D S : Type} [LinearOrderedField D] (self : IdasInterface D)
    (m : IdasMemory D S) (t : D) (xz rxz rqdot : List D) :
    InvokesOn (fun fns => self.rhsQB fns m t xz rxz rqdot) "rhsQB" "quadB"
      [rxz, rxz.drop self.nrx_, m.rp, xz, xz.drop self.nx_, m.p, [t]] := by
  constructor
  · intro fns g h
    simp only [IdasInterface.rhsQB, IdasInterface.argsB, h]
  · intro fns what h
    simp only [IdasInterface.rhsQB, IdasInterface.argsB, h, tryCatch]

theorem jtimes_invokesOn {D S : Type} [LinearOrderedField D] (self : IdasInterface D)
    (m : IdasMemory D S) (t : D) (xz v Jv : List D) (cj : D) :
    InvokesOn (fun fns => self.jtimes fns m t xz v Jv cj) "jtimes" "jtimesF"
      [[t], xz, xz.drop self.nx_, m.p, v, v.drop self.nx_] := by
  constructor
  · intro fns g h
    simp only [IdasInterface.jtimes, IdasInterface.argsJtimes, h]
  · intro fns what h
    simp only [IdasInterface.jtimes, IdasInterface.argsJtimes, h, tryCatch]

theorem jtimesB_invokesOn {D S : Type} [LinearOrderedField D] (self : IdasInterface D)
    (m : IdasMemory D S) (t : D) (xz xzB vB JvB : List D) (cjB : D) :
    InvokesOn (fun fns => self.jtimesB fns m t xz xzB vB JvB cjB) "jtimesB" "jtimesB"
      [[t], xz, xz.drop self.nx_, m.p, xzB, xzB.drop self.nrx_, m.rp, vB, vB.drop self.nrx_] := by
  constructor
  · intro fns g h
    simp only [IdasInterface.jtimesB, IdasInterface.argsJtimesB, h]
  · intro fns what h
    simp only [IdasInterface.jtimesB, IdasInterface.argsJtimesB, h, tryCatch]

theorem djac_invokesOn {D S : Type} [LinearOrderedField D] (self : IdasInterface D)
    (m : IdasMemory D S) (t cj : D) (xz : List D) (Jac : DlsMat D) :
    InvokesOn (fun fns => self.djac fns m t cj xz Jac) "djac" "jacF"
      [[t], xz, xz.drop self.nx_, m.p, [cj]] := by
  constructor
  · intro fns g h
    simp only [IdasInterface.djac, IdasInterface.argsJacF, h]
  · intro fns what h
    simp only [IdasInterface.djac, IdasInterface.argsJacF, h, tryCatch]

theorem bjac_invokesOn {D S : Type} [LinearOrderedField D] (self : IdasInterface D)
    (m : IdasMemory D S) (mupper mlower : Int) (t cj : D) (xz : List D) (Jac : DlsMat D) :
    InvokesOn (fun fns => self.bjac fns m mupper mlower t cj xz Jac) "bjac" "jacF"
      [[t], xz, xz.drop self.nx_, m.p, [cj]] := by
  constructor
  · intro fns g h
    simp only [IdasInterface.bjac, IdasInterface.argsJacF, h]
  · intro fns what h
    simp only [IdasInterface.bjac, IdasInterface.argsJacF, h, tryCatch]

theorem psetup_invokesOn {D S : Type} [LinearOrderedField D] (self : IdasInterface D)
    (m : IdasMemory D S) (t cj : D) (xz : List D) :
    InvokesOn (fun fns => self.psetup fns m t cj xz) "psetup" "jacF"
      [[t], xz, xz.drop self.nx_, m.p, [cj]] := by
  constructor
  · intro fns g h
    simp only [IdasInterface.psetup, IdasInterface.argsJacF, h]
  · intro fns what h
    simp only [IdasInterface.psetup, IdasInterface.argsJacF, h, tryCatch]

theorem djacB_invokesOn {D S : Type} [LinearOrderedField D] (self : IdasInterface D)
    (m : IdasMemory D S) (t cj : D) (xz rxz : List D) (JacB : DlsMat D) :
    InvokesOn (fun fns => self.djacB fns m t cj xz rxz JacB) "djacB" "jacB"
      [[t], rxz, rxz.drop self.nrx_, m.rp, xz, xz.drop self.nx_, m.p, [cj]] := by
  constructor
  · intro fns g h
    simp only [IdasInterface.djacB, IdasInterface.argsJacB, h]
  · intro fns what h
    simp only [IdasInterface.djacB, IdasInterface.argsJacB, h, tryCatch]

theorem bjacB_invokesOn {D S : Type} [LinearOrderedField D] (self : IdasInterface D)
    (m : IdasMemory D S) (mupperB mlowerB : Int) (t cj : D) (xz rxz : List D) (JacB : DlsMat D) :
    InvokesOn (fun fns => self.bjacB fns m mupperB mlowerB t cj xz rxz JacB) "bjacB" "jacB"
      [[t], rxz, rxz.drop self.nrx_, m.rp, xz, xz.drop self.nx_, m.p, [cj]] := by
  constructor
  · intro fns g h
    simp only [IdasInterface.bjacB, IdasInterface.argsJacB, h]
  · intro fns what h
    simp only [IdasInterface.bjacB, IdasInterface.argsJacB, h, tryCatch]

theorem psetupB_invokesOn {D S : Type} [LinearOrderedField D] (self : IdasInterface D)
    (m : IdasMemory D S) (t cj : D) (xz rxz : List D) :
    InvokesOn (fun fns => self.psetupB fns m t cj xz rxz) "psetupB" "jacB"
      [[t], rxz, rxz.drop self.nrx_, m.rp, xz, xz.drop self.nx_, m.p, [cj]] := by
  constructor
  · intro fns g h
    simp only [IdasInterface.psetupB, IdasInterface.argsJacB, h]
  · intro fns what h
    simp only [IdasInterface.psetupB, IdasInterface.argsJacB, h, tryCatch]

/-- C22 (as stated) fails: on the integrator with one differential and one
algebraic state, `jtimes` at `t = 3`, `xz = [5, 7]`, `v = [1, 1]` does not
evaluate `jtimesF` on the slots `(x, z, p, t, v, v + nx)`: a sub-function that
throws when slot 0 holds the state vector is not seen to throw. -/
theorem jtimes_slot_order_counterexample :
    ¬ InvokesOn (fun fns => exampleDae.jtimes fns exampleMemory 3 [5, 7] [1, 1] [0, 0] 0)
      "jtimes" "jtimesF" [[5, 7], [7], [], [3], [1, 1], [1]] := by
  intro h
  have h2 := h.2 stateFirstFunctions "state in slot 0" rfl
  revert h2
  decide

/-- C22 (amended): `res` and `rhsQ` evaluate their sub-function on the slots
`(x, z, p, t)`; `jtimes`, `djac`, `bjac` and `psetup` evaluate theirs on
`(t, x, z, p)` followed by the seeds `(v, v + nx)` for `jtimes` and by `cj`
for the other three; `z` is the state vector offset by `nx`. -/
theorem forward_callbacks_slot_order {D S : Type} [LinearOrderedField D]
    (self : IdasInterface D) (m : IdasMemory D S) (t cj : D) (xz xzdot rr rhsQ v Jv : List D)
    (Jac : DlsMat D) (mupper mlower : Int) :
    InvokesOn (fun fns => self.res fns m t xz xzdot rr) "res" "daeF"
      [xz, xz.drop self.nx_, m.p, [t]] ∧
    InvokesOn (fun fns => self.rhsQ fns m t xz rhsQ) "rhsQ" "quadF"
      [xz, xz.drop self.nx_, m.p, [t]] ∧
    InvokesOn (fun fns => self.jtimes fns m t xz v Jv cj) "jtimes" "jtimesF"
      [[t], xz, xz.drop self.nx_, m.p, v, v.drop self.nx_] ∧
    InvokesOn (fun fns => self.djac fns m t cj xz Jac) "djac" "jacF"
      [[t], xz, xz.drop self.nx_, m.p, [cj]] ∧
    InvokesOn (fun fns => self.bjac fns m mupper mlower t cj xz Jac) "bjac" "jacF"
      [[t], xz, xz.drop self.nx_, m.p, [cj]] ∧
    InvokesOn (fun fns => self.psetup fns m t cj xz) "psetup" "jacF"
      [[t], xz, xz.drop self.nx_, m.p, [cj]] :=
  ⟨res_invokesOn self m t xz xzdot rr, rhsQ_invokesOn self m t xz rhsQ,
    jtimes_invokesOn self m t xz v Jv cj, djac_invokesOn self m t cj xz Jac,
    bjac_invokesOn self m mupper mlower t cj xz Jac, psetup_invokesOn self m t cj xz⟩

theorem init_functions_inputs {D : Type} (self : IdasInterface D) (name : String)
    (names outs : List String) (h : (name, names, outs) ∈ self.init_functions) :
    (name = "daeF" → names = ["x", "z", "p", "t"]) ∧
    (name = "quadF" → names = ["x", "z", "p", "t"]) ∧
    (name = "daeB" → names = ["rx", "rz", "rp", "x", "z", "p", "t"]) ∧
    (name = "quadB" → names = ["rx", "rz", "rp", "x", "z", "p", "t"]) ∧
    (name = "jacF" → names = ["t", "x", "z", "p", "cj"]) ∧
    (name = "jacB" → names = ["t", "rx", "rz", "rp", "x", "z", "p", "cj"]) ∧
    (name = "jtimesF" → names = ["t", "x", "z", "p", "fwd:x", "fwd:z"]) ∧
    (name = "jtimesB" →
      names = ["t", "x", "z", "p", "rx", "rz", "rp", "fwd:rx", "fwd:rz"]) := by
  simp only [IdasInterface.init_functions, IdasInterface.getJacF, IdasInterface.getJacB,
    List.mem_append, List.mem_cons, List.mem_singleton, Prod.mk.injEq, List.not_mem_nil,
    or_false] at h
  rcases h with (((((h | h | h | h) | h) | h) | h) | h)
  · obtain ⟨rfl, rfl, -⟩ := h
    simp
  · obtain ⟨rfl, rfl, -⟩ := h
    simp
  · obtain ⟨rfl, rfl, -⟩ := h
    simp
  · obtain ⟨rfl, rfl, -⟩ := h
    simp
  · split at h
    · simp only [List.mem_singleton, Prod.mk.injEq] at h
      obtain ⟨rfl, rfl, -⟩ := h
      simp
    · cases h
  · split at h
    · simp only [List.mem_singleton, Prod.mk.injEq] at h
      obtain ⟨rfl, rfl, -⟩ := h
      simp
    · cases h
  · split at h
    · split at h
      · simp only [List.mem_singleton, Prod.mk.injEq] at h
        obtain ⟨rfl, rfl, -⟩ := h
        simp
      · cases h
    · cases h
  · split at h
    · split at h
      · simp only [List.mem_singleton, Prod.mk.injEq] at h
        obtain ⟨rfl, rfl, -⟩ := h
        simp
      · cases h
    · cases h

/-- C29: each callback evaluates its sub-function on slots that follow the
input names the sub-function was created with in `init` (or built with by
`getJacF` / `getJacB`), each name standing for the corresponding pointer:
`res` and `rhsQ` for `daeF` / `quadF`, `resB` and `rhsQB` for `daeB` /
`quadB`, `jtimes` for `jtimesF`, `jtimesB` for `jtimesB`, `djac`, `bjac` and
`psetup` for `jacF`, and `djacB`, `bjacB` and `psetupB` for `jacB`. -/
theorem callbacks_follow_created_inputs {D S : Type} [LinearOrderedField D]
    (self : IdasInterface D) (m : IdasMemory D S) (t cj : D)
    (xz xzdot rxz rxzdot rr rhsQ rqdot v Jv vB JvB : List D) (Jac JacB : DlsMat D)
    (mupper mlower : Int) (names outs : List String) :
    (("daeF", names, outs) ∈ self.init_functions →
      InvokesOn (fun fns => self.res fns m t xz xzdot rr) "res" "daeF"
        (names.map (self.slotValue m t cj xz rxz v vB))) ∧
    (("quadF", names, outs) ∈ self.init_functions →
      InvokesOn (fun fns => self.rhsQ fns m t xz rhsQ) "rhsQ" "quadF"
        (names.map (self.slotValue m t cj xz rxz v vB))) ∧
    (("daeB", names, outs) ∈ self.init_functions →
      InvokesOn (fun fns => self.resB fns m t xz rxz rxzdot rr) "resB" "daeB"
        (names.map (self.slotValue m t cj xz rxz v vB))) ∧
    (("quadB", names, outs) ∈ self.init_functions →
      InvokesOn (fun fns => self.rhsQB fns m t xz rxz rqdot) "rhsQB" "quadB"
        (names.map (self.slotValue m t cj xz rxz v vB))) ∧
    (("jtimesF", names, outs) ∈ self.init_functions →
      InvokesOn (fun fns => self.jtimes fns m t xz v Jv cj) "jtimes" "jtimesF"
        (names.map (self.slotValue m t cj xz rxz v vB))) ∧
    (("jtimesB", names, outs) ∈ self.init_functions →
      InvokesOn (fun fns => self.jtimesB fns m t xz rxz vB JvB cj) "jtimesB" "jtimesB"
        (names.map (self.slotValue m t cj xz rxz v vB))) ∧
    (("jacF", names, outs) ∈ self.init_functions →
      InvokesOn (fun fns => self.djac fns m t cj xz Jac) "djac" "jacF"
        (names.map (self.slotValue m t cj xz rxz v vB)) ∧
      InvokesOn (fun fns => self.bjac fns m mupper mlower t cj xz Jac) "bjac" "jacF"
        (names.map (self.slotValue m t cj xz rxz v vB)) ∧
      InvokesOn (fun fns => self.psetup fns m t cj xz) "psetup" "jacF"
        (names.map (self.slotValue m t cj xz rxz v vB))) ∧
    (("jacB", names, outs) ∈ self.init_functions →
      InvokesOn (fun fns => self.djacB fns m t cj xz rxz JacB) "djacB" "jacB"
        (names.map (self.slotValue m t cj xz rxz v vB)) ∧
      InvokesOn (fun fns => self.bjacB fns m mupper mlower t cj xz rxz JacB) "bjacB" "jacB"
        (names.map (self.slotValue m t cj xz rxz v vB)) ∧
      InvokesOn (fun fns => self.psetupB fns m t cj xz rxz) "psetupB" "jacB"
        (names.map (self.slotValue m t cj xz rxz v vB))) := by
  refine ⟨fun h => ?_, fun h => ?_, fun h => ?_, fun h => ?_, fun h => ?_, fun h => ?_,
    fun h => ?_, fun h => ?_⟩
  · rw [(init_functions_inputs self _ names outs h).1 rfl]
    exact res_invokesOn self m t xz xzdot rr
  · rw [(init_functions_inputs self _ names outs h).2.1 rfl]
    exact rhsQ_invokesOn self m t xz rhsQ
  · rw [(init_functions_inputs self _ names outs h).2.2.1 rfl]
    exact resB_invokesOn self m t xz rxz rxzdot rr
  · rw [(init_functions_inputs self _ names outs h).2.2.2.1 rfl]
    exact rhsQB_invokesOn self m t xz rxz rqdot
  · rw [(init_functions_inputs self _ names outs h).2.2.2.2.2.2.1 rfl]
    exact jtimes_invokesOn self m t xz v Jv cj
  · rw [(init_functions_inputs self _ names outs h).2.2.2.2.2.2.2 rfl]
    exact jtimesB_invokesOn self m t xz rxz vB JvB cj
  · rw [(init_functions_inputs self _ names outs h).2.2.2.2.1 rfl]
    exact ⟨djac_invokesOn self m t cj xz Jac, bjac_invokesOn self m mupper mlower t cj xz Jac,
      psetup_invokesOn self m t cj xz⟩
  · rw [(init_functions_inputs self _ names outs h).2.2.2.2.2.1 rfl]
    exact ⟨djacB_invokesOn self m t cj xz rxz JacB,
      bjacB_invokesOn self m mupper mlower t cj xz rxz JacB,
      psetupB_invokesOn self m t cj xz rxz⟩

theorem callbacks_follow_created_inputs_witness :
    ("jtimesB", ["t", "x", "z", "p", "rx", "rz", "rp", "fwd:rx", "fwd:rz"],
        ["fwd:rode", "fwd:ralg"]) ∈ exampleIterativeIntegrator.init_functions ∧
    InvokesOn
      (fun fns => exampleIterativeIntegrator.jtimesB fns exampleMemory 3 [5] [6] [1] [0] 2)
      "jtimesB" "jtimesB" [[3], [5], [], [], [6], [], [], [1], []] :=
  ⟨by decide,
    (callbacks_follow_created_inputs exampleIterativeIntegrator exampleMemory 3 2
      [5] [] [6] [] [] [] [] [] [] [1] [0] (fun _ _ => 0) (fun _ _ => 0) 0 0
      ["t", "x", "z", "p", "rx", "rz", "rp", "fwd:rx", "fwd:rz"]
      ["fwd:rode", "fwd:ralg"]).2.2.2.2.2.1 (by decide)⟩

/-! ## Errors of the native library -/

theorem string_append_left_cancel (a b c : String) (h : a ++ b = a ++ c) : b = c := by
  have h2 := congrArg String.data h
  simp only [String.data_append, List.append_cancel_left_eq] at h2
  exact String.ext h2

theorem idas_error_eq {D S : Type} (lib : IdasLibrary D S) (module : String) (flag : Int) :
    idas_error lib module flag =
      .CasadiException (idasErrorHeader lib module flag ++
        if (module = "IDACalcIC" ∧ (flag = lib.IDA_CONV_FAIL ∨ flag = lib.IDA_NO_RECOVERY ∨
              flag = lib.IDA_LINESEARCH_FAIL)) ∨
            (module = "IDASolve" ∧ flag = lib.IDA_ERR_FAIL) then idasErrorHints
        else "") := by
  unfold idas_error idasErrorHeader idasErrorHints
  split
  · simp only [String.append_assoc]
  · simp only [String.append_empty]

theorem idasErrorHints_ne_empty : idasErrorHints ≠ "" := by
  decide

/-- C24: `idas_error(module, flag)` throws (the model is the exception
thrown): the message starts with a header that contains the module name and
the numeric flag, and it is the header followed by the remediation hints if
and only if the module is "IDACalcIC" with one of the flags `IDA_CONV_FAIL`,
`IDA_NO_RECOVERY`, `IDA_LINESEARCH_FAIL`, or the module is "IDASolve" with the
flag `IDA_ERR_FAIL`; otherwise it is the header alone. -/
theorem idas_error_message {D S : Type} (lib : IdasLibrary D S) (module : String)
    (flag : Int) :
    (∃ a b c, idasErrorHeader lib module flag = a ++ module ++ b ++ toString flag ++ c) ∧
    (∃ rest, idas_error lib module flag =
      .CasadiException (idasErrorHeader lib module flag ++ rest)) ∧
    (idas_error lib module flag =
        .CasadiException (idasErrorHeader lib module flag ++ idasErrorHints) ↔
      (module = "IDACalcIC" ∧ (flag = lib.IDA_CONV_FAIL ∨ flag = lib.IDA_NO_RECOVERY ∨
          flag = lib.IDA_LINESEARCH_FAIL)) ∨
        (module = "IDASolve" ∧ flag = lib.IDA_ERR_FAIL)) ∧
    (idas_error lib module flag = .CasadiException (idasErrorHeader lib module flag) ↔
      ¬ ((module = "IDACalcIC" ∧ (flag = lib.IDA_CONV_FAIL ∨ flag = lib.IDA_NO_RECOVERY ∨
          flag = lib.IDA_LINESEARCH_FAIL)) ∨
        (module = "IDASolve" ∧ flag = lib.IDA_ERR_FAIL))) := by
  refine ⟨⟨"Module \"", "\" returned flag ", " (\"" ++ lib.IDAGetReturnFlagName flag ++
    "\")." ++ " Consult Idas documentation.\n", ?_⟩, ⟨_, idas_error_eq lib module flag⟩, ?_, ?_⟩
  · simp only [idasErrorHeader, String.append_assoc]
  · rw [idas_error_eq]
    constructor
    · intro h
      injection h with h
      have h2 := string_append_left_cancel _ _ _ h
      by_contra hc
      rw [if_neg hc] at h2
      exact idasErrorHints_ne_empty h2.symm
    · intro h
      rw [if_pos h]
  · rw [idas_error_eq]
    constructor
    · intro h hc
      injection h with h
      rw [if_pos hc] at h
      have h2 := string_append_left_cancel (idasErrorHeader lib module flag) idasErrorHints ""
        (by rw [String.append_empty]; exact h)
      exact idasErrorHints_ne_empty h2
    · intro h
      rw [if_neg h, String.append_empty]

theorem queries_pure {D S : Type} (lib : IdasLibrary D S) (m : IdasMemory D S) :
    Run.Queries lib m { ret := .ok (), m := m } :=
  ⟨⟨[], by simp, by simp⟩, Or.inl rfl, fun _ => rfl⟩

theorem queries_check {D S : Type} (lib : IdasLibrary D S) (fn : IdaFn D) (w : Writes)
    (module : String) (m : IdasMemory D S) (hfn : isQuery fn = true)
    (hmod : module ∈ queryModules) : Run.Queries lib m (check lib fn w module m) := by
  unfold CasADi.check
  have hcalls : (nativeCall lib fn w m).2.calls = m.calls ++ [fn] := rfl
  have hflag : (nativeCall lib fn w m).1 = (lib.native fn m).1 := rfl
  split
  next hne =>
    refine ⟨⟨[fn], hcalls, by simpa using hfn⟩, Or.inr ⟨fn, m, module, hfn, hmod, ?_, ?_⟩, ?_⟩
    · rw [← hflag]
      exact hne
    · rw [← hflag]
    · intro hall
      exact absurd (hflag.trans (hall fn m hfn)) hne
  next =>
    exact ⟨⟨[fn], hcalls, by simpa using hfn⟩, Or.inl rfl, fun _ => rfl⟩

theorem queries_andThen {D S : Type} {lib : IdasLibrary D S} {m : IdasMemory D S}
    {r : Run D S} {k : IdasMemory D S → Run D S} (h1 : Run.Queries lib m r)
    (h2 : ∀ m1, Run.Queries lib m1 (k m1)) : Run.Queries lib m (r.andThen k) := by
  cases hr : r.ret with
  | error e =>
    rw [Run.andThen_error r k e hr]
    exact h1
  | ok u =>
    rw [Run.andThen_ok r k hr]
    obtain ⟨⟨rest1, hc1, hq1⟩, _, _⟩ := h1
    obtain ⟨⟨rest2, hc2, hq2⟩, he2, hok2⟩ := h2 r.m
    refine ⟨⟨rest1 ++ rest2, ?_, ?_⟩, he2, hok2⟩
    · rw [hc2, hc1, List.append_assoc]
    · intro fn hfn
      rcases List.mem_append.mp hfn with h | h
      · exact hq1 fn h
      · exact hq2 fn h

theorem printStats_queries {D S : Type} (lib : IdasLibrary D S) (self : IdasInterface D)
    (m : IdasMemory D S) : Run.Queries lib m (self.printStats lib m) := by
  unfold IdasInterface.printStats
  apply queries_andThen
  · exact queries_check lib _ _ _ _ rfl (by decide)
  · intro m1
    split
    · exact queries_check lib _ _ _ _ rfl (by decide)
    · exact queries_check lib _ _ _ _ rfl (by decide)
    · exact queries_check lib _ _ _ _ rfl (by decide)
    · exact queries_pure lib m1

theorem advance_eq_of_step {D S : Type} [LinearOrderedField D] (lib : IdasLibrary D S)
    (self : IdasInterface D) (m : IdasMemory D S) (t : D)
    (h0 : t ≥ self.grid_front) (hf : t ≤ self.grid_back ∨ self.stop_at_end_ = false) :
    (self.advance lib m t).ret =
      ((self.advanceStep lib m t).andThen fun m1 =>
        (if self.print_stats_ then self.printStats lib m1
          else { ret := .ok (), m := m1 }).andThen fun m2 =>
            check lib .IDAGetIntegratorStats { stats := true } "IDAGetIntegratorStats"
              m2).ret ∧
    (self.advance lib m t).m =
      ((self.advanceStep lib m t).andThen fun m1 =>
        (if self.print_stats_ then self.printStats lib m1
          else { ret := .ok (), m := m1 }).andThen fun m2 =>
            check lib .IDAGetIntegratorStats { stats := true } "IDAGetIntegratorStats"
              m2).m := by
  unfold IdasInterface.advance
  rw [if_neg (not_not.mpr h0), if_neg (not_not.mpr hf)]
  cases hr : (self.advanceStep lib m t).ret with
  | error e =>
    rw [Run.andThen_error _ _ e hr]
    exact ⟨hr.symm, rfl⟩
  | ok u =>
    rw [Run.andThen_ok _ _ hr]
    exact ⟨rfl, rfl⟩

theorem advanceStep_far {D S : Type} [LinearOrderedField D] (lib : IdasLibrary D S)
    (self : IdasInterface D) (m : IdasMemory D S) (t : D) (step : IdaFn D) (name : String)
    (hfar : |m.t - t| ≥ ttol)
    (hstep : (0 < self.nrx_ ∧ step = .IDASolveF t ∧ name = "IDASolveF") ∨
      (self.nrx_ = 0 ∧ step = .IDASolve t ∧ name = "IDASolve")) :
    ∃ w, self.advanceStep lib m t =
      (checkStep lib step w name m).andThen fun m1 =>
        if 0 < self.nq_ then check lib .IDAGetQuad { q := true } "IDAGetQuad" m1
        else { ret := .ok (), m := m1 } := by
  unfold IdasInterface.advanceStep
  rw [if_pos hfar]
  rcases hstep with ⟨hn, rfl, rfl⟩ | ⟨hn, rfl, rfl⟩
  · rw [if_pos hn]
    exact ⟨_, rfl⟩
  · rw [if_neg (by omega)]
    exact ⟨_, rfl⟩

theorem advance_after_step {D S : Type} [LinearOrderedField D] (lib : IdasLibrary D S)
    (self : IdasInterface D) (m : IdasMemory D S) (t : D) (step : IdaFn D) (name : String)
    (h0 : t ≥ self.grid_front) (hf : t ≤ self.grid_back ∨ self.stop_at_end_ = false)
    (hfar : |m.t - t| ≥ ttol)
    (hstep : (0 < self.nrx_ ∧ step = .IDASolveF t ∧ name = "IDASolveF") ∨
      (self.nrx_ = 0 ∧ step = .IDASolve t ∧ name = "IDASolve")) :
    (((lib.native step m).1 ≠ lib.IDA_SUCCESS ∧ (lib.native step m).1 ≠ lib.IDA_TSTOP_RETURN) →
      (self.advance lib m t).ret = .error (idas_error lib name (lib.native step m).1) ∧
      (self.advance lib m t).m.calls = m.calls ++ [step]) ∧
    (((lib.native step m).1 = lib.IDA_SUCCESS ∨ (lib.native step m).1 = lib.IDA_TSTOP_RETURN) →
      ∃ (m1 : IdasMemory D S) (r : Run D S), m1.calls = m.calls ++ [step] ∧
        Run.Queries lib m1 r ∧ (self.advance lib m t).ret = r.ret ∧
        (self.advance lib m t).m = r.m) := by
  obtain ⟨hret, hm⟩ := advance_eq_of_step lib self m t h0 hf
  obtain ⟨w, hS⟩ := advanceStep_far lib self m t step name hfar hstep
  rw [hret, hm, hS]
  have hflag : (nativeCall lib step w m).1 = (lib.native step m).1 := rfl
  constructor
  · intro hbad
    have hc : checkStep lib step w name m =
        { ret := .error (idas_error lib name (lib.native step m).1),
          m := (nativeCall lib step w m).2 } := by
      unfold checkStep
      rw [if_pos (by rw [hflag]; exact hbad)]
      rfl
    rw [hc]
    exact ⟨rfl, rfl⟩
  · intro hgood
    have hc : checkStep lib step w name m =
        { ret := .ok (), m := (nativeCall lib step w m).2 } := by
      unfold checkStep
      rw [if_neg (by
        rw [hflag]
        intro h
        rcases hgood with hg | hg
        · exact h.1 hg
        · exact h.2 hg)]
    rw [hc]
    refine ⟨(nativeCall lib step w m).2, _, rfl, ?_, rfl, rfl⟩
    show Run.Queries lib (nativeCall lib step w m).2
      ((if 0 < self.nq_ then
          check lib .IDAGetQuad { q := true } "IDAGetQuad" (nativeCall lib step w m).2
        else { ret := .ok (), m := (nativeCall lib step w m).2 }).andThen fun m1 =>
        (if self.print_stats_ then self.printStats lib m1
          else { ret := .ok (), m := m1 }).andThen fun m2 =>
            check lib .IDAGetIntegratorStats { stats := true } "IDAGetIntegratorStats" m2)
    apply queries_andThen
    · split
      · exact queries_check lib _ _ _ _ rfl (by decide)
      · exact queries_pure lib _
    · intro m1
      apply queries_andThen
      · split
        · exact printStats_queries lib self m1
        · exact queries_pure lib m1
      · intro m2
        exact queries_check lib _ _ _ _ rfl (by decide)

theorem query_not_stepping {D : Type} (fn : IdaFn D) (h : isQuery fn = true) :
    isStepping fn = false := by
  cases fn <;> first | rfl | cases h

/-- C27: for an `advance` call that passes both range checks with
`|m.t - t| >= 1e-9`, let `step` be the taped `IDASolveF` when `nrx_ > 0` and
the untaped `IDASolve` when `nrx_ = 0`.  The calls that `advance` makes are
`step` followed by queries only, so exactly one stepping call is made.  When
`step` returns a code other than `IDA_SUCCESS` and `IDA_TSTOP_RETURN`,
`advance` throws the error of `idas_error` with the name of the stepping call
and the returned code.  Otherwise `advance` throws only the error of a later
query that reported a failure, and returns normally when every query
succeeds. -/
theorem advance_steps_once {D S : Type} [LinearOrderedField D] (lib : IdasLibrary D S)
    (self : IdasInterface D) (m : IdasMemory D S) (t : D) (step : IdaFn D) (name : String)
    (h0 : t ≥ self.grid_front) (hf : t ≤ self.grid_back ∨ self.stop_at_end_ = false)
    (hfar : |m.t - t| ≥ ttol)
    (hstep : (0 < self.nrx_ ∧ step = .IDASolveF t ∧ name = "IDASolveF") ∨
      (self.nrx_ = 0 ∧ step = .IDASolve t ∧ name = "IDASolve")) :
    (∃ rest, (self.advance lib m t).m.calls = m.calls ++ step :: rest ∧
      ∀ fn ∈ rest, isQuery fn = true) ∧
    (self.advance lib m t).m.calls.countP isStepping = m.calls.countP isStepping + 1 ∧
    (((lib.native step m).1 ≠ lib.IDA_SUCCESS ∧ (lib.native step m).1 ≠ lib.IDA_TSTOP_RETURN) →
      (self.advance lib m t).ret = .error (idas_error lib name (lib.native step m).1)) ∧
    (((lib.native step m).1 = lib.IDA_SUCCESS ∨ (lib.native step m).1 = lib.IDA_TSTOP_RETURN) →
      ((self.advance lib m t).ret = .ok () ∨
        ∃ (fn : IdaFn D) (m1 : IdasMemory D S) (module : String),
          isQuery fn = true ∧ module ∈ queryModules ∧
          (lib.native fn m1).1 ≠ lib.IDA_SUCCESS ∧
          (self.advance lib m t).ret = .error (idas_error lib module (lib.native fn m1).1)) ∧
      ((∀ (fn : IdaFn D) (m1 : IdasMemory D S), isQuery fn = true →
          (lib.native fn m1).1 = lib.IDA_SUCCESS) →
        (self.advance lib m t).ret = .ok ())) := by
  obtain ⟨hbad, hgood⟩ := advance_after_step lib self m t step name h0 hf hfar hstep
  have hisstep : isStepping step = true := by
    rcases hstep with ⟨_, rfl, _⟩ | ⟨_, rfl, _⟩ <;> rfl
  have hcalls : ∃ rest, (self.advance lib m t).m.calls = m.calls ++ step :: rest ∧
      ∀ fn ∈ rest, isQuery fn = true := by
    by_cases hb : (lib.native step m).1 ≠ lib.IDA_SUCCESS ∧
        (lib.native step m).1 ≠ lib.IDA_TSTOP_RETURN
    · exact ⟨[], (hbad hb).2, by simp⟩
    · have hg : (lib.native step m).1 = lib.IDA_SUCCESS ∨
          (lib.native step m).1 = lib.IDA_TSTOP_RETURN := by
        by_contra hc
        exact hb ⟨fun h => hc (Or.inl h), fun h => hc (Or.inr h)⟩
      obtain ⟨m1, r, hm1, ⟨⟨rest, hrest, hq⟩, _, _⟩, _, hm⟩ := hgood hg
      refine ⟨rest, ?_, hq⟩
      rw [hm, hrest, hm1, List.append_assoc, List.singleton_append]
  refine ⟨hcalls, ?_, fun hb => (hbad hb).1, ?_⟩
  · obtain ⟨rest, hrest, hq⟩ := hcalls
    have hzero : rest.countP isStepping = 0 := by
      rw [List.countP_eq_zero]
      intro fn hfn
      rw [query_not_stepping fn (hq fn hfn)]
      decide
    rw [hrest, List.countP_append, List.countP_cons, hzero, hisstep]
    simp
  · intro hg
    obtain ⟨m1, r, _, ⟨_, he, hok⟩, hret, _⟩ := hgood hg
    rw [hret]
    exact ⟨he, hok⟩

theorem advance_steps_once_witness :
    (1 : ℚ) ≥ exampleIntegrator.grid_front ∧
    ((1 : ℚ) ≤ exampleIntegrator.grid_back ∨ exampleIntegrator.stop_at_end_ = false) ∧
    |exampleMemory.t - (1 : ℚ)| ≥ ttol ∧
    (exampleIntegrator.advance exampleLibrary exampleMemory 1).m.calls.countP isStepping =
      exampleMemory.calls.countP isStepping + 1 :=
  ⟨by simp [IdasInterface.grid_front, exampleIntegrator],
    by simp [IdasInterface.grid_back, exampleIntegrator],
    by norm_num [exampleMemory, ttol],
    (advance_steps_once exampleLibrary exampleIntegrator exampleMemory 1 (.IDASolveF 1)
      "IDASolveF"
      (by simp [IdasInterface.grid_front, exampleIntegrator])
      (by simp [IdasInterface.grid_back, exampleIntegrator])
      (by norm_num [exampleMemory, ttol])
      (Or.inl ⟨by decide, rfl, rfl⟩)).2.1⟩

/-- C25: when the stepping call of `advance` returns `IDA_ERR_FAIL`, the
error thrown carries the flag; with untaped stepping (`nrx_ = 0`) the message
is the header for the module "IDASolve" followed by the common-cause hints,
but with taped stepping (`nrx_ > 0`) it is the header for the module
"IDASolveF" alone, without the hints. -/
theorem advance_error_test_failure {D S : Type} [LinearOrderedField D]
    (lib : IdasLibrary D S) (self : IdasInterface D) (m : IdasMemory D S) (t : D)
    (h0 : t ≥ self.grid_front) (hf : t ≤ self.grid_back ∨ self.stop_at_end_ = false)
    (hfar : |m.t - t| ≥ ttol) (hs : lib.IDA_ERR_FAIL ≠ lib.IDA_SUCCESS)
    (ht : lib.IDA_ERR_FAIL ≠ lib.IDA_TSTOP_RETURN) :
    (self.nrx_ = 0 → (lib.native (.IDASolve t) m).1 = lib.IDA_ERR_FAIL →
      (self.advance lib m t).ret =
        .error (.CasadiException
          (idasErrorHeader lib "IDASolve" lib.IDA_ERR_FAIL ++ idasErrorHints))) ∧
    (0 < self.nrx_ → (lib.native (.IDASolveF t) m).1 = lib.IDA_ERR_FAIL →
      (self.advance lib m t).ret =
        .error (.CasadiException (idasErrorHeader lib "IDASolveF" lib.IDA_ERR_FAIL))) := by
  constructor
  · intro hn hflag
    have h := (advance_after_step lib self m t (.IDASolve t) "IDASolve" h0 hf hfar
      (Or.inr ⟨hn, rfl, rfl⟩)).1 (by rw [hflag]; exact ⟨hs, ht⟩)
    rw [h.1, hflag, idas_error_eq, if_pos (Or.inr ⟨rfl, rfl⟩)]
  · intro hn hflag
    have h := (advance_after_step lib self m t (.IDASolveF t) "IDASolveF" h0 hf hfar
      (Or.inl ⟨hn, rfl, rfl⟩)).1 (by rw [hflag]; exact ⟨hs, ht⟩)
    have hname : ¬ (("IDASolveF" = "IDACalcIC" ∧
        (lib.IDA_ERR_FAIL = lib.IDA_CONV_FAIL ∨ lib.IDA_ERR_FAIL = lib.IDA_NO_RECOVERY ∨
          lib.IDA_ERR_FAIL = lib.IDA_LINESEARCH_FAIL)) ∨
        ("IDASolveF" = "IDASolve" ∧ lib.IDA_ERR_FAIL = lib.IDA_ERR_FAIL)) := by
      rintro (⟨h1, _⟩ | ⟨h1, _⟩)
      · exact absurd h1 (by decide)
      · exact absurd h1 (by decide)
    rw [h.1, hflag, idas_error_eq, if_neg hname, String.append_empty]

theorem advance_error_test_failure_witness :
    ((failingLibrary isStepping (-3)).native (.IDASolveF 1) exampleMemory).1 =
      (failingLibrary isStepping (-3)).IDA_ERR_FAIL ∧
    (exampleIntegrator.advance (failingLibrary isStepping (-3)) exampleMemory 1).ret =
      .error (.CasadiException
        "Module \"IDASolveF\" returned flag -3 (\"IDA_FLAG\"). Consult Idas documentation.\n") ∧
    (exampleForwardIntegrator.advance (failingLibrary isStepping (-3)) exampleMemory 1).ret =
      .error (.CasadiException
        ("Module \"IDASolve\" returned flag -3 (\"IDA_FLAG\"). Consult Idas documentation.\n" ++
          idasErrorHints)) :=
  ⟨rfl,
    (advance_error_test_failure (failingLibrary isStepping (-3)) exampleIntegrator
      exampleMemory 1
      (by simp [IdasInterface.grid_front, exampleIntegrator])
      (by simp [IdasInterface.grid_back, exampleIntegrator])
      (by norm_num [exampleMemory, ttol])
      (by decide) (by decide)).2 (by decide) rfl,
    (advance_error_test_failure (failingLibrary isStepping (-3)) exampleForwardIntegrator
      exampleMemory 1
      (by simp [IdasInterface.grid_front, exampleForwardIntegrator, exampleIntegrator])
      (by simp [IdasInterface.grid_back, exampleForwardIntegrator, exampleIntegrator])
      (by norm_num [exampleMemory, ttol])
      (by decide) (by decide)).1 rfl rfl⟩

/-- C23: `init_memory` does not abort when `IDASetMaxNumSteps` reports a
failure, nor when `IDAInit` does: with a library in which one of these calls
returns -1 and every other call succeeds, the call is made and `init_memory`
returns normally. -/
theorem init_memory_ignores_failures :
    (((failingLibrary isSetMaxNumSteps (-1)).native .IDASetMaxNumSteps exampleMemory).1 ≠
        (failingLibrary isSetMaxNumSteps (-1)).IDA_SUCCESS ∧
      (exampleIntegrator.init_memory (failingLibrary isSetMaxNumSteps (-1))
        exampleMemory).m.calls.countP isSetMaxNumSteps = 1 ∧
      (exampleIntegrator.init_memory (failingLibrary isSetMaxNumSteps (-1))
        exampleMemory).ret = .ok ()) ∧
    (((failingLibrary isIdaInit (-1)).native (.IDAInit 0) exampleMemory).1 ≠
        (failingLibrary isIdaInit (-1)).IDA_SUCCESS ∧
      (exampleIntegrator.init_memory (failingLibrary isIdaInit (-1))
        exampleMemory).m.calls.countP isIdaInit = 1 ∧
      (exampleIntegrator.init_memory (failingLibrary isIdaInit (-1))
        exampleMemory).ret = .ok ()) := by
  refine ⟨⟨by decide, rfl, rfl⟩, ⟨by decide, rfl, rfl⟩⟩

/-! ## The two flags of the memory -/

theorem satisfy_andThen {D S : Type} {P : Bool → Bool → Prop} {r : Run D S}
    {k : IdasMemory D S → Run D S} (h1 : FlagsSatisfy P r.m)
    (h2 : ∀ m1, FlagsSatisfy P m1 → FlagsSatisfy P (k m1).m) :
    FlagsSatisfy P (r.andThen k).m := by
  cases hr : r.ret with
  | error e =>
    rw [Run.andThen_error r k e hr]
    exact h1
  | ok u =>
    rw [Run.andThen_ok r k hr]
    exact h2 r.m h1

theorem satisfy_check {D S : Type} (P : Bool → Bool → Prop) (lib : IdasLibrary D S)
    (fn : IdaFn D) (w : Writes) (module : String) (m : IdasMemory D S)
    (h : FlagsSatisfy P m) : FlagsSatisfy P (check lib fn w module m).m := by
  unfold CasADi.check
  split <;> exact h

theorem satisfy_checkStep {D S : Type} (P : Bool → Bool → Prop) (lib : IdasLibrary D S)
    (fn : IdaFn D) (w : Writes) (module : String) (m : IdasMemory D S)
    (h : FlagsSatisfy P m) : FlagsSatisfy P (checkStep lib fn w module m).m := by
  unfold checkStep
  split <;> exact h

theorem satisfy_checkNegative {D S : Type} (P : Bool → Bool → Prop) (lib : IdasLibrary D S)
    (fn : IdaFn D) (w : Writes) (module : String) (m : IdasMemory D S)
    (h : FlagsSatisfy P m) : FlagsSatisfy P (checkNegative lib fn w module m).m := by
  unfold checkNegative
  split <;> exact h

theorem satisfy_unchecked {D S : Type} (P : Bool → Bool → Prop) (lib : IdasLibrary D S)
    (fn : IdaFn D) (w : Writes) (m : IdasMemory D S) (h : FlagsSatisfy P m) :
    FlagsSatisfy P (unchecked lib fn w m).m :=
  h

theorem satisfy_assertFunction {D S : Type} (P : Bool → Bool → Prop) (self : IdasInterface D)
    (name msg : String) (m : IdasMemory D S) (h : FlagsSatisfy P m) :
    FlagsSatisfy P (assertFunction self name msg m).m := by
  unfold assertFunction
  split <;> exact h

theorem reset_satisfy {D S : Type} [LinearOrderedField D] (P : Bool → Bool → Prop)
    (hP : ∀ a b, P a b → P true b) (lib : IdasLibrary D S) (self : IdasInterface D)
    (m : IdasMemory D S) (t : D) (x z p : List D) (h : FlagsSatisfy P m) :
    FlagsSatisfy P (self.reset lib m t x z p).m := by
  have hstart : FlagsSatisfy P (SundialsInterface.reset self m t x z p) := h
  have hset : ∀ m1 : IdasMemory D S, FlagsSatisfy P m1 →
      FlagsSatisfy P { m1 with isInitTaping := true } := fun m1 h1 => hP _ _ h1
  unfold IdasInterface.reset IdasInterface.initTaping IdasInterface.correctInitialConditions
    IdasInterface.setStopTime
  repeat' first
    | with_reducible assumption
    | with_reducible apply satisfy_andThen
    | intro (_ : IdasMemory D S) (_ : FlagsSatisfy _ _)
    | with_reducible apply satisfy_check
    | with_reducible apply hset
    | split

theorem linsolB_satisfy {D S : Type} [LinearOrderedField D] (P : Bool → Bool → Prop)
    (lib : IdasLibrary D S) (self : IdasInterface D) (m : IdasMemory D S)
    (h : FlagsSatisfy P m) :
    FlagsSatisfy P (self.initDenseLinsolB lib m).m ∧
    FlagsSatisfy P (self.initBandedLinsolB lib m).m ∧
    FlagsSatisfy P (self.initIterativeLinsolB lib m).m ∧
    FlagsSatisfy P (self.initUserDefinedLinsolB lib m).m := by
  unfold IdasInterface.initDenseLinsolB IdasInterface.initBandedLinsolB
    IdasInterface.initIterativeLinsolB IdasInterface.initUserDefinedLinsolB
  refine ⟨?_, ?_, ?_, ?_⟩ <;>
  repeat' first
    | with_reducible assumption
    | with_reducible apply satisfy_andThen
    | intro (_ : IdasMemory D S) (_ : FlagsSatisfy _ _)
    | with_reducible apply satisfy_check
    | with_reducible apply satisfy_unchecked
    | with_reducible apply satisfy_assertFunction
    | split

theorem createB_satisfy {D S : Type} [LinearOrderedField D] (P : Bool → Bool → Prop)
    (hP : ∀ a b, P a b → P a true) (lib : IdasLibrary D S) (self : IdasInterface D)
    (m : IdasMemory D S) (h : FlagsSatisfy P m) : FlagsSatisfy P (self.createB lib m).m := by
  have hset : ∀ m1 : IdasMemory D S, FlagsSatisfy P m1 →
      FlagsSatisfy P { m1 with isInitAdj := true } := fun m1 h1 => hP _ _ h1
  unfold IdasInterface.createB
  repeat' first
    | with_reducible assumption
    | with_reducible apply satisfy_andThen
    | intro (_ : IdasMemory D S) (_ : FlagsSatisfy _ _)
    | with_reducible apply satisfy_check
    | with_reducible apply satisfy_unchecked
    | with_reducible apply hset
    | with_reducible exact (linsolB_satisfy P lib self _ (by assumption)).1
    | with_reducible exact (linsolB_satisfy P lib self _ (by assumption)).2.1
    | with_reducible exact (linsolB_satisfy P lib self _ (by assumption)).2.2.1
    | with_reducible exact (linsolB_satisfy P lib self _ (by assumption)).2.2.2
    | split

theorem resetB_satisfy {D S : Type} [LinearOrderedField D] (P : Bool → Bool → Prop)
    (hP : ∀ a b, P a b → P a true) (lib : IdasLibrary D S) (self : IdasInterface D)
    (m : IdasMemory D S) (t : D) (rx rz rp : List D) (h : FlagsSatisfy P m) :
    FlagsSatisfy P (self.resetB lib m t rx rz rp).m := by
  have hstart : FlagsSatisfy P (SundialsInterface.resetB self m t rx rz rp) := h
  unfold IdasInterface.resetB IdasInterface.reInitB
  repeat' first
    | with_reducible assumption
    | with_reducible apply satisfy_andThen
    | intro (_ : IdasMemory D S) (_ : FlagsSatisfy _ _)
    | with_reducible apply satisfy_check
    | with_reducible apply createB_satisfy P hP
    | split

theorem advance_satisfy {D S : Type} [LinearOrderedField D] (P : Bool → Bool → Prop)
    (lib : IdasLibrary D S) (self : IdasInterface D) (m : IdasMemory D S) (t : D)
    (h : FlagsSatisfy P m) : FlagsSatisfy P (self.advance lib m t).m := by
  have hstep : FlagsSatisfy P (self.advanceStep lib m t).m := by
    unfold IdasInterface.advanceStep
    repeat' first
      | with_reducible assumption
      | with_reducible apply satisfy_andThen
      | intro (_ : IdasMemory D S) (_ : FlagsSatisfy _ _)
      | with_reducible apply satisfy_check
      | with_reducible apply satisfy_checkStep
      | split
  unfold IdasInterface.advance IdasInterface.printStats
  repeat' first
    | with_reducible assumption
    | with_reducible apply satisfy_andThen
    | intro (_ : IdasMemory D S) (_ : FlagsSatisfy _ _)
    | with_reducible apply satisfy_check
    | split

theorem retreat_satisfy {D S : Type} [LinearOrderedField D] (P : Bool → Bool → Prop)
    (lib : IdasLibrary D S) (self : IdasInterface D) (m : IdasMemory D S) (t : D)
    (h : FlagsSatisfy P m) : FlagsSatisfy P (self.retreat lib m t).m := by
  have hstep : FlagsSatisfy P (self.retreatStep lib m t).m := by
    unfold IdasInterface.retreatStep
    repeat' first
      | with_reducible assumption
      | with_reducible apply satisfy_andThen
      | intro (_ : IdasMemory D S) (_ : FlagsSatisfy _ _)
      | with_reducible apply satisfy_check
      | with_reducible apply satisfy_checkNegative
      | split
  unfold IdasInterface.retreat
  repeat' first
    | with_reducible assumption
    | with_reducible apply satisfy_check
    | split

theorem applyOp_satisfy {D S : Type} [LinearOrderedField D] (P : Bool → Bool → Prop)
    (hT : ∀ a b, P a b → P true b) (lib : IdasLibrary D S) (self : IdasInterface D)
    (m : IdasMemory D S) (op : MemoryOp D)
    (hB : op.isResetB = true → ∀ a b, P a b → P a true) (h : FlagsSatisfy P m) :
    FlagsSatisfy P (self.applyOp lib m op) := by
  cases op with
  | reset t x z p => exact reset_satisfy P hT lib self m t x z p h
  | advance t => exact advance_satisfy P lib self m t h
  | resetB t rx rz rp => exact resetB_satisfy P (hB rfl) lib self m t rx rz rp h
  | retreat t => exact retreat_satisfy P lib self m t h

theorem applyOps_satisfy {D S : Type} [LinearOrderedField D] (P : Bool → Bool → Prop)
    (hT : ∀ a b, P a b → P true b) (lib : IdasLibrary D S) (self : IdasInterface D)
    (ops : List (MemoryOp D))
    (hB : (∃ op ∈ ops, op.isResetB = true) → ∀ a b, P a b → P a true) (m : IdasMemory D S)
    (h : FlagsSatisfy P m) : FlagsSatisfy P (self.applyOps lib ops m) := by
  induction ops generalizing m with
  | nil => exact h
  | cons op rest ih =>
    exact ih (fun ⟨o, ho, hr⟩ => hB ⟨o, List.mem_cons_of_mem _ ho, hr⟩) (self.applyOp lib m op)
      (applyOp_satisfy P hT lib self m op
        (fun hr => hB ⟨op, List.mem_cons_self _ _, hr⟩) h)

theorem applyOps_append {D S : Type} [LinearOrderedField D] (lib : IdasLibrary D S)
    (self : IdasInterface D) (pre post : List (MemoryOp D)) (m : IdasMemory D S) :
    self.applyOps lib (pre ++ post) m = self.applyOps lib post (self.applyOps lib pre m) := by
  unfold IdasInterface.applyOps
  rw [List.foldl_append]

/-- C28 (as stated) fails: on the example integrator (`nrx_ = 1`) with
a library that accepts every call, a `resetB` call made right after
`init_memory` returns leaves `isInitAdj` true while `isInitTaping` is false. -/
theorem resetB_before_reset_counterexample :
    (exampleIntegrator.init_memory exampleLibrary exampleMemory).ret = .ok () ∧
    (exampleIntegrator.applyOps exampleLibrary [.resetB 1 [0] [] []]
      (exampleIntegrator.init_memory exampleLibrary exampleMemory).m).isInitAdj = true ∧
    (exampleIntegrator.applyOps exampleLibrary [.resetB 1 [0] [] []]
      (exampleIntegrator.init_memory exampleLibrary exampleMemory).m).isInitTaping = false :=
  ⟨rfl, rfl, rfl⟩

/-- C28 (amended): for an integrator with `nrx_ > 0`, in every state reached
from `init_memory` by calls of `reset`, `advance`, `resetB` and `retreat`
(each made on the memory the previous call left, whether it returned or
threw) in which no `resetB` call comes before a `reset` call that returned
normally, `isInitAdj = true` implies `isInitTaping = true`: before that
`reset` call `isInitAdj` is false, and after it `isInitTaping` is true.  In any
sequence of calls from any memory, neither flag returns to false once set. -/
theorem backward_flag_implies_taping {D S : Type} [LinearOrderedField D]
    (lib : IdasLibrary D S) (self : IdasInterface D) (m0 : IdasMemory D S)
    (hinit : (self.init_memory lib m0).ret = .ok ()) (hnrx : 0 < self.nrx_) :
    (∀ pre : List (MemoryOp D), (∀ op ∈ pre, op.isResetB = false) →
      ((self.applyOps lib pre (self.init_memory lib m0).m).isInitAdj = false) ∧
      ∀ (t : D) (x z p : List D) (post : List (MemoryOp D)),
        (self.reset lib (self.applyOps lib pre (self.init_memory lib m0).m) t x z p).ret =
          .ok () →
        (self.applyOps lib (pre ++ .reset t x z p :: post)
          (self.init_memory lib m0).m).isInitTaping = true) ∧
    (∀ (ops : List (MemoryOp D)) (m : IdasMemory D S),
      (m.isInitTaping = true → (self.applyOps lib ops m).isInitTaping = true) ∧
      (m.isInitAdj = true → (self.applyOps lib ops m).isInitAdj = true)) := by
  have hmono : ∀ (ops : List (MemoryOp D)) (m : IdasMemory D S),
      (m.isInitTaping = true → (self.applyOps lib ops m).isInitTaping = true) ∧
      (m.isInitAdj = true → (self.applyOps lib ops m).isInitAdj = true) := by
    intro ops m
    exact applyOps_satisfy
      (fun a b => (m.isInitTaping = true → a = true) ∧ (m.isInitAdj = true → b = true))
      (fun a b h => ⟨fun _ => rfl, h.2⟩) lib self ops
      (fun _ a b h => ⟨h.1, fun _ => rfl⟩) m ⟨id, id⟩
  refine ⟨fun pre hpre => ⟨?_, ?_⟩, hmono⟩
  · exact applyOps_satisfy (fun _ b => b = false) (fun a b h => h) lib self pre
      (fun ⟨op, hop, hr⟩ => by rw [hpre op hop] at hr; cases hr)
      (self.init_memory lib m0).m (init_memory_flags lib self m0 hinit).2
  · intro t x z p post hok
    rw [applyOps_append]
    refine (hmono post _).1 ?_
    show (self.reset lib (self.applyOps lib pre (self.init_memory lib m0).m) t x z p).m.isInitTaping
      = true
    cases htap : (self.applyOps lib pre (self.init_memory lib m0).m).isInitTaping with
    | true =>
      exact ((reset_spec lib self _ t x z p).2.2.2.1 htap).1
    | false =>
      exact ((reset_spec lib self _ t x z p).2.2.2.2 hnrx htap hok).1

theorem backward_flag_implies_taping_witness :
    (exampleIntegrator.init_memory exampleLibrary exampleMemory).ret = .ok () ∧
    0 < exampleIntegrator.nrx_ ∧
    (exampleIntegrator.applyOps exampleLibrary
      ([] ++ .reset 0 [1] [] [] :: [.advance 1, .resetB 1 [0] [] [], .retreat 0])
      (exampleIntegrator.init_memory exampleLibrary exampleMemory).m).isInitTaping = true :=
  ⟨rfl, by decide,
    ((backward_flag_implies_taping exampleLibrary exampleIntegrator exampleMemory rfl
      (by decide)).1 [] (by decide)).2 0 [1] [] []
      [.advance 1, .resetB 1 [0] [] [], .retreat 0] rfl⟩

/-! ## Dense and banded Jacobians -/

theorem foldl_set_other {D : Type} (keep : Nat → Bool) (row : Nat → Nat) (val : Nat → D)
    (cc : Nat) (els : List Nat) (J : DlsMat D) (i j : Nat)
    (h : j ≠ cc ∨ ∀ el ∈ els, keep el = true → row el ≠ i) :
    (els.foldl (fun J1 el => if keep el = true then J1.set (row el) cc (val el) else J1) J) i j =
      J i j := by
  induction els generalizing J with
  | nil => rfl
  | cons a rest ih =>
    rw [List.foldl_cons, ih]
    · split
      next hk =>
        unfold DlsMat.set
        rw [if_neg]
        rintro ⟨hi, hj⟩
        rcases h with h | h
        · exact h hj
        · exact h a (List.mem_cons_self _ _) hk hi.symm
      next => rfl
    · rcases h with h | h
      · exact Or.inl h
      · exact Or.inr fun el hel => h el (List.mem_cons_of_mem _ hel)

theorem foldl_set_hit {D : Type} (keep : Nat → Bool) (row : Nat → Nat) (val : Nat → D)
    (cc : Nat) (els : List Nat) (J : DlsMat D) (el : Nat)
    (hpair : els.Pairwise fun a b => row a ≠ row b) (hel : el ∈ els) (hk : keep el = true) :
    (els.foldl (fun J1 el => if keep el = true then J1.set (row el) cc (val el) else J1) J)
      (row el) cc = val el := by
  induction els generalizing J with
  | nil => cases hel
  | cons a rest ih =>
    rw [List.foldl_cons]
    rw [List.pairwise_cons] at hpair
    rcases List.mem_cons.mp hel with rfl | hmem
    · rw [foldl_set_other keep row val cc rest _ (row el) cc
        (Or.inr fun b hb _ => (hpair.1 b hb).symm), if_pos hk]
      unfold DlsMat.set
      rw [if_pos ⟨rfl, rfl⟩]
    · exact ih _ hpair.2 hmem

theorem foldl_columns_other {D : Type} (keep : Nat → Nat → Bool) (row : Nat → Nat)
    (val : Nat → D) (els : Nat → List Nat) (cols : List Nat) (J : DlsMat D) (i j : Nat)
    (h : ∀ cc ∈ cols, j ≠ cc ∨ ∀ el ∈ els cc, keep cc el = true → row el ≠ i) :
    (cols.foldl
      (fun J0 cc =>
        (els cc).foldl
          (fun J1 el => if keep cc el = true then J1.set (row el) cc (val el) else J1) J0)
      J) i j = J i j := by
  induction cols generalizing J with
  | nil => rfl
  | cons c rest ih =>
    rw [List.foldl_cons, ih _ fun cc hcc => h cc (List.mem_cons_of_mem _ hcc)]
    exact foldl_set_other (keep c) row val c (els c) J i j (h c (List.mem_cons_self _ _))

theorem foldl_columns_hit {D : Type} (keep : Nat → Nat → Bool) (row : Nat → Nat)
    (val : Nat → D) (els : Nat → List Nat) (cols : List Nat) (J : DlsMat D) (cc el : Nat)
    (hnodup : cols.Nodup) (hcc : cc ∈ cols)
    (hpair : (els cc).Pairwise fun a b => row a ≠ row b) (hel : el ∈ els cc)
    (hk : keep cc el = true) :
    (cols.foldl
      (fun J0 cc =>
        (els cc).foldl
          (fun J1 el => if keep cc el = true then J1.set (row el) cc (val el) else J1) J0)
      J) (row el) cc = val el := by
  induction cols generalizing J with
  | nil => cases hcc
  | cons c rest ih =>
    rw [List.foldl_cons]
    rw [List.nodup_cons] at hnodup
    by_cases hc : cc = c
    · subst hc
      rw [foldl_columns_other keep row val els rest _ (row el) cc
        fun c1 hc1 => Or.inl fun h => hnodup.1 (h ▸ hc1)]
      exact foldl_set_hit (keep cc) row val cc (els cc) J el hpair hel hk
    · rcases List.mem_cons.mp hcc with h | h
      · exact absurd h hc
      · exact ih _ hnodup.2 h

theorem patternLoop_spec {D : Type} [LinearOrderedField D] (keep : Nat → Nat → Bool)
    (sp : Sparsity) (jac : List D) (Jac : DlsMat D) (hv : sp.Valid) :
    (∀ cc el, sp.InColumn cc el → keep cc el = true →
      patternLoop keep sp jac Jac (sp.row.getD el 0) cc = jac.getD el 0) ∧
    (∀ i j, (¬ ∃ el, sp.InColumn j el ∧ keep j el = true ∧ sp.row.getD el 0 = i) →
      patternLoop keep sp jac Jac i j = Jac i j) := by
  have hmem : ∀ cc el, el ∈ List.range' (sp.colind.getD cc 0)
      (sp.colind.getD (cc + 1) 0 - sp.colind.getD cc 0) ↔
      sp.colind.getD cc 0 ≤ el ∧ el < sp.colind.getD (cc + 1) 0 := by
    intro cc el
    rw [List.mem_range'_1]
    omega
  constructor
  · intro cc el ⟨hcc, hlo, hhi⟩ hk
    unfold patternLoop
    refine foldl_columns_hit keep (fun e => sp.row.getD e 0) (fun e => jac.getD e 0)
      (fun c => List.range' (sp.colind.getD c 0)
        (sp.colind.getD (c + 1) 0 - sp.colind.getD c 0))
      (List.range sp.size2) Jac cc el (List.nodup_range _) (List.mem_range.mpr hcc) ?_
      ((hmem cc el).mpr ⟨hlo, hhi⟩) hk
    refine List.Pairwise.imp_of_mem ?_ (List.pairwise_lt_range' _ _)
    intro a b ha hb hab
    exact Nat.ne_of_lt (hv.2.2.2.2 cc a b hcc ((hmem cc a).mp ha).1 hab ((hmem cc b).mp hb).2)
  · intro i j hno
    unfold patternLoop
    refine foldl_columns_other keep (fun e => sp.row.getD e 0) (fun e => jac.getD e 0)
      (fun c => List.range' (sp.colind.getD c 0)
        (sp.colind.getD (c + 1) 0 - sp.colind.getD c 0))
      (List.range sp.size2) Jac i j ?_
    intro cc hcc
    by_cases hj : j = cc
    · subst hj
      refine Or.inr fun el hel hk hrow => hno ⟨el, ⟨List.mem_range.mp hcc, ?_⟩, hk, hrow⟩
      exact (hmem j el).mp hel
    · exact Or.inl hj

theorem denseLoop_eq {D : Type} [LinearOrderedField D] (sp : Sparsity) (jac : List D)
    (Jac : DlsMat D) : denseLoop sp jac Jac = patternLoop (fun _ _ => true) sp jac Jac := by
  simp only [denseLoop, patternLoop, if_true]

theorem bandLoop_eq {D : Type} [LinearOrderedField D] (sp : Sparsity) (mupper mlower : Int)
    (jac : List D) (Jac : DlsMat D) :
    bandLoop sp mupper mlower jac Jac = patternLoop (sp.inBand mupper mlower) sp jac Jac := by
  simp only [bandLoop, patternLoop, Sparsity.inBand, decide_eq_true_eq]

theorem djac_success {D S : Type} [LinearOrderedField D] (fns : Functions D)
    (self : IdasInterface D) (m : IdasMemory D S) (t cj : D) (xz : List D) (Jac : DlsMat D)
    (h : (self.djac fns m t cj xz Jac).exit = .returned 0) :
    (∃ outs, fns.calc_function "jacF" (self.argsJacF m t cj xz) = .ok outs ∧
      (self.djac fns m t cj xz Jac).out.2 = writeAt m.jac 0 (outs.getD 0 [])) ∧
    (self.djac fns m t cj xz Jac).out.1 =
      denseLoop (fns.sparsity_out "jacF") (self.djac fns m t cj xz Jac).out.2 Jac := by
  revert h
  unfold IdasInterface.djac
  cases fns.calc_function "jacF" (self.argsJacF m t cj xz) with
  | error e => cases e <;> simp [tryCatch]
  | ok outs =>
    cases self.get_function "jacF" with
    | error e => cases e <;> simp [tryCatch]
    | ok u => simp [tryCatch]

theorem djacB_success {D S : Type} [LinearOrderedField D] (fns : Functions D)
    (self : IdasInterface D) (m : IdasMemory D S) (t cj : D) (xz rxz : List D)
    (JacB : DlsMat D) (h : (self.djacB fns m t cj xz rxz JacB).exit = .returned 0) :
    (∃ outs, fns.calc_function "jacB" (self.argsJacB m t cj xz rxz) = .ok outs ∧
      (self.djacB fns m t cj xz rxz JacB).out.2 = writeAt m.jacB 0 (outs.getD 0 [])) ∧
    (self.djacB fns m t cj xz rxz JacB).out.1 =
      denseLoop (fns.sparsity_out "jacB") (self.djacB fns m t cj xz rxz JacB).out.2 JacB := by
  revert h
  unfold IdasInterface.djacB
  cases fns.calc_function "jacB" (self.argsJacB m t cj xz rxz) with
  | error e => cases e <;> simp [tryCatch]
  | ok outs =>
    cases self.get_function "jacB" with
    | error e => cases e <;> simp [tryCatch]
    | ok u => simp [tryCatch]

theorem bjac_success {D S : Type} [LinearOrderedField D] (fns : Functions D)
    (self : IdasInterface D) (m : IdasMemory D S) (mupper mlower : Int) (t cj : D)
    (xz : List D) (Jac : DlsMat D)
    (h : (self.bjac fns m mupper mlower t cj xz Jac).exit = .returned 0) :
    (∃ outs, fns.calc_function "jacF" (self.argsJacF m t cj xz) = .ok outs ∧
      (self.bjac fns m mupper mlower t cj xz Jac).out.2 = writeAt m.jac 0 (outs.getD 0 [])) ∧
    (self.bjac fns m mupper mlower t cj xz Jac).out.1 =
      bandLoop (fns.sparsity_out "jacF") mupper mlower
        (self.bjac fns m mupper mlower t cj xz Jac).out.2 Jac := by
  revert h
  unfold IdasInterface.bjac
  cases fns.calc_function "jacF" (self.argsJacF m t cj xz) with
  | error e => cases e <;> simp [tryCatch]
  | ok outs =>
    cases self.get_function "jacF" with
    | error e => cases e <;> simp [tryCatch]
    | ok u => simp [tryCatch]

theorem bjacB_success {D S : Type} [LinearOrderedField D] (fns : Functions D)
    (self : IdasInterface D) (m : IdasMemory D S) (mupperB mlowerB : Int) (t cj : D)
    (xz rxz : List D) (JacB : DlsMat D)
    (h : (self.bjacB fns m mupperB mlowerB t cj xz rxz JacB).exit = .returned 0) :
    (∃ outs, fns.calc_function "jacB" (self.argsJacB m t cj xz rxz) = .ok outs ∧
      (self.bjacB fns m mupperB mlowerB t cj xz rxz JacB).out.2 =
        writeAt m.jacB 0 (outs.getD 0 [])) ∧
    (self.bjacB fns m mupperB mlowerB t cj xz rxz JacB).out.1 =
      bandLoop (fns.sparsity_out "jacB") mupperB mlowerB
        (self.bjacB fns m mupperB mlowerB t cj xz rxz JacB).out.2 JacB := by
  revert h
  unfold IdasInterface.bjacB
  cases fns.calc_function "jacB" (self.argsJacB m t cj xz rxz) with
  | error e => cases e <;> simp [tryCatch]
  | ok outs =>
    cases self.get_function "jacB" with
    | error e => cases e <;> simp [tryCatch]
    | ok u => simp [tryCatch]

theorem jacF_callbacks_return {D S : Type} [LinearOrderedField D] (fns : Functions D)
    (self : IdasInterface D) (m : IdasMemory D S) (t cj : D) (xz : List D) (Jac : DlsMat D)
    (mupper mlower : Int) (outs : List (List D))
    (hcalc : fns.calc_function "jacF" (self.argsJacF m t cj xz) = .ok outs)
    (hfun : "jacF" ∈ self.functions) :
    (self.djac fns m t cj xz Jac).exit = .returned 0 ∧
    (self.bjac fns m mupper mlower t cj xz Jac).exit = .returned 0 := by
  simp [IdasInterface.djac, IdasInterface.bjac, IdasInterface.get_function, hcalc, hfun,
    tryCatch]

theorem jacB_callbacks_return {D S : Type} [LinearOrderedField D] (fns : Functions D)
    (self : IdasInterface D) (m : IdasMemory D S) (t cj : D) (xz rxz : List D)
    (JacB : DlsMat D) (mupperB mlowerB : Int) (outs : List (List D))
    (hcalc : fns.calc_function "jacB" (self.argsJacB m t cj xz rxz) = .ok outs)
    (hfun : "jacB" ∈ self.functions) :
    (self.djacB fns m t cj xz rxz JacB).exit = .returned 0 ∧
    (self.bjacB fns m mupperB mlowerB t cj xz rxz JacB).exit = .returned 0 := by
  simp [IdasInterface.djacB, IdasInterface.bjacB, IdasInterface.get_function, hcalc, hfun,
    tryCatch]

/-- C30: for a valid compressed-column pattern of the output of `jacF`, a
successful `djac` leaves `Jac(row[el], cc) = jac[el]` for every column `cc`
and every `el` in `[colind[cc], colind[cc+1])`, where `jac` is the buffer
that `jacF` has written, and every element of `Jac` outside the pattern
unchanged; a successful `bjac` does the same for the nonzeros with
`cc - row[el] <= mupper` and `row[el] - cc <= mlower` and leaves every other
element unchanged, the nonzeros outside the band included.  `djacB` and
`bjacB` do the same with `jacB`.  Each of the four callbacks is successful
(returns 0) whenever its Jacobian function is registered and completes. -/
theorem jacobian_callbacks_fill_pattern {D S : Type} [LinearOrderedField D]
    (fns : Functions D) (self : IdasInterface D) (m : IdasMemory D S) (t cj : D)
    (xz rxz : List D) (Jac : DlsMat D) (mupper mlower : Int) :
    ((fns.sparsity_out "jacF").Valid →
      ((self.djac fns m t cj xz Jac).exit = .returned 0 →
        (∃ outs, fns.calc_function "jacF" (self.argsJacF m t cj xz) = .ok outs ∧
          (self.djac fns m t cj xz Jac).out.2 = writeAt m.jac 0 (outs.getD 0 [])) ∧
        FillsPattern (fun _ _ => true) (fns.sparsity_out "jacF")
          (self.djac fns m t cj xz Jac).out.2 Jac (self.djac fns m t cj xz Jac).out.1) ∧
      ((self.bjac fns m mupper mlower t cj xz Jac).exit = .returned 0 →
        (∃ outs, fns.calc_function "jacF" (self.argsJacF m t cj xz) = .ok outs ∧
          (self.bjac fns m mupper mlower t cj xz Jac).out.2 =
            writeAt m.jac 0 (outs.getD 0 [])) ∧
        FillsPattern ((fns.sparsity_out "jacF").inBand mupper mlower)
          (fns.sparsity_out "jacF") (self.bjac fns m mupper mlower t cj xz Jac).out.2 Jac
          (self.bjac fns m mupper mlower t cj xz Jac).out.1)) ∧
    ((fns.sparsity_out "jacB").Valid →
      ((self.djacB fns m t cj xz rxz Jac).exit = .returned 0 →
        (∃ outs, fns.calc_function "jacB" (self.argsJacB m t cj xz rxz) = .ok outs ∧
          (self.djacB fns m t cj xz rxz Jac).out.2 = writeAt m.jacB 0 (outs.getD 0 [])) ∧
        FillsPattern (fun _ _ => true) (fns.sparsity_out "jacB")
          (self.djacB fns m t cj xz rxz Jac).out.2 Jac
          (self.djacB fns m t cj xz rxz Jac).out.1) ∧
      ((self.bjacB fns m mupper mlower t cj xz rxz Jac).exit = .returned 0 →
        (∃ outs, fns.calc_function "jacB" (self.argsJacB m t cj xz rxz) = .ok outs ∧
          (self.bjacB fns m mupper mlower t cj xz rxz Jac).out.2 =
            writeAt m.jacB 0 (outs.getD 0 [])) ∧
        FillsPattern ((fns.sparsity_out "jacB").inBand mupper mlower)
          (fns.sparsity_out "jacB") (self.bjacB fns m mupper mlower t cj xz rxz Jac).out.2 Jac
          (self.bjacB fns m mupper mlower t cj xz rxz Jac).out.1)) ∧
    ((∃ outs, fns.calc_function "jacF" (self.argsJacF m t cj xz) = .ok outs) →
      "jacF" ∈ self.functions →
      (self.djac fns m t cj xz Jac).exit = .returned 0 ∧
      (self.bjac fns m mupper mlower t cj xz Jac).exit = .returned 0) ∧
    ((∃ outs, fns.calc_function "jacB" (self.argsJacB m t cj xz rxz) = .ok outs) →
      "jacB" ∈ self.functions →
      (self.djacB fns m t cj xz rxz Jac).exit = .returned 0 ∧
      (self.bjacB fns m mupper mlower t cj xz rxz Jac).exit = .returned 0) := by
  refine ⟨fun hv => ⟨fun h => ?_, fun h => ?_⟩, fun hv => ⟨fun h => ?_, fun h => ?_⟩,
    fun ⟨outs, hc⟩ hf => jacF_callbacks_return fns self m t cj xz Jac mupper mlower outs hc hf,
    fun ⟨outs, hc⟩ hf =>
      jacB_callbacks_return fns self m t cj xz rxz Jac mupper mlower outs hc hf⟩
  · obtain ⟨h1, h2⟩ := djac_success fns self m t cj xz Jac h
    refine ⟨h1, ?_⟩
    rw [h2, denseLoop_eq]
    exact patternLoop_spec _ _ _ _ hv
  · obtain ⟨h1, h2⟩ := bjac_success fns self m mupper mlower t cj xz Jac h
    refine ⟨h1, ?_⟩
    rw [h2, bandLoop_eq]
    exact patternLoop_spec _ _ _ _ hv
  · obtain ⟨h1, h2⟩ := djacB_success fns self m t cj xz rxz Jac h
    refine ⟨h1, ?_⟩
    rw [h2, denseLoop_eq]
    exact patternLoop_spec _ _ _ _ hv
  · obtain ⟨h1, h2⟩ := bjacB_success fns self m mupper mlower t cj xz rxz Jac h
    refine ⟨h1, ?_⟩
    rw [h2, bandLoop_eq]
    exact patternLoop_spec _ _ _ _ hv

theorem triangular_valid :
    Sparsity.Valid { colind := [0, 2, 3], row := [0, 1, 1], size2 := 2 } := by
  refine ⟨rfl, rfl, rfl, ?_, ?_⟩
  · intro cc hcc
    have h2 : cc < 2 := hcc
    interval_cases cc <;> decide
  · intro cc el el1 hcc h1 h2 h3
    have hc2 : cc < 2 := hcc
    interval_cases cc
    · have h3a : el1 < 2 := h3
      have e1 : el1 = 1 := by omega
      have e0 : el = 0 := by omega
      subst e1 e0
      decide
    · have h1a : 2 ≤ el := h1
      have h3a : el1 < 3 := h3
      omega

theorem jacobian_callbacks_fill_pattern_witness :
    ((triangularFunctions.sparsity_out "jacF").Valid ∧
      (exampleLinsolIntegrator.djac triangularFunctions exampleMemory 0 1 [0]
        (fun _ _ => 0)).exit = .returned 0 ∧
      (exampleLinsolIntegrator.djac triangularFunctions exampleMemory 0 1 [0]
        (fun _ _ => 0)).out.1 1 0 = 6 ∧
      (exampleLinsolIntegrator.bjac triangularFunctions exampleMemory 0 0 0 1 [0]
        (fun _ _ => 0)).exit = .returned 0 ∧
      (exampleLinsolIntegrator.bjac triangularFunctions exampleMemory 0 0 0 1 [0]
        (fun _ _ => 0)).out.1 1 1 = 7 ∧
      (exampleLinsolIntegrator.bjac triangularFunctions exampleMemory 0 0 0 1 [0]
        (fun _ _ => 0)).out.1 1 0 = 0) ∧
    ((triangularFunctions.sparsity_out "jacB").Valid ∧
      (exampleLinsolIntegrator.djacB triangularFunctions exampleMemory 0 1 [0] [0]
        (fun _ _ => 0)).exit = .returned 0 ∧
      (exampleLinsolIntegrator.djacB triangularFunctions exampleMemory 0 1 [0] [0]
        (fun _ _ => 0)).out.1 1 0 = 6 ∧
      (exampleLinsolIntegrator.bjacB triangularFunctions exampleMemory 0 0 0 1 [0] [0]
        (fun _ _ => 0)).exit = .returned 0 ∧
      (exampleLinsolIntegrator.bjacB triangularFunctions exampleMemory 0 0 0 1 [0] [0]
        (fun _ _ => 0)).out.1 1 1 = 7 ∧
      (exampleLinsolIntegrator.bjacB triangularFunctions exampleMemory 0 0 0 1 [0] [0]
        (fun _ _ => 0)).out.1 1 0 = 0) :=
  ⟨⟨triangular_valid,
    ((jacobian_callbacks_fill_pattern triangularFunctions exampleLinsolIntegrator
      exampleMemory 0 1 [0] [0] (fun _ _ => 0) 0 0).2.2.1 ⟨_, rfl⟩ (by decide)).1,
    (((jacobian_callbacks_fill_pattern triangularFunctions exampleLinsolIntegrator
      exampleMemory 0 1 [0] [0] (fun _ _ => 0) 0 0).1 triangular_valid).1 rfl).2.1
      0 1 ⟨by decide, by decide, by decide⟩ rfl,
    ((jacobian_callbacks_fill_pattern triangularFunctions exampleLinsolIntegrator
      exampleMemory 0 1 [0] [0] (fun _ _ => 0) 0 0).2.2.1 ⟨_, rfl⟩ (by decide)).2,
    (((jacobian_callbacks_fill_pattern triangularFunctions exampleLinsolIntegrator
      exampleMemory 0 1 [0] [0] (fun _ _ => 0) 0 0).1 triangular_valid).2 rfl).2.1
      1 2 ⟨by decide, by decide, by decide⟩ (by decide),
    (((jacobian_callbacks_fill_pattern triangularFunctions exampleLinsolIntegrator
      exampleMemory 0 1 [0] [0] (fun _ _ => 0) 0 0).1 triangular_valid).2 rfl).2.2
      1 0 (by
        rintro ⟨el, ⟨_, h1, h2⟩, hk, hrow⟩
        have h2a : el < 2 := h2
        interval_cases el
        · cases hrow
        · revert hk
          decide)⟩,
    ⟨triangular_valid,
    ((jacobian_callbacks_fill_pattern triangularFunctions exampleLinsolIntegrator
      exampleMemory 0 1 [0] [0] (fun _ _ => 0) 0 0).2.2.2 ⟨_, rfl⟩ (by decide)).1,
    (((jacobian_callbacks_fill_pattern triangularFunctions exampleLinsolIntegrator
      exampleMemory 0 1 [0] [0] (fun _ _ => 0) 0 0).2.1 triangular_valid).1 rfl).2.1
      0 1 ⟨by decide, by decide, by decide⟩ rfl,
    ((jacobian_callbacks_fill_pattern triangularFunctions exampleLinsolIntegrator
      exampleMemory 0 1 [0] [0] (fun _ _ => 0) 0 0).2.2.2 ⟨_, rfl⟩ (by decide)).2,
    (((jacobian_callbacks_fill_pattern triangularFunctions exampleLinsolIntegrator
      exampleMemory 0 1 [0] [0] (fun _ _ => 0) 0 0).2.1 triangular_valid).2 rfl).2.1
      1 2 ⟨by decide, by decide, by decide⟩ (by decide),
    (((jacobian_callbacks_fill_pattern triangularFunctions exampleLinsolIntegrator
      exampleMemory 0 1 [0] [0] (fun _ _ => 0) 0 0).2.1 triangular_valid).2 rfl).2.2
      1 0 (by
        rintro ⟨el, ⟨_, h1, h2⟩, hk, hrow⟩
        have h2a : el < 2 := h2
        interval_cases el
        · cases hrow
        · revert hk
          decide)⟩⟩

end CasADi
